import Mathlib

/-!
learning-opengl: the shader loader and the tutorial mains

A shallow embedding of `tut04/source/shader_utils.cpp` (`file_read`, `print_log`,
`create_shader`) and of the five tutorial programs (`init_resources`, `render`,
`free_resources`, `main_loop`, `main`).

The programs talk to two external collaborators, the SDL windowing library and the
OpenGL driver.  Both are parameters of the embedding (`Env`, `Driver`): whatever the
collaborator decides (which object name it issues, whether a shader compiles, what an
info log says, which location a name has, which events arrive) is an oracle, and what
the OpenGL specification fixes (a failed query leaves its out-parameter untouched,
names in use are not issued again, `glDeleteShader(0)` is ignored) is written out in
the corresponding operation.  Every call is appended to the trace `World.calls`,
together with the value the collaborator returned.

Text is `List Char`.  A value of C type `const char *` that the program only prints
or passes on (file names, attribute names, info logs) is represented by the
characters before its terminator.  The buffer built by `file_read` is represented
byte by byte, terminator included.
-/

namespace LearningOpenGL

/-! ## Constants -/

/-- The NUL character that terminates a C string. -/
def NUL : Char := Char.ofNat 0

/-- Value of `GL_FALSE`. -/
abbrev GL_FALSE : Int := 0

/-- Value of `GL_TRUE`. -/
abbrev GL_TRUE : Int := 1

/-- Value of `EXIT_SUCCESS`. -/
abbrev EXIT_SUCCESS : Int := 0

/-- Value of `EXIT_FAILURE`. -/
abbrev EXIT_FAILURE : Int := 1

/-- Value of `SDL_QUIT` (event type). -/
abbrev SDL_QUIT : Nat := 0x100

/-- Value of `SDL_WINDOWEVENT` (event type). -/
abbrev SDL_WINDOWEVENT : Nat := 0x200

/-- Value of `SDL_WINDOWEVENT_SIZE_CHANGED` (window event id). -/
abbrev SDL_WINDOWEVENT_SIZE_CHANGED : Nat := 6

/-- The two shader kinds the programs pass as `GLenum type`. -/
inductive ShaderType where
  | GL_VERTEX_SHADER
  | GL_FRAGMENT_SHADER
  deriving DecidableEq

/-- The parameter names the programs pass to `glGetShaderiv` and `glGetProgramiv`. -/
inductive PName where
  | GL_COMPILE_STATUS
  | GL_LINK_STATUS
  | GL_INFO_LOG_LENGTH
  deriving DecidableEq

/-- The buffer binding points the programs use. -/
inductive BufferTarget where
  | GL_ARRAY_BUFFER
  | GL_ELEMENT_ARRAY_BUFFER
  deriving DecidableEq

/-- The fields of `SDL_Event` that the programs read. -/
structure SDL_Event where
  type : Nat
  window_event : Nat
  window_data1 : Int
  window_data2 : Int
  deriving DecidableEq

/-- Functions whose entry is recorded in the trace. -/
inductive Fn where
  | main_loop
  | render
  deriving DecidableEq

/-! ## The trace of calls -/

/-- One call made by the program, with its arguments and, where the program reads it,
the value that came back.  For the two `glGet..iv` queries `reported` is `some v` when
the driver wrote `v` into the out-parameter and `none` when the query failed and left
it untouched.  Floating point arguments are not recorded. -/
inductive Call where
  | SDL_RWFromFile (filename : List Char) (opened : Bool)
  | SDL_GetError
  | glCreateShader (type : ShaderType) (ret : Nat)
  | glShaderSource (shader : Nat) (count : Nat) (string : List (List Char))
  | glCompileShader (shader : Nat)
  | glGetShaderiv (shader : Nat) (pname : PName) (reported : Option Int)
  | glIsShader (object : Nat) (ret : Bool)
  | glIsProgram (object : Nat) (ret : Bool)
  | glGetShaderInfoLog (shader : Nat) (bufSize : Int)
  | glGetProgramInfoLog (program : Nat) (bufSize : Int)
  | glDeleteShader (shader : Nat)
  | glCreateProgram (ret : Nat)
  | glAttachShader (program : Nat) (shader : Nat)
  | glLinkProgram (program : Nat)
  | glGetProgramiv (program : Nat) (pname : PName) (reported : Option Int)
  | glGetAttribLocation (program : Nat) (name : List Char) (ret : Int)
  | glGetUniformLocation (program : Nat) (name : List Char) (ret : Int)
  | glGenBuffers (n : Nat) (ret : Option Nat)
  | glBindBuffer (target : BufferTarget) (buffer : Nat)
  | glBufferData (target : BufferTarget) (size : Nat)
  | glDeleteProgram (program : Nat)
  | glDeleteBuffers (n : Nat) (buffer : Nat)
  | glUseProgram (program : Nat)
  | glUniform1f (location : Int)
  | glUniformMatrix4fv (location : Int) (count : Nat)
  | glEnableVertexAttribArray (index : Int)
  | glDisableVertexAttribArray (index : Int)
  | glVertexAttribPointer (index : Int) (size : Nat) (stride : Nat) (pointer : Option Nat)
  | glDrawArrays (first : Nat) (count : Nat)
  | glGetBufferParameteriv (target : BufferTarget) (reported : Option Int)
  | glDrawElements (count : Int)
  | glViewport (width : Int) (height : Int)
  | glState (name : String)
  | SDL_Init (ok : Bool)
  | sdl (name : String)
  | glewInit (ok : Bool)
  | SDL_PollEvent (ev : Option SDL_Event)
  | enter (fn : Fn)
  deriving DecidableEq

/-- Calls that go to the graphics driver (everything named `gl...`). -/
def Call.isGL : Call → Bool
  | .SDL_RWFromFile _ _ => false
  | .SDL_GetError => false
  | .SDL_Init _ => false
  | .sdl _ => false
  | .glewInit _ => false
  | .SDL_PollEvent _ => false
  | .enter _ => false
  | _ => true

/-! ## Program and driver state -/

/-- The file-scope variables of the tutorials (each tutorial declares a subset). -/
structure Globals where
  program : Nat := 0
  vbo_triangle : Nat := 0
  vbo_cube_vertices : Nat := 0
  vbo_cube_colors : Nat := 0
  ibo_cube_elements : Nat := 0
  attribute_coord2d : Int := 0
  attribute_coord3d : Int := 0
  attribute_v_color : Int := 0
  uniform_fade : Int := 0
  uniform_m_transform : Int := 0
  uniform_mvp : Int := 0
  screen_width : Int := 800
  screen_height : Int := 600
  deriving DecidableEq

/-- The state a run threads through: the trace, the driver's live objects, the error
stream, the program's globals.  `fault` is set when the program reads past the end of
a buffer it allocated; what such a read delivers is not determined by the program. -/
structure World where
  calls : List Call := []
  shaders : List Nat := []
  programs : List Nat := []
  buffers : List Nat := []
  array_buffer : Nat := 0
  element_array_buffer : Nat := 0
  buffer_size : List (Nat × Nat) := []
  current_program : Nat := 0
  err : List Char := []
  fault : Bool := false
  g : Globals := {}
  deriving DecidableEq

/-- What the driver decides.  Names proposed for new objects may depend on everything
that happened before; the properties of an object (status, log, locations) are fixed
per object. -/
structure Driver where
  createShader : List Call → ShaderType → Nat
  createProgram : List Call → Nat
  genBuffer : List Call → Nat
  compileStatus : Nat → Bool
  shaderInfoLog : Nat → List Char
  linkStatus : Nat → Bool
  programInfoLog : Nat → List Char
  attribLocation : Nat → List Char → Int
  uniformLocation : Nat → List Char → Int

/-- An open `SDL_RWops` stream: the size `SDL_RWsize` reports (`none` when it reports
`-1`, size unknown) and what the `k`-th `SDL_RWread` call delivers when asked for at
most `n` bytes. -/
structure SDL_RWops where
  size : Option Nat
  read : Nat → Nat → List Char

/-- Everything outside the program.  The four booleans after `sdlInit` are the outcomes
the mains test (each tutorial tests a subset); `sdlInit` tells whether `SDL_Init`
succeeds, a result every `main` discards (the trace keeps it). -/
structure Env where
  driver : Driver
  files : List Char → Option SDL_RWops
  sdlError : List Call → List Char
  sdlInit : Bool
  createWindow : Bool
  createContext : Bool
  glewOk : Bool
  glewVersion20 : Bool

/-- The characters of a string literal. -/
def str (s : String) : List Char := s.toList

/-- Append a call to the trace. -/
def emit (c : Call) (w : World) : World :=
  { w with calls := w.calls ++ [c] }

/-- Write text to the error stream: `cerr << s`. -/
def cerr (s : List Char) (w : World) : World :=
  { w with err := w.err ++ s }

/-- Write a character buffer to the error stream: `cerr << log`.  `some s` is a buffer
holding the terminated string `s`; `none` is a buffer without a terminator inside its
bounds, and streaming it reads past its end. -/
def cerr_buffer (log : Option (List Char)) (w : World) : World :=
  match log with
  | some s => cerr s w
  | none => { w with fault := true }

/-! ## Driver operations

Each operation appends its call to the trace.  The value the driver hands back is
computed first (`issueShader`, `shaderParam`, ...), so that the world after the call
is the same expression on every path. -/

/-- The live names after a creation call that returned `h` (0: nothing was created). -/
def addName (h : Nat) (names : List Nat) : List Nat :=
  if h = 0 then names else h :: names

/-- The name `glCreateShader` returns: the proposed name when it is non-zero and not
the name of a live shader or program, 0 (creation failed) otherwise. -/
def issueShader (d : Driver) (type : ShaderType) (calls : List Call)
    (shaders programs : List Nat) : Nat :=
  if d.createShader calls type ≠ 0 ∧ d.createShader calls type ∉ shaders ∧
      d.createShader calls type ∉ programs then d.createShader calls type
  else 0

/-- Model of `glCreateShader`. -/
def glCreateShader (d : Driver) (type : ShaderType) (w : World) : Nat × World :=
  let h := issueShader d type w.calls w.shaders w.programs
  (h, { emit (.glCreateShader type h) w with shaders := addName h w.shaders })

/-- The C string at the start of a buffer: the characters before the first NUL. -/
def c_str (buf : List Char) : List Char :=
  buf.takeWhile (fun c => c != NUL)

/-- Model of `glShaderSource(shader, count, string, nullptr)`: no lengths are passed, so
the driver takes each string up to its first NUL, and that is what the trace records. -/
def glShaderSource (shader : Nat) (count : Nat) (string : List (List Char)) (w : World) :
    World :=
  emit (.glShaderSource shader count (string.map c_str)) w

/-- Model of `glCompileShader`. -/
def glCompileShader (shader : Nat) (w : World) : World :=
  emit (.glCompileShader shader) w

/-- Value of `GL_INFO_LOG_LENGTH`: the length of the log including its terminator, 0
when there is no log. -/
def infoLogLength (log : List Char) : Int :=
  if log = [] then 0 else (log.length : Int) + 1

/-- Whether a name is a live shader object. -/
def isShader (object : Nat) (shaders : List Nat) : Bool :=
  decide (object ≠ 0 ∧ object ∈ shaders)

/-- Whether a name is a live program object. -/
def isProgram (object : Nat) (programs : List Nat) : Bool :=
  decide (object ≠ 0 ∧ object ∈ programs)

/-- What `glGetShaderiv(shader, pname, ..)` writes: nothing (`none`) when `shader` is
not a shader object or `pname` is not a shader parameter. -/
def shaderParam (d : Driver) (shader : Nat) (pname : PName) (shaders : List Nat) :
    Option Int :=
  if isShader shader shaders then
    match pname with
    | .GL_COMPILE_STATUS => some (if d.compileStatus shader then GL_TRUE else GL_FALSE)
    | .GL_INFO_LOG_LENGTH => some (infoLogLength (d.shaderInfoLog shader))
    | .GL_LINK_STATUS => none
  else none

/-- Model of `glGetShaderiv(shader, pname, &param)`; `param` is the value the variable
holds before the call, the result is the value it holds afterwards. -/
def glGetShaderiv (d : Driver) (shader : Nat) (pname : PName) (param : Int) (w : World) :
    Int × World :=
  let reported := shaderParam d shader pname w.shaders
  (reported.getD param, emit (.glGetShaderiv shader pname reported) w)

/-- What `glGetProgramiv(program, pname, ..)` writes. -/
def programParam (d : Driver) (program : Nat) (pname : PName) (programs : List Nat) :
    Option Int :=
  if isProgram program programs then
    match pname with
    | .GL_LINK_STATUS => some (if d.linkStatus program then GL_TRUE else GL_FALSE)
    | .GL_INFO_LOG_LENGTH => some (infoLogLength (d.programInfoLog program))
    | .GL_COMPILE_STATUS => none
  else none

/-- Model of `glGetProgramiv(program, pname, &param)`. -/
def glGetProgramiv (d : Driver) (program : Nat) (pname : PName) (param : Int) (w : World) :
    Int × World :=
  let reported := programParam d program pname w.programs
  (reported.getD param, emit (.glGetProgramiv program pname reported) w)

/-- Model of `glIsShader`. -/
def glIsShader (object : Nat) (w : World) : Bool × World :=
  (isShader object w.shaders, emit (.glIsShader object (isShader object w.shaders)) w)

/-- Model of `glIsProgram`. -/
def glIsProgram (object : Nat) (w : World) : Bool × World :=
  (isProgram object w.programs, emit (.glIsProgram object (isProgram object w.programs)) w)

/-- What an info-log fetch with capacity `bufSize` leaves in the buffer: at most
`bufSize - 1` characters of the log and a terminator (`some`); nothing at all when the
capacity is 0 (`none`: the buffer holds no terminated string). -/
def fetchLog (log : List Char) (bufSize : Int) : Option (List Char) :=
  if bufSize ≤ 0 then none else some (log.take (bufSize.toNat - 1))

/-- What `glGetShaderInfoLog` leaves in the buffer: nothing when `shader` is not a
shader object. -/
def fetchShaderLog (d : Driver) (shader : Nat) (bufSize : Int) (shaders : List Nat) :
    Option (List Char) :=
  if isShader shader shaders then fetchLog (d.shaderInfoLog shader) bufSize else none

/-- What `glGetProgramInfoLog` leaves in the buffer: nothing when `program` is not a
program object. -/
def fetchProgramLog (d : Driver) (program : Nat) (bufSize : Int) (programs : List Nat) :
    Option (List Char) :=
  if isProgram program programs then fetchLog (d.programInfoLog program) bufSize else none

/-- Model of `glGetShaderInfoLog(shader, bufSize, nullptr, log)` on a freshly allocated
buffer of `bufSize` bytes; the result is the buffer afterwards. -/
def glGetShaderInfoLog (d : Driver) (shader : Nat) (bufSize : Int) (w : World) :
    Option (List Char) × World :=
  (fetchShaderLog d shader bufSize w.shaders, emit (.glGetShaderInfoLog shader bufSize) w)

/-- Model of `glGetProgramInfoLog(program, bufSize, nullptr, log)`. -/
def glGetProgramInfoLog (d : Driver) (program : Nat) (bufSize : Int) (w : World) :
    Option (List Char) × World :=
  (fetchProgramLog d program bufSize w.programs, emit (.glGetProgramInfoLog program bufSize) w)

/-- The live names after a deletion call for `h` (0 is ignored). -/
def removeName (h : Nat) (names : List Nat) : List Nat :=
  if h = 0 then names else names.erase h

/-- Model of `glDeleteShader`: a live shader is released (none of the call sites
deletes an attached shader); 0 is ignored and unknown names change nothing. -/
def glDeleteShader (shader : Nat) (w : World) : World :=
  { emit (.glDeleteShader shader) w with shaders := removeName shader w.shaders }

/-- The name `glCreateProgram` returns: as for shaders, the proposed name when it is
non-zero and not in use, 0 (creation failed) otherwise. -/
def issueProgram (d : Driver) (calls : List Call) (shaders programs : List Nat) : Nat :=
  if d.createProgram calls ≠ 0 ∧ d.createProgram calls ∉ shaders ∧
      d.createProgram calls ∉ programs then d.createProgram calls
  else 0

/-- Model of `glCreateProgram`. -/
def glCreateProgram (d : Driver) (w : World) : Nat × World :=
  let h := issueProgram d w.calls w.shaders w.programs
  (h, { emit (.glCreateProgram h) w with programs := addName h w.programs })

/-- Model of `glAttachShader`. -/
def glAttachShader (program : Nat) (shader : Nat) (w : World) : World :=
  emit (.glAttachShader program shader) w

/-- Model of `glLinkProgram`. -/
def glLinkProgram (program : Nat) (w : World) : World :=
  emit (.glLinkProgram program) w

/-- The value `glGetAttribLocation` returns: the driver's answer for a live program,
-1 (with an error) for anything else. -/
def attribLocation (d : Driver) (program : Nat) (name : List Char) (programs : List Nat) :
    Int :=
  if isProgram program programs then d.attribLocation program name else -1

/-- Model of `glGetAttribLocation`. -/
def glGetAttribLocation (d : Driver) (program : Nat) (name : List Char) (w : World) :
    Int × World :=
  (attribLocation d program name w.programs,
    emit (.glGetAttribLocation program name (attribLocation d program name w.programs)) w)

/-- The value `glGetUniformLocation` returns. -/
def uniformLocation (d : Driver) (program : Nat) (name : List Char) (programs : List Nat) :
    Int :=
  if isProgram program programs then d.uniformLocation program name else -1

/-- Model of `glGetUniformLocation`. -/
def glGetUniformLocation (d : Driver) (program : Nat) (name : List Char) (w : World) :
    Int × World :=
  (uniformLocation d program name w.programs,
    emit (.glGetUniformLocation program name (uniformLocation d program name w.programs)) w)

/-- The name `glGenBuffers(1, ..)` hands out: the proposed name when it is non-zero
and not in use; `none` when the call fails. -/
def issueBuffer (d : Driver) (calls : List Call) (buffers : List Nat) : Option Nat :=
  if d.genBuffer calls ≠ 0 ∧ d.genBuffer calls ∉ buffers then some (d.genBuffer calls)
  else none

/-- Model of `glGenBuffers(1, &buffer)`; `buffer` is the value of the variable before
the call, the result its value afterwards (a failed call leaves it alone). -/
def glGenBuffers (d : Driver) (buffer : Nat) (w : World) : Nat × World :=
  let h := issueBuffer d w.calls w.buffers
  (h.getD buffer, { emit (.glGenBuffers 1 h) w with buffers := h.toList ++ w.buffers })

/-- The buffer bound to `point` after `buffer` was bound to `target`. -/
def rebind (target point : BufferTarget) (buffer old : Nat) : Nat :=
  if target = point then buffer else old

/-- Model of `glBindBuffer`. -/
def glBindBuffer (target : BufferTarget) (buffer : Nat) (w : World) : World :=
  { emit (.glBindBuffer target buffer) w with
      array_buffer := rebind target .GL_ARRAY_BUFFER buffer w.array_buffer
      element_array_buffer :=
        rebind target .GL_ELEMENT_ARRAY_BUFFER buffer w.element_array_buffer }

/-- The buffer bound to a target. -/
def boundBuffer (target : BufferTarget) (array_buffer element_array_buffer : Nat) : Nat :=
  match target with
  | .GL_ARRAY_BUFFER => array_buffer
  | .GL_ELEMENT_ARRAY_BUFFER => element_array_buffer

/-- The data-store sizes after `glBufferData` gave `size` bytes to buffer `b` (0: no
buffer is bound, nothing changes). -/
def resize (b size : Nat) (sizes : List (Nat × Nat)) : List (Nat × Nat) :=
  if b = 0 then sizes else (b, size) :: sizes

/-- Model of `glBufferData(target, size, data, GL_STATIC_DRAW)`: the buffer bound to
`target` gets a data store of `size` bytes (an error when nothing is bound). -/
def glBufferData (target : BufferTarget) (size : Nat) (w : World) : World :=
  { emit (.glBufferData target size) w with
      buffer_size := resize (boundBuffer target w.array_buffer w.element_array_buffer) size
        w.buffer_size }

/-- What `glGetBufferParameteriv(target, GL_BUFFER_SIZE, ..)` writes: the size of the
data store of the bound buffer; nothing when no buffer with a data store is bound. -/
def bufferParam (b : Nat) (sizes : List (Nat × Nat)) : Option Int :=
  if b = 0 then none else (sizes.lookup b).map Int.ofNat

/-- Model of `glGetBufferParameteriv(target, GL_BUFFER_SIZE, &size)` on an
uninitialised `size`: `none` when `size` stays uninitialised. -/
def glGetBufferParameteriv (target : BufferTarget) (w : World) : Option Int × World :=
  let size := bufferParam (boundBuffer target w.array_buffer w.element_array_buffer) w.buffer_size
  (size, emit (.glGetBufferParameteriv target size) w)

/-- Model of `glDeleteProgram`; 0 is ignored (the deferral of the deletion of a
program that is in use is not modelled). -/
def glDeleteProgram (program : Nat) (w : World) : World :=
  { emit (.glDeleteProgram program) w with programs := removeName program w.programs }

/-- Model of `glDeleteBuffers(1, &buffer)`; 0 is ignored. -/
def glDeleteBuffers (buffer : Nat) (w : World) : World :=
  { emit (.glDeleteBuffers 1 buffer) w with buffers := removeName buffer w.buffers }

/-- The current program after `glUseProgram(program)`. -/
def useName (program : Nat) (programs : List Nat) (current : Nat) : Nat :=
  if program = 0 ∨ program ∈ programs then program else current

/-- Model of `glUseProgram`: 0 and live programs become current, anything else is an
error. -/
def glUseProgram (program : Nat) (w : World) : World :=
  { emit (.glUseProgram program) w with
      current_program := useName program w.programs w.current_program }

/-! ## shader_utils.cpp -/

/-- Result of `SDL_RWsize`. -/
def SDL_RWsize (rw : SDL_RWops) : Int :=
  match rw.size with
  | some n => (n : Int)
  | none => -1

/-- The read loop of `file_read` (lines 34 to 38), unrolled at most `fuel` times.
Arguments: number of reads done, `nb_read_total`, `nb_read`, bytes stored so far.
Result: `nb_read_total`, `nb_read` and the bytes stored when the loop is left. -/
def file_read_loop (rw : SDL_RWops) (res_size : Int) :
    Nat → Nat → Int → Int → List Char → Int × Int × List Char
  | 0, _, nb_read_total, nb_read, buf => (nb_read_total, nb_read, buf)
  | fuel + 1, k, nb_read_total, nb_read, buf =>
    if nb_read_total < res_size ∧ nb_read ≠ 0 then
      let chunk := rw.read k (res_size - nb_read_total).toNat
      let nb_read : Int := (chunk.length : Int)
      file_read_loop rw res_size fuel (k + 1) (nb_read_total + nb_read) nb_read (buf ++ chunk)
    else
      (nb_read_total, nb_read, buf)

/-- Number of iterations given to the read loop: every iteration but the last one
adds at least one byte, so `res_size + 1` iterations are enough. -/
def file_read_fuel (res_size : Int) : Nat := (res_size + 1).toNat

/-- Embedding of `file_read`: `none` is the null pointer, `some buf` the buffer
returned (the bytes read followed by the terminator). -/
def file_read (files : List Char → Option SDL_RWops) (filename : List Char) :
    Option (List Char) :=
  match files filename with
  | none => none
  | some rw =>
    let res_size := SDL_RWsize rw
    let r := file_read_loop rw res_size (file_read_fuel res_size) 0 0 1 []
    if r.1 ≠ res_size then none
    else some (r.2.2 ++ [NUL])

/-- Lines 70 to 78 of `print_log`: allocate `log_length` bytes, fetch the log into
them, stream the buffer. -/
def print_log_fetch (d : Driver) (object : Nat) (log_length : Int) (w : World) : World :=
  let (isShader, w) := glIsShader object w
  if isShader then
    let (log, w) := glGetShaderInfoLog d object log_length w
    cerr_buffer log w
  else
    let (isProgram, w) := glIsProgram object w
    if isProgram then
      let (log, w) := glGetProgramInfoLog d object log_length w
      cerr_buffer log w
    else
      cerr_buffer none w

/-- Embedding of `print_log`. -/
def print_log (d : Driver) (object : Nat) (w : World) : World :=
  let log_length : Int := 0
  let (isShader, w) := glIsShader object w
  if isShader then
    let (log_length, w) := glGetShaderiv d object .GL_INFO_LOG_LENGTH log_length w
    print_log_fetch d object log_length w
  else
    let (isProgram, w) := glIsProgram object w
    if isProgram then
      let (log_length, w) := glGetProgramiv d object .GL_INFO_LOG_LENGTH log_length w
      print_log_fetch d object log_length w
    else
      cerr (str "printlog: Not a shader nor a program.\n") w

/-- Embedding of `create_shader`.  The call of `file_read` is recorded in the trace
as the `SDL_RWFromFile` call it starts with. -/
def create_shader (env : Env) (filename : List Char) (type : ShaderType) (w : World) :
    Nat × World :=
  let source := file_read env.files filename
  let w := emit (.SDL_RWFromFile filename (env.files filename).isSome) w
  match source with
  | none =>
    let msg := env.sdlError w.calls
    let w := emit .SDL_GetError w
    (0, cerr (str "Error opening " ++ filename ++ str ": " ++ msg ++ str "\n") w)
  | some source =>
    let (res, w) := glCreateShader env.driver type w
    let w := glShaderSource res 1 [source] w
    let w := glCompileShader res w
    let compile_ok : Int := GL_FALSE
    let (compile_ok, w) := glGetShaderiv env.driver res .GL_COMPILE_STATUS compile_ok w
    if compile_ok = GL_FALSE then
      let w := cerr (filename ++ str ":") w
      let w := print_log env.driver res w
      let w := glDeleteShader res w
      (0, w)
    else
      (res, w)

/-! ## The tutorial programs -/

/-- The event loop shared by the five `main_loop` functions: poll until the queue is
empty, then run one frame; return at the first `SDL_QUIT`.  The windowing system is
the list of the results of the successive `SDL_PollEvent` calls (`none`: no event
pending).  The boolean tells whether the loop returned; it is `false` when the list is
used up and the loop is still running. -/
def poll_loop (onEvent : SDL_Event → World → World) (frame : World → World) :
    List (Option SDL_Event) → World → Bool × World
  | [], w => (false, w)
  | none :: polls, w =>
    let w := emit (.SDL_PollEvent none) w
    poll_loop onEvent frame polls (frame w)
  | some ev :: polls, w =>
    let w := emit (.SDL_PollEvent (some ev)) w
    if ev.type = SDL_QUIT then (true, w)
    else poll_loop onEvent frame polls (onEvent ev w)

/-- The window, context and extension-loader set-up that opens `main` in tut02 to
tut05 (the same lines in the four files); `false` when `main` returns `EXIT_FAILURE`
from one of its checks. -/
def startup (env : Env) (w : World) : Bool × World :=
  let w := emit (.SDL_Init env.sdlInit) w
  let w := emit (.sdl "SDL_CreateWindow") w
  if env.createWindow = false then
    let msg := env.sdlError w.calls
    let w := emit .SDL_GetError w
    (false, cerr (str "Error: can\x27t create window: " ++ msg ++ str "\n") w)
  else
  let w := emit (.sdl "SDL_GL_SetAttribute") w
  let w := emit (.sdl "SDL_GL_SetAttribute") w
  let w := emit (.sdl "SDL_GL_CreateContext") w
  if env.createContext = false then
    let msg := env.sdlError w.calls
    let w := emit .SDL_GetError w
    (false, cerr (str "Error: SDL_GL_CreateContext: " ++ msg ++ str "\n") w)
  else
  let w := emit (.glewInit env.glewOk) w
  if env.glewOk = false then
    (false, cerr (str "Error: glewInit: \n") w)
  else
  if env.glewVersion20 = false then
    (false, cerr (str "Error: your graphics card doesn\x27t support OpenGL 2.0\n") w)
  else
    (true, w)

namespace Tut01

/-- The vertex shader source written in place in tut01. -/
def vs_source : List Char :=
  str "#version 120\nattribute vec2 coord2d;\nvoid main(void) \x7b\n\tgl_Position = vec4(coord2d, 0.0, 1.0);\n\x7d"

/-- The fragment shader source written in place in tut01. -/
def fs_source : List Char :=
  str "#version 120\nvoid main(void) \x7b\n\tgl_FragColor[0] = 0.0;\n\tgl_FragColor[1] = 0.0;\n\tgl_FragColor[2] = 1.0;\n\x7d"

/-- Embedding of tut01 `init_resources`. -/
def init_resources (env : Env) (w : World) : Bool × World :=
  let compile_ok : Int := GL_FALSE
  let link_ok : Int := GL_FALSE
  let (vs, w) := glCreateShader env.driver .GL_VERTEX_SHADER w
  let w := glShaderSource vs 1 [vs_source ++ [NUL]] w
  let w := glCompileShader vs w
  let (compile_ok, w) := glGetShaderiv env.driver vs .GL_COMPILE_STATUS compile_ok w
  if compile_ok = 0 then
    (false, cerr (str "Error in vertex shader\n") w)
  else
  let (fs, w) := glCreateShader env.driver .GL_FRAGMENT_SHADER w
  let w := glShaderSource fs 1 [fs_source ++ [NUL]] w
  let w := glCompileShader fs w
  let (compile_ok, w) := glGetShaderiv env.driver fs .GL_COMPILE_STATUS compile_ok w
  if compile_ok = 0 then
    (false, cerr (str "Error in fragment shader\n") w)
  else
  let (program, w) := glCreateProgram env.driver w
  let w := { w with g := { w.g with program := program } }
  let w := glAttachShader w.g.program vs w
  let w := glAttachShader w.g.program fs w
  let w := glLinkProgram w.g.program w
  let (link_ok, w) := glGetProgramiv env.driver w.g.program .GL_LINK_STATUS link_ok w
  if link_ok = 0 then
    (false, cerr (str "Error in glLinkProgram\n") w)
  else
  let attribute_name := str "coord2d"
  let (loc, w) := glGetAttribLocation env.driver w.g.program attribute_name w
  let w := { w with g := { w.g with attribute_coord2d := loc } }
  if w.g.attribute_coord2d = -1 then
    (false, cerr (str "Could not bind attribute " ++ attribute_name ++ str "\n") w)
  else
    (true, w)

/-- Embedding of tut01 `render`. -/
def render (w : World) : World :=
  let w := emit (.enter .render) w
  let w := emit (.glState "glClearColor") w
  let w := emit (.glState "glClear") w
  let w := glUseProgram w.g.program w
  let w := emit (.glEnableVertexAttribArray w.g.attribute_coord2d) w
  let w := emit (.glVertexAttribPointer w.g.attribute_coord2d 2 0 none) w
  let w := emit (.glDrawArrays 0 3) w
  let w := emit (.glDisableVertexAttribArray w.g.attribute_coord2d) w
  emit (.sdl "SDL_GL_SwapWindow") w

/-- Embedding of tut01 `free_resources`. -/
def free_resources (w : World) : World :=
  glDeleteProgram w.g.program w

/-- Embedding of tut01 `main_loop`. -/
def main_loop (_env : Env) (polls : List (Option SDL_Event)) (w : World) : Bool × World :=
  poll_loop (fun _ w => w) render polls (emit (.enter .main_loop) w)

/-- Embedding of tut01 `main` (no check on the window or the context);
`none` when `main_loop` has not returned by the end of the polled events. -/
def main (env : Env) (polls : List (Option SDL_Event)) : Option Int × World :=
  let w : World := {}
  let w := emit (.SDL_Init env.sdlInit) w
  let w := emit (.sdl "SDL_CreateWindow") w
  let w := emit (.sdl "SDL_GL_CreateContext") w
  let w := emit (.glewInit env.glewOk) w
  if env.glewOk = false then
    (some EXIT_FAILURE, cerr (str "Error: glewInit: \n") w)
  else
  let (ok, w) := init_resources env w
  if ok = false then (some EXIT_FAILURE, w)
  else
  let (returned, w) := main_loop env polls w
  if returned = false then (none, w)
  else
  let w := free_resources w
  (some EXIT_SUCCESS, w)

end Tut01

namespace Tut02

/-- Path of the vertex shader. -/
def TRIANGLE_VERTEX_SHADER : List Char := str "glsl/triangle.v.glsl"

/-- Path of the fragment shader. -/
def TRIANGLE_FRAGMENT_SHADER : List Char := str "glsl/triangle.f.glsl"

/-- Lines of `init_resources` before the shaders are loaded: the vertex data is
uploaded (24 bytes). -/
def init_buffers (env : Env) (w : World) : World :=
  let (vbo, w) := glGenBuffers env.driver w.g.vbo_triangle w
  let w := { w with g := { w.g with vbo_triangle := vbo } }
  let w := glBindBuffer .GL_ARRAY_BUFFER w.g.vbo_triangle w
  glBufferData .GL_ARRAY_BUFFER 24 w

/-- Embedding of tut02 `init_resources`. -/
def init_resources (env : Env) (w : World) : Bool × World :=
  let w := init_buffers env w
  let (vs, w) := create_shader env TRIANGLE_VERTEX_SHADER .GL_VERTEX_SHADER w
  if vs = 0 then (false, w)
  else
  let (fs, w) := create_shader env TRIANGLE_FRAGMENT_SHADER .GL_FRAGMENT_SHADER w
  if fs = 0 then (false, w)
  else
  let (program, w) := glCreateProgram env.driver w
  let w := { w with g := { w.g with program := program } }
  let w := glAttachShader w.g.program vs w
  let w := glAttachShader w.g.program fs w
  let w := glLinkProgram w.g.program w
  let link_ok : Int := GL_FALSE
  let (link_ok, w) := glGetProgramiv env.driver w.g.program .GL_LINK_STATUS link_ok w
  if link_ok = GL_FALSE then
    let w := cerr (str "glLinkProgram: ") w
    let w := print_log env.driver w.g.program w
    (false, w)
  else
  let attribute_name := str "coord2d"
  let (loc, w) := glGetAttribLocation env.driver w.g.program attribute_name w
  let w := { w with g := { w.g with attribute_coord2d := loc } }
  if w.g.attribute_coord2d = -1 then
    (false, cerr (str "Could not bind attribute " ++ attribute_name ++ str "\n") w)
  else
    (true, w)

/-- Embedding of `render`. -/
def render (w : World) : World :=
  let w := emit (.enter .render) w
  let w := emit (.glState "glEnable(GL_BLEND)") w
  let w := emit (.glState "glBlendFunc") w
  let w := emit (.glState "glClearColor") w
  let w := emit (.glState "glClear") w
  let w := glUseProgram w.g.program w
  let w := glBindBuffer .GL_ARRAY_BUFFER w.g.vbo_triangle w
  let w := emit (.glEnableVertexAttribArray w.g.attribute_coord2d) w
  let w := emit (.glVertexAttribPointer w.g.attribute_coord2d 2 0 (some 0)) w
  let w := emit (.glDrawArrays 0 3) w
  let w := emit (.glDisableVertexAttribArray w.g.attribute_coord2d) w
  emit (.sdl "SDL_GL_SwapWindow") w

/-- Embedding of `free_resources`. -/
def free_resources (w : World) : World :=
  let w := glDeleteProgram w.g.program w
  glDeleteBuffers w.g.vbo_triangle w

/-- Embedding of tut02 `main_loop`. -/
def main_loop (_env : Env) (polls : List (Option SDL_Event)) (w : World) : Bool × World :=
  poll_loop (fun _ w => w) render polls (emit (.enter .main_loop) w)

/-- Embedding of `main`; `none` when `main_loop` has not returned by the end of the
polled events. -/
def main (env : Env) (polls : List (Option SDL_Event)) : Option Int × World :=
  let (ok, w) := startup env {}
  if ok = false then (some EXIT_FAILURE, w)
  else
  let (ok, w) := init_resources env w
  if ok = false then (some EXIT_FAILURE, w)
  else
  let (returned, w) := main_loop env polls w
  if returned = false then (none, w)
  else
  let w := free_resources w
  (some EXIT_SUCCESS, w)

end Tut02

namespace Tut03

/-- Path of the vertex shader. -/
def TRIANGLE_VERTEX_SHADER : List Char := str "glsl/triangle.v.glsl"

/-- Path of the fragment shader. -/
def TRIANGLE_FRAGMENT_SHADER : List Char := str "glsl/triangle.f.glsl"

/-- Lines of `init_resources` before the shaders are loaded: the vertex data is
uploaded (60 bytes). -/
def init_buffers (env : Env) (w : World) : World :=
  let (vbo, w) := glGenBuffers env.driver w.g.vbo_triangle w
  let w := { w with g := { w.g with vbo_triangle := vbo } }
  let w := glBindBuffer .GL_ARRAY_BUFFER w.g.vbo_triangle w
  glBufferData .GL_ARRAY_BUFFER 60 w

/-- Embedding of tut03 `init_resources`. -/
def init_resources (env : Env) (w : World) : Bool × World :=
  let w := init_buffers env w
  let (vs, w) := create_shader env TRIANGLE_VERTEX_SHADER .GL_VERTEX_SHADER w
  if vs = 0 then (false, w)
  else
  let (fs, w) := create_shader env TRIANGLE_FRAGMENT_SHADER .GL_FRAGMENT_SHADER w
  if fs = 0 then (false, w)
  else
  let (program, w) := glCreateProgram env.driver w
  let w := { w with g := { w.g with program := program } }
  let w := glAttachShader w.g.program vs w
  let w := glAttachShader w.g.program fs w
  let w := glLinkProgram w.g.program w
  let link_ok : Int := GL_FALSE
  let (link_ok, w) := glGetProgramiv env.driver w.g.program .GL_LINK_STATUS link_ok w
  if link_ok = GL_FALSE then
    let w := cerr (str "glLinkProgram: ") w
    let w := print_log env.driver w.g.program w
    (false, w)
  else
  let attribute_name := str "coord2d"
  let (loc, w) := glGetAttribLocation env.driver w.g.program attribute_name w
  let w := { w with g := { w.g with attribute_coord2d := loc } }
  if w.g.attribute_coord2d = -1 then
    (false, cerr (str "Could not bind attribute " ++ attribute_name ++ str "\n") w)
  else
  let attribute_name := str "v_color"
  let (loc, w) := glGetAttribLocation env.driver w.g.program attribute_name w
  let w := { w with g := { w.g with attribute_v_color := loc } }
  if w.g.attribute_v_color = -1 then
    (false, cerr (str "Could not bind attribute " ++ attribute_name ++ str "\n") w)
  else
  let uniform_name := str "fade"
  let (loc, w) := glGetUniformLocation env.driver w.g.program uniform_name w
  let w := { w with g := { w.g with uniform_fade := loc } }
  if w.g.uniform_fade = -1 then
    (false, cerr (str "Could not bind uniform_fade " ++ uniform_name ++ str "\n") w)
  else
    (true, w)

/-- Embedding of `render`. -/
def render (w : World) : World :=
  let w := emit (.enter .render) w
  let w := emit (.glState "glEnable(GL_BLEND)") w
  let w := emit (.glState "glBlendFunc") w
  let w := emit (.glState "glClearColor") w
  let w := emit (.glState "glClear") w
  let w := glUseProgram w.g.program w
  let w := glBindBuffer .GL_ARRAY_BUFFER w.g.vbo_triangle w
  let w := emit (.glEnableVertexAttribArray w.g.attribute_coord2d) w
  let w := emit (.glEnableVertexAttribArray w.g.attribute_v_color) w
  let w := glBindBuffer .GL_ARRAY_BUFFER w.g.vbo_triangle w
  let w := emit (.glVertexAttribPointer w.g.attribute_coord2d 2 20 (some 0)) w
  let w := emit (.glVertexAttribPointer w.g.attribute_v_color 3 20 (some 8)) w
  let w := emit (.glDrawArrays 0 3) w
  let w := emit (.glDisableVertexAttribArray w.g.attribute_coord2d) w
  let w := emit (.glDisableVertexAttribArray w.g.attribute_v_color) w
  emit (.sdl "SDL_GL_SwapWindow") w

/-- Embedding of `free_resources`. -/
def free_resources (w : World) : World :=
  let w := glDeleteProgram w.g.program w
  glDeleteBuffers w.g.vbo_triangle w

/-- Embedding of `uniform_logic` (the fade value is a float and is not recorded). -/
def uniform_logic (w : World) : World :=
  let w := emit (.sdl "SDL_GetTicks") w
  let w := glUseProgram w.g.program w
  emit (.glUniform1f w.g.uniform_fade) w

/-- Embedding of tut03 `main_loop`. -/
def main_loop (_env : Env) (polls : List (Option SDL_Event)) (w : World) : Bool × World :=
  poll_loop (fun _ w => w) (fun w => render (uniform_logic w)) polls
    (emit (.enter .main_loop) w)

/-- Embedding of `main`; `none` when `main_loop` has not returned by the end of the
polled events. -/
def main (env : Env) (polls : List (Option SDL_Event)) : Option Int × World :=
  let (ok, w) := startup env {}
  if ok = false then (some EXIT_FAILURE, w)
  else
  let (ok, w) := init_resources env w
  if ok = false then (some EXIT_FAILURE, w)
  else
  let (returned, w) := main_loop env polls w
  if returned = false then (none, w)
  else
  let w := free_resources w
  (some EXIT_SUCCESS, w)

end Tut03

namespace Tut04

/-- Path of the vertex shader. -/
def TRIANGLE_VERTEX_SHADER : List Char := str "glsl/triangle.v.glsl"

/-- Path of the fragment shader. -/
def TRIANGLE_FRAGMENT_SHADER : List Char := str "glsl/triangle.f.glsl"

/-- Lines of `init_resources` before the shaders are loaded: the vertex data is
uploaded (72 bytes). -/
def init_buffers (env : Env) (w : World) : World :=
  let (vbo, w) := glGenBuffers env.driver w.g.vbo_triangle w
  let w := { w with g := { w.g with vbo_triangle := vbo } }
  let w := glBindBuffer .GL_ARRAY_BUFFER w.g.vbo_triangle w
  glBufferData .GL_ARRAY_BUFFER 72 w

/-- Embedding of tut04 `init_resources`. -/
def init_resources (env : Env) (w : World) : Bool × World :=
  let w := init_buffers env w
  let (vs, w) := create_shader env TRIANGLE_VERTEX_SHADER .GL_VERTEX_SHADER w
  if vs = 0 then (false, w)
  else
  let (fs, w) := create_shader env TRIANGLE_FRAGMENT_SHADER .GL_FRAGMENT_SHADER w
  if fs = 0 then (false, w)
  else
  let (program, w) := glCreateProgram env.driver w
  let w := { w with g := { w.g with program := program } }
  let w := glAttachShader w.g.program vs w
  let w := glAttachShader w.g.program fs w
  let w := glLinkProgram w.g.program w
  let link_ok : Int := GL_FALSE
  let (link_ok, w) := glGetProgramiv env.driver w.g.program .GL_LINK_STATUS link_ok w
  if link_ok = GL_FALSE then
    let w := cerr (str "glLinkProgram: ") w
    let w := print_log env.driver w.g.program w
    (false, w)
  else
  let attribute_name := str "coord3d"
  let (loc, w) := glGetAttribLocation env.driver w.g.program attribute_name w
  let w := { w with g := { w.g with attribute_coord3d := loc } }
  if w.g.attribute_coord3d = -1 then
    (false, cerr (str "Could not bind attribute " ++ attribute_name ++ str "\n") w)
  else
  let attribute_name := str "v_color"
  let (loc, w) := glGetAttribLocation env.driver w.g.program attribute_name w
  let w := { w with g := { w.g with attribute_v_color := loc } }
  if w.g.attribute_v_color = -1 then
    (false, cerr (str "Could not bind attribute " ++ attribute_name ++ str "\n") w)
  else
  let uniform_name := str "fade"
  let (loc, w) := glGetUniformLocation env.driver w.g.program uniform_name w
  let w := { w with g := { w.g with uniform_fade := loc } }
  if w.g.uniform_fade = -1 then
    (false, cerr (str "Could not bind uniform_fade " ++ uniform_name ++ str "\n") w)
  else
  let uniform_name := str "m_transform"
  let (loc, w) := glGetUniformLocation env.driver w.g.program uniform_name w
  let w := { w with g := { w.g with uniform_m_transform := loc } }
  if w.g.uniform_m_transform = -1 then
    (false, cerr (str "Could not bind uniform " ++ uniform_name ++ str "\n") w)
  else
    (true, w)

/-- Embedding of `render`. -/
def render (w : World) : World :=
  let w := emit (.enter .render) w
  let w := emit (.glState "glEnable(GL_BLEND)") w
  let w := emit (.glState "glBlendFunc") w
  let w := emit (.glState "glClearColor") w
  let w := emit (.glState "glClear") w
  let w := glUseProgram w.g.program w
  let w := glBindBuffer .GL_ARRAY_BUFFER w.g.vbo_triangle w
  let w := emit (.glEnableVertexAttribArray w.g.attribute_coord3d) w
  let w := emit (.glEnableVertexAttribArray w.g.attribute_v_color) w
  let w := glBindBuffer .GL_ARRAY_BUFFER w.g.vbo_triangle w
  let w := emit (.glVertexAttribPointer w.g.attribute_coord3d 3 24 (some 0)) w
  let w := emit (.glVertexAttribPointer w.g.attribute_v_color 3 24 (some 12)) w
  let w := emit (.glDrawArrays 0 3) w
  let w := emit (.glDisableVertexAttribArray w.g.attribute_coord3d) w
  let w := emit (.glDisableVertexAttribArray w.g.attribute_v_color) w
  emit (.sdl "SDL_GL_SwapWindow") w

/-- Embedding of `free_resources`. -/
def free_resources (w : World) : World :=
  let w := glDeleteProgram w.g.program w
  glDeleteBuffers w.g.vbo_triangle w

/-- Embedding of tut04 `input_logic` (matrix and fade values are floats and are not
recorded). -/
def input_logic (w : World) : World :=
  let w := emit (.sdl "SDL_GetTicks") w
  let w := emit (.sdl "SDL_GetTicks") w
  let w := emit (.glUniformMatrix4fv w.g.uniform_m_transform 1) w
  let w := emit (.sdl "SDL_GetTicks") w
  let w := glUseProgram w.g.program w
  emit (.glUniform1f w.g.uniform_fade) w

/-- Embedding of tut04 `main_loop`. -/
def main_loop (_env : Env) (polls : List (Option SDL_Event)) (w : World) : Bool × World :=
  poll_loop (fun _ w => w) (fun w => render (input_logic w)) polls
    (emit (.enter .main_loop) w)

/-- Embedding of `main`; `none` when `main_loop` has not returned by the end of the
polled events. -/
def main (env : Env) (polls : List (Option SDL_Event)) : Option Int × World :=
  let (ok, w) := startup env {}
  if ok = false then (some EXIT_FAILURE, w)
  else
  let (ok, w) := init_resources env w
  if ok = false then (some EXIT_FAILURE, w)
  else
  let (returned, w) := main_loop env polls w
  if returned = false then (none, w)
  else
  let w := free_resources w
  (some EXIT_SUCCESS, w)

end Tut04

namespace Tut05

/-- Path of the vertex shader. -/
def CUBE_VERTEX_SHADER : List Char := str "glsl/cube.v.glsl"

/-- Path of the fragment shader. -/
def CUBE_FRAGMENT_SHADER : List Char := str "glsl/cube.f.glsl"

/-- Lines of `init_resources` before the shaders are loaded: vertices (96 bytes),
colours (96 bytes) and the element indices (72 bytes) are uploaded. -/
def init_buffers (env : Env) (w : World) : World :=
  let (vbo, w) := glGenBuffers env.driver w.g.vbo_cube_vertices w
  let w := { w with g := { w.g with vbo_cube_vertices := vbo } }
  let w := glBindBuffer .GL_ARRAY_BUFFER w.g.vbo_cube_vertices w
  let w := glBufferData .GL_ARRAY_BUFFER 96 w
  let (vbo, w) := glGenBuffers env.driver w.g.vbo_cube_colors w
  let w := { w with g := { w.g with vbo_cube_colors := vbo } }
  let w := glBindBuffer .GL_ARRAY_BUFFER w.g.vbo_cube_colors w
  let w := glBufferData .GL_ARRAY_BUFFER 96 w
  let (ibo, w) := glGenBuffers env.driver w.g.ibo_cube_elements w
  let w := { w with g := { w.g with ibo_cube_elements := ibo } }
  let w := glBindBuffer .GL_ELEMENT_ARRAY_BUFFER w.g.ibo_cube_elements w
  glBufferData .GL_ELEMENT_ARRAY_BUFFER 72 w

/-- Embedding of tut05 `init_resources`. -/
def init_resources (env : Env) (w : World) : Bool × World :=
  let w := init_buffers env w
  let (vs, w) := create_shader env CUBE_VERTEX_SHADER .GL_VERTEX_SHADER w
  if vs = 0 then (false, w)
  else
  let (fs, w) := create_shader env CUBE_FRAGMENT_SHADER .GL_FRAGMENT_SHADER w
  if fs = 0 then (false, w)
  else
  let (program, w) := glCreateProgram env.driver w
  let w := { w with g := { w.g with program := program } }
  let w := glAttachShader w.g.program vs w
  let w := glAttachShader w.g.program fs w
  let w := glLinkProgram w.g.program w
  let link_ok : Int := GL_FALSE
  let (link_ok, w) := glGetProgramiv env.driver w.g.program .GL_LINK_STATUS link_ok w
  if link_ok = GL_FALSE then
    let w := cerr (str "glLinkProgram: ") w
    let w := print_log env.driver w.g.program w
    (false, w)
  else
  let attribute_name := str "coord3d"
  let (loc, w) := glGetAttribLocation env.driver w.g.program attribute_name w
  let w := { w with g := { w.g with attribute_coord3d := loc } }
  if w.g.attribute_coord3d = -1 then
    (false, cerr (str "Could not bind attribute " ++ attribute_name ++ str "\n") w)
  else
  let attribute_name := str "v_color"
  let (loc, w) := glGetAttribLocation env.driver w.g.program attribute_name w
  let w := { w with g := { w.g with attribute_v_color := loc } }
  if w.g.attribute_v_color = -1 then
    (false, cerr (str "Could not bind attribute " ++ attribute_name ++ str "\n") w)
  else
  let uniform_name := str "mvp"
  let (loc, w) := glGetUniformLocation env.driver w.g.program uniform_name w
  let w := { w with g := { w.g with uniform_mvp := loc } }
  if w.g.uniform_mvp = -1 then
    (false, cerr (str "Could not bind uniform " ++ uniform_name ++ str "\n") w)
  else
    (true, w)

/-- Embedding of tut05 `render`.  `size` is read uninitialised when the buffer-size
query fails; the model then records a fault and a draw of 0 elements. -/
def render (w : World) : World :=
  let w := emit (.enter .render) w
  let w := emit (.glState "glClearColor") w
  let w := emit (.glState "glClear") w
  let w := glUseProgram w.g.program w
  let w := emit (.glEnableVertexAttribArray w.g.attribute_coord3d) w
  let w := glBindBuffer .GL_ARRAY_BUFFER w.g.vbo_cube_vertices w
  let w := emit (.glVertexAttribPointer w.g.attribute_coord3d 3 0 (some 0)) w
  let w := emit (.glEnableVertexAttribArray w.g.attribute_v_color) w
  let w := glBindBuffer .GL_ARRAY_BUFFER w.g.vbo_cube_colors w
  let w := emit (.glVertexAttribPointer w.g.attribute_v_color 3 0 (some 0)) w
  let w := glBindBuffer .GL_ELEMENT_ARRAY_BUFFER w.g.ibo_cube_elements w
  let (size, w) := glGetBufferParameteriv .GL_ELEMENT_ARRAY_BUFFER w
  let w :=
    match size with
    | some size => emit (.glDrawElements (size / 2)) w
    | none => emit (.glDrawElements 0) { w with fault := true }
  let w := emit (.glDisableVertexAttribArray w.g.attribute_coord3d) w
  let w := emit (.glDisableVertexAttribArray w.g.attribute_v_color) w
  emit (.sdl "SDL_GL_SwapWindow") w

/-- Embedding of tut05 `free_resources`. -/
def free_resources (w : World) : World :=
  let w := glDeleteProgram w.g.program w
  let w := glDeleteBuffers w.g.vbo_cube_vertices w
  let w := glDeleteBuffers w.g.vbo_cube_colors w
  glDeleteBuffers w.g.ibo_cube_elements w

/-- Embedding of tut05 `input_logic` (the matrix is made of floats and is not
recorded). -/
def input_logic (w : World) : World :=
  let w := emit (.sdl "SDL_GetTicks") w
  let w := emit (.glUniformMatrix4fv w.g.uniform_mvp 1) w
  glUseProgram w.g.program w

/-- Embedding of `on_resize`. -/
def on_resize (width : Int) (height : Int) (w : World) : World :=
  let w := { w with g := { w.g with screen_width := width, screen_height := height } }
  emit (.glViewport w.g.screen_width w.g.screen_height) w

/-- The body of the inner loop of tut05 `main_loop` for an event that is not
`SDL_QUIT`. -/
def on_event (ev : SDL_Event) (w : World) : World :=
  if ev.type = SDL_WINDOWEVENT ∧ ev.window_event = SDL_WINDOWEVENT_SIZE_CHANGED then
    on_resize ev.window_data1 ev.window_data2 w
  else w

/-- Embedding of tut05 `main_loop`. -/
def main_loop (_env : Env) (polls : List (Option SDL_Event)) (w : World) : Bool × World :=
  poll_loop on_event (fun w => render (input_logic w)) polls (emit (.enter .main_loop) w)

/-- Embedding of `main`; `none` when `main_loop` has not returned by the end of the
polled events. -/
def main (env : Env) (polls : List (Option SDL_Event)) : Option Int × World :=
  let (ok, w) := startup env {}
  if ok = false then (some EXIT_FAILURE, w)
  else
  let (ok, w) := init_resources env w
  if ok = false then (some EXIT_FAILURE, w)
  else
  let w := emit (.glState "glEnable(GL_DEPTH_TEST)") w
  let (returned, w) := main_loop env polls w
  if returned = false then (none, w)
  else
  let w := free_resources w
  (some EXIT_SUCCESS, w)

end Tut05

/-- The four tutorials built on `shader_utils`. -/
inductive Tut where
  | tut02
  | tut03
  | tut04
  | tut05
  deriving DecidableEq

/-- The vertex shader file a tutorial loads. -/
def Tut.vertexShader : Tut → List Char
  | .tut02 => Tut02.TRIANGLE_VERTEX_SHADER
  | .tut03 => Tut03.TRIANGLE_VERTEX_SHADER
  | .tut04 => Tut04.TRIANGLE_VERTEX_SHADER
  | .tut05 => Tut05.CUBE_VERTEX_SHADER

/-- The fragment shader file a tutorial loads. -/
def Tut.fragmentShader : Tut → List Char
  | .tut02 => Tut02.TRIANGLE_FRAGMENT_SHADER
  | .tut03 => Tut03.TRIANGLE_FRAGMENT_SHADER
  | .tut04 => Tut04.TRIANGLE_FRAGMENT_SHADER
  | .tut05 => Tut05.CUBE_FRAGMENT_SHADER

/-- The buffer uploads that open `init_resources`. -/
def Tut.init_buffers : Tut → Env → World → World
  | .tut02 => Tut02.init_buffers
  | .tut03 => Tut03.init_buffers
  | .tut04 => Tut04.init_buffers
  | .tut05 => Tut05.init_buffers

/-- The function `init_resources` of a tutorial. -/
def Tut.init_resources : Tut → Env → World → Bool × World
  | .tut02 => Tut02.init_resources
  | .tut03 => Tut03.init_resources
  | .tut04 => Tut04.init_resources
  | .tut05 => Tut05.init_resources

/-- The function `main` of a tutorial. -/
def Tut.main : Tut → Env → List (Option SDL_Event) → Option Int × World
  | .tut02 => Tut02.main
  | .tut03 => Tut03.main
  | .tut04 => Tut04.main
  | .tut05 => Tut05.main

/-- The calls made between world `w` and a later world `w1`. -/
def newCalls (w w1 : World) : List Call :=
  w1.calls.drop w.calls.length

/-- The text written to the error stream between world `w` and a later world `w1`. -/
def newErr (w w1 : World) : List Char :=
  w1.err.drop w.err.length

/-! ## Sections of `init_resources`

`init_resources` is embedded in one piece above.  The definitions below name its
sections, so that statements can speak about the state between two of them;
`tut_init_resources_eq` shows that the sections compose to the function. -/

/-- The section of `init_resources` (tut02 to tut05, the same lines in the four files)
that creates the program, attaches both shaders, links and reads the link status;
the result is `link_ok`. -/
def link_shaders (env : Env) (vs fs : Nat) (w : World) : Int × World :=
  let (program, w) := glCreateProgram env.driver w
  let w := { w with g := { w.g with program := program } }
  let w := glAttachShader w.g.program vs w
  let w := glAttachShader w.g.program fs w
  let w := glLinkProgram w.g.program w
  let link_ok : Int := GL_FALSE
  glGetProgramiv env.driver w.g.program .GL_LINK_STATUS link_ok w

/-- The section of tut02 `init_resources` that resolves the shader inputs. -/
def Tut02.bind_inputs (env : Env) (w : World) : Bool × World :=
  let attribute_name := str "coord2d"
  let (loc, w) := glGetAttribLocation env.driver w.g.program attribute_name w
  let w := { w with g := { w.g with attribute_coord2d := loc } }
  if w.g.attribute_coord2d = -1 then
    (false, cerr (str "Could not bind attribute " ++ attribute_name ++ str "\n") w)
  else
    (true, w)

/-- The section of tut03 `init_resources` that resolves the shader inputs. -/
def Tut03.bind_inputs (env : Env) (w : World) : Bool × World :=
  let attribute_name := str "coord2d"
  let (loc, w) := glGetAttribLocation env.driver w.g.program attribute_name w
  let w := { w with g := { w.g with attribute_coord2d := loc } }
  if w.g.attribute_coord2d = -1 then
    (false, cerr (str "Could not bind attribute " ++ attribute_name ++ str "\n") w)
  else
  let attribute_name := str "v_color"
  let (loc, w) := glGetAttribLocation env.driver w.g.program attribute_name w
  let w := { w with g := { w.g with attribute_v_color := loc } }
  if w.g.attribute_v_color = -1 then
    (false, cerr (str "Could not bind attribute " ++ attribute_name ++ str "\n") w)
  else
  let uniform_name := str "fade"
  let (loc, w) := glGetUniformLocation env.driver w.g.program uniform_name w
  let w := { w with g := { w.g with uniform_fade := loc } }
  if w.g.uniform_fade = -1 then
    (false, cerr (str "Could not bind uniform_fade " ++ uniform_name ++ str "\n") w)
  else
    (true, w)

/-- The section of tut04 `init_resources` that resolves the shader inputs. -/
def Tut04.bind_inputs (env : Env) (w : World) : Bool × World :=
  let attribute_name := str "coord3d"
  let (loc, w) := glGetAttribLocation env.driver w.g.program attribute_name w
  let w := { w with g := { w.g with attribute_coord3d := loc } }
  if w.g.attribute_coord3d = -1 then
    (false, cerr (str "Could not bind attribute " ++ attribute_name ++ str "\n") w)
  else
  let attribute_name := str "v_color"
  let (loc, w) := glGetAttribLocation env.driver w.g.program attribute_name w
  let w := { w with g := { w.g with attribute_v_color := loc } }
  if w.g.attribute_v_color = -1 then
    (false, cerr (str "Could not bind attribute " ++ attribute_name ++ str "\n") w)
  else
  let uniform_name := str "fade"
  let (loc, w) := glGetUniformLocation env.driver w.g.program uniform_name w
  let w := { w with g := { w.g with uniform_fade := loc } }
  if w.g.uniform_fade = -1 then
    (false, cerr (str "Could not bind uniform_fade " ++ uniform_name ++ str "\n") w)
  else
  let uniform_name := str "m_transform"
  let (loc, w) := glGetUniformLocation env.driver w.g.program uniform_name w
  let w := { w with g := { w.g with uniform_m_transform := loc } }
  if w.g.uniform_m_transform = -1 then
    (false, cerr (str "Could not bind uniform " ++ uniform_name ++ str "\n") w)
  else
    (true, w)

/-- The section of tut05 `init_resources` that resolves the shader inputs. -/
def Tut05.bind_inputs (env : Env) (w : World) : Bool × World :=
  let attribute_name := str "coord3d"
  let (loc, w) := glGetAttribLocation env.driver w.g.program attribute_name w
  let w := { w with g := { w.g with attribute_coord3d := loc } }
  if w.g.attribute_coord3d = -1 then
    (false, cerr (str "Could not bind attribute " ++ attribute_name ++ str "\n") w)
  else
  let attribute_name := str "v_color"
  let (loc, w) := glGetAttribLocation env.driver w.g.program attribute_name w
  let w := { w with g := { w.g with attribute_v_color := loc } }
  if w.g.attribute_v_color = -1 then
    (false, cerr (str "Could not bind attribute " ++ attribute_name ++ str "\n") w)
  else
  let uniform_name := str "mvp"
  let (loc, w) := glGetUniformLocation env.driver w.g.program uniform_name w
  let w := { w with g := { w.g with uniform_mvp := loc } }
  if w.g.uniform_mvp = -1 then
    (false, cerr (str "Could not bind uniform " ++ uniform_name ++ str "\n") w)
  else
    (true, w)

/-- The function `main_loop` of a tutorial. -/
def Tut.main_loop : Tut → Env → List (Option SDL_Event) → World → Bool × World
  | .tut02 => Tut02.main_loop
  | .tut03 => Tut03.main_loop
  | .tut04 => Tut04.main_loop
  | .tut05 => Tut05.main_loop

/-- The function `free_resources` of a tutorial. -/
def Tut.free_resources : Tut → World → World
  | .tut02 => Tut02.free_resources
  | .tut03 => Tut03.free_resources
  | .tut04 => Tut04.free_resources
  | .tut05 => Tut05.free_resources

/-- What `main` does between `init_resources` and `main_loop`: nothing, except in
tut05, which enables the depth test. -/
def Tut.before_loop : Tut → World → World
  | .tut05 => emit (.glState "glEnable(GL_DEPTH_TEST)")
  | _ => id

/-- The input-resolving section of `init_resources`. -/
def Tut.bind_inputs : Tut → Env → World → Bool × World
  | .tut02 => Tut02.bind_inputs
  | .tut03 => Tut03.bind_inputs
  | .tut04 => Tut04.bind_inputs
  | .tut05 => Tut05.bind_inputs

/-- The location variables a tutorial assigns in `init_resources`. -/
def Tut.storedLocations : Tut → Globals → List Int
  | .tut02, g => [g.attribute_coord2d]
  | .tut03, g => [g.attribute_coord2d, g.attribute_v_color, g.uniform_fade]
  | .tut04, g => [g.attribute_coord3d, g.attribute_v_color, g.uniform_fade, g.uniform_m_transform]
  | .tut05, g => [g.attribute_coord3d, g.attribute_v_color, g.uniform_mvp]

/-- The attribute and uniform names a tutorial resolves. -/
def Tut.inputs : Tut → List (List Char)
  | .tut02 => [str "coord2d"]
  | .tut03 => [str "coord2d", str "v_color", str "fade"]
  | .tut04 => [str "coord3d", str "v_color", str "fade", str "m_transform"]
  | .tut05 => [str "coord3d", str "v_color", str "mvp"]

/-- Calls `shader_utils` can make. -/
def Call.isLoader : Call → Bool
  | .SDL_RWFromFile _ _ => true
  | .SDL_GetError => true
  | .glCreateShader _ _ => true
  | .glShaderSource _ _ _ => true
  | .glCompileShader _ => true
  | .glGetShaderiv _ _ _ => true
  | .glIsShader _ _ => true
  | .glIsProgram _ _ => true
  | .glGetShaderInfoLog _ _ => true
  | .glGetProgramInfoLog _ _ => true
  | .glDeleteShader _ => true
  | .glGetProgramiv _ .GL_INFO_LOG_LENGTH _ => true
  | _ => false

/-- Queries for the location of a shader input. -/
def Call.isLocationQuery : Call → Bool
  | .glGetAttribLocation _ _ _ => true
  | .glGetUniformLocation _ _ _ => true
  | _ => false

/-- Entries of `main_loop` and `render`. -/
def Call.isEnter : Call → Bool
  | .enter _ => true
  | _ => false

/-- Calls that release a driver object held in a global (`free_resources`). -/
def Call.isFree : Call → Bool
  | .glDeleteProgram _ => true
  | .glDeleteBuffers _ _ => true
  | _ => false

/-- A query whose answer makes `init_resources` fail: a compile or link status that is
not reported true, or a location that is the not-found sentinel -1. -/
def Call.isFailure : Call → Bool
  | .glGetShaderiv _ .GL_COMPILE_STATUS reported => decide (reported ≠ some GL_TRUE)
  | .glGetProgramiv _ .GL_LINK_STATUS reported => decide (reported ≠ some GL_TRUE)
  | .glGetAttribLocation _ _ ret => decide (ret = -1)
  | .glGetUniformLocation _ _ ret => decide (ret = -1)
  | _ => false

/-- Calls of the buffer uploads. -/
def Call.isBufferSetup : Call → Bool
  | .glGenBuffers _ _ => true
  | .glBindBuffer _ _ => true
  | .glBufferData _ _ => true
  | _ => false

/-- Calls of the section that creates and links the program. -/
def Call.isLinkCall : Call → Bool
  | .glCreateProgram _ => true
  | .glAttachShader _ _ => true
  | .glLinkProgram _ => true
  | .glGetProgramiv _ .GL_LINK_STATUS _ => true
  | _ => false

/-- Calls `init_resources` (tut02 to tut05) can make. -/
def Call.isInit (c : Call) : Bool :=
  c.isBufferSetup || c.isLoader || c.isLinkCall || c.isLocationQuery

/-- The value returned by a location query. -/
def Call.location? : Call → Option Int
  | .glGetAttribLocation _ _ ret => some ret
  | .glGetUniformLocation _ _ ret => some ret
  | _ => none

/-- The name asked for by a location query that returned the not-found sentinel. -/
def Call.missing? : Call → Option (List Char)
  | .glGetAttribLocation _ name ret => if ret = -1 then some name else none
  | .glGetUniformLocation _ name ret => if ret = -1 then some name else none
  | _ => none

/-- The name returned by a `glCreateProgram` call. -/
def Call.program? : Call → Option Nat
  | .glCreateProgram ret => some ret
  | _ => none

/-- The messages that precede the name of an input that was not found. -/
def bindLabels : List (List Char) :=
  [str "Could not bind attribute ", str "Could not bind uniform_fade ",
    str "Could not bind uniform "]

/-- Every object the trace shows as handed out or accepted is still live: each buffer
name issued by `glGenBuffers`, each program created, each shader reported as
compiled. -/
def Held (w : World) : Prop :=
  (∀ b, Call.glGenBuffers 1 (some b) ∈ w.calls → b ∈ w.buffers) ∧
  (∀ p, p ≠ 0 → Call.glCreateProgram p ∈ w.calls → p ∈ w.programs) ∧
  (∀ s, Call.glGetShaderiv s .GL_COMPILE_STATUS (some GL_TRUE) ∈ w.calls → s ∈ w.shaders)

/-- The section of `init_resources` from the creation of the program on. -/
def Tut.link_and_bind (t : Tut) (env : Env) (vs fs : Nat) (w : World) : Bool × World :=
  let (link_ok, w) := link_shaders env vs fs w
  if link_ok = GL_FALSE then
    (false, print_log env.driver w.g.program (cerr (str "glLinkProgram: ") w))
  else t.bind_inputs env w

/-- The name passed to a `glDeleteProgram` call. -/
def Call.deleted? : Call → Option Nat
  | .glDeleteProgram program => some program
  | _ => none

/-- Calls `main` makes before `init_resources`. -/
def Call.isStartup : Call → Bool
  | .SDL_Init _ => true
  | .sdl _ => true
  | .SDL_GetError => true
  | .glewInit _ => true
  | _ => false

/-- The five tutorials: tut01, which compiles its shaders in place, and the four that
use `shader_utils`. -/
inductive AnyTut where
  | tut01
  | later (t : Tut)
  deriving DecidableEq

/-- The function `init_resources` of any of the five tutorials. -/
def AnyTut.init_resources : AnyTut → Env → World → Bool × World
  | .tut01 => Tut01.init_resources
  | .later t => t.init_resources

/-- The function `main` of any of the five tutorials. -/
def AnyTut.main : AnyTut → Env → List (Option SDL_Event) → Option Int × World
  | .tut01 => Tut01.main
  | .later t => t.main

/-- The location variables a tutorial assigns in `init_resources`. -/
def AnyTut.storedLocations : AnyTut → Globals → List Int
  | .tut01, g => [g.attribute_coord2d]
  | .later t, g => t.storedLocations g

/-- The attribute and uniform names a tutorial resolves. -/
def AnyTut.inputs : AnyTut → List (List Char)
  | .tut01 => [str "coord2d"]
  | .later t => t.inputs

/-- The world in which tut01 `main` checks the result of `glewInit`. -/
def Tut01.started (env : Env) : World :=
  emit (.glewInit env.glewOk) (emit (.sdl "SDL_GL_CreateContext")
    (emit (.sdl "SDL_CreateWindow") (emit (.SDL_Init env.sdlInit) {})))

/-- The world in which `main` of a tutorial calls `init_resources` (when it gets
there). -/
def AnyTut.started : AnyTut → Env → World
  | .tut01, env => Tut01.started env
  | .later _, env => (startup env {}).2

/-! ## Sample environments -/

/-- A driver that accepts everything: names are issued in sequence, shaders compile,
programs link, every input has location 0 and the logs are empty. -/
def acceptingDriver : Driver where
  createShader := fun calls _ => calls.length + 1
  createProgram := fun calls => calls.length + 1
  genBuffer := fun calls => calls.length + 1
  compileStatus := fun _ => true
  shaderInfoLog := fun _ => []
  linkStatus := fun _ => true
  programInfoLog := fun _ => []
  attribLocation := fun _ _ => 0
  uniformLocation := fun _ _ => 0

/-- A stream holding the two bytes `ab`, delivered by the first read. -/
def smallFile : SDL_RWops where
  size := some 2
  read := fun _ n => (str "ab").take n

/-- An environment in which every file exists and every step succeeds. -/
def acceptingEnv : Env where
  driver := acceptingDriver
  files := fun _ => some smallFile
  sdlError := fun _ => []
  sdlInit := true
  createWindow := true
  createContext := true
  glewOk := true
  glewVersion20 := true

/-- An environment without any file. -/
def noFilesEnv : Env :=
  { acceptingEnv with files := fun _ => none }

/-- An environment whose driver rejects every shader, with the log `bad`. -/
def rejectingEnv : Env :=
  { acceptingEnv with
    driver := { acceptingDriver with
      compileStatus := fun _ => false
      shaderInfoLog := fun _ => str "bad" } }

/-- An environment whose driver fails to link and keeps no info log. -/
def linkFailEnv : Env :=
  { acceptingEnv with driver := { acceptingDriver with linkStatus := fun _ => false } }

/-- An environment whose driver fails to link, with the info log `unresolved`. -/
def linkLogEnv : Env :=
  { acceptingEnv with
    driver := { acceptingDriver with
      linkStatus := fun _ => false
      programInfoLog := fun _ => str "unresolved" } }

/-- An environment whose driver finds no attribute. -/
def missingEnv : Env :=
  { acceptingEnv with driver := { acceptingDriver with attribLocation := fun _ _ => -1 } }

/-- An environment whose driver answers every location query with -2. -/
def strayEnv : Env :=
  { acceptingEnv with
    driver := { acceptingDriver with
      attribLocation := fun _ _ => -2
      uniformLocation := fun _ _ => -2 } }

/-- A quit event. -/
def quitEvent : SDL_Event :=
  { type := SDL_QUIT, window_event := 0, window_data1 := 0, window_data2 := 0 }

/-! ## What each section of a run does to the world

The structures below collect, for one section of a run, the facts the theorems use:
how the trace and the error stream grow and what stays as it was. -/

/-- What a call of `create_shader` returning `h` does to the world. -/
structure ShaderStep (env : Env) (filename : List Char) (type : ShaderType) (w : World)
    (h : Nat) (w1 : World) : Prop where
  calls : w1.calls = w.calls ++ newCalls w w1
  err : w1.err = w.err ++ newErr w w1
  shaders : w1.shaders = if h = 0 then w.shaders else h :: w.shaders
  programs : w1.programs = w.programs
  buffers : w1.buffers = w.buffers
  g : w1.g = w.g
  array_buffer : w1.array_buffer = w.array_buffer
  element_array_buffer : w1.element_array_buffer = w.element_array_buffer
  buffer_size : w1.buffer_size = w.buffer_size
  current_program : w1.current_program = w.current_program
  loader : ∀ c ∈ newCalls w w1, c.isLoader = true
  files : ∀ f o, Call.SDL_RWFromFile f o ∈ newCalls w w1 → f = filename
  types : ∀ t s, Call.glCreateShader t s ∈ newCalls w w1 → t = type
  fail_status : h = 0 → ∀ s, Call.glGetShaderiv s .GL_COMPILE_STATUS (some GL_TRUE) ∉ newCalls w w1
  fail_err : h = 0 → filename <:+: newErr w w1
  ok_trace : h ≠ 0 → ∃ source, file_read env.files filename = some source ∧
    newCalls w w1 = [.SDL_RWFromFile filename true, .glCreateShader type h,
      .glShaderSource h 1 [c_str source], .glCompileShader h,
      .glGetShaderiv h .GL_COMPILE_STATUS (some GL_TRUE)]
  ok_err : h ≠ 0 → w1.err = w.err
  ok_fault : h ≠ 0 → w1.fault = w.fault
  fresh : h ≠ 0 → h ∉ w.shaders ∧ h ∉ w.programs

/-- What the buffer uploads do to the world. -/
structure BufferStep (w w1 : World) : Prop where
  calls : w1.calls = w.calls ++ newCalls w w1
  err : w1.err = w.err
  fault : w1.fault = w.fault
  shaders : w1.shaders = w.shaders
  programs : w1.programs = w.programs
  program : w1.g.program = w.g.program
  setup : ∀ c ∈ newCalls w w1, c.isBufferSetup = true
  live : ∀ b, Call.glGenBuffers 1 (some b) ∈ newCalls w w1 → b ∈ w1.buffers
  mono : ∀ b ∈ w.buffers, b ∈ w1.buffers

/-- What the input-resolving section does to the world. -/
structure BindStep (t : Tut) (w : World) (ok : Bool) (w1 : World) : Prop where
  calls : w1.calls = w.calls ++ newCalls w w1
  err : w1.err = w.err ++ newErr w w1
  fault : w1.fault = w.fault
  shaders : w1.shaders = w.shaders
  programs : w1.programs = w.programs
  buffers : w1.buffers = w.buffers
  program : w1.g.program = w.g.program
  queries : ∀ c ∈ newCalls w w1, c.isLocationQuery = true
  ok_err : ok = true → w1.err = w.err
  ok_found : ok = true → ∀ c ∈ newCalls w w1, c.isFailure = false
  ok_stored : ok = true →
    t.storedLocations w1.g = (newCalls w w1).filterMap Call.location?
  missing : ∀ name ∈ (newCalls w w1).filterMap Call.missing?,
    ok = false ∧ (∃ label ∈ bindLabels, newErr w w1 = label ++ name ++ str "\n") ∧
    name ∈ t.inputs ∧ ∀ n ∈ t.inputs, n <:+: newErr w w1 → n = name

/-- What `init_resources`, or a final part of it, does to the world. -/
structure InitStep (t : Tut) (w : World) (ok : Bool) (w1 : World) : Prop where
  calls : w1.calls = w.calls ++ newCalls w w1
  err : w1.err = w.err ++ newErr w w1
  init : ∀ c ∈ newCalls w w1, c.isInit = true
  held : Held w → Held w1
  ok_found : ok = true → ∀ c ∈ newCalls w w1, c.isFailure = false
  ok_err : ok = true → w1.err = w.err ∧ w1.fault = w.fault
  ok_stored : ok = true →
    t.storedLocations w1.g = (newCalls w w1).filterMap Call.location?
  ok_program : ok = true → w1.g.program ≠ 0 ∧
    (newCalls w w1).filterMap Call.program? = [w1.g.program]
  missing : ∀ name ∈ (newCalls w w1).filterMap Call.missing?,
    ok = false ∧ (∃ label ∈ bindLabels, newErr w w1 = label ++ name ++ str "\n") ∧
    name ∈ t.inputs ∧ ∀ n ∈ t.inputs, n <:+: newErr w w1 → n = name
  link_failed : ∀ p, Call.glGetProgramiv p .GL_LINK_STATUS (some GL_FALSE) ∈ newCalls w w1 →
    ok = false ∧ (∀ c ∈ newCalls w w1, c.isLocationQuery = false)

/-- A section of `init_resources` that succeeds without a word: it writes nothing and
asks nothing that could fail. -/
structure QuietStep (w w1 : World) : Prop where
  calls : w1.calls = w.calls ++ newCalls w w1
  err : w1.err = w.err
  fault : w1.fault = w.fault
  held : Held w → Held w1
  init : ∀ c ∈ newCalls w w1, c.isInit = true
  found : ∀ c ∈ newCalls w w1, c.isFailure = false
  quiet : ∀ c ∈ newCalls w w1, c.isLocationQuery = false ∧ c.program? = none
  no_link : ∀ p r, Call.glGetProgramiv p .GL_LINK_STATUS r ∉ newCalls w w1

/-- What the start-up section of `main` does to the initial world. -/
structure StartupStep (w1 : World) : Prop where
  startup : ∀ c ∈ w1.calls, c.isStartup = true
  shaders : w1.shaders = []
  programs : w1.programs = []
  buffers : w1.buffers = []

/-- What tut01 `init_resources` does to the world. -/
structure Init01Step (w : World) (ok : Bool) (w1 : World) : Prop where
  calls : w1.calls = w.calls ++ newCalls w w1
  init : ∀ c ∈ newCalls w w1, c.isInit = true
  ok_stored : ok = true → [w1.g.attribute_coord2d] = (newCalls w w1).filterMap Call.location?
  ok_found : ok = true → w1.g.attribute_coord2d ≠ -1
  ok_program : ok = true → w1.g.program ≠ 0 ∧
    (newCalls w w1).filterMap Call.program? = [w1.g.program]
  missing : ∀ name ∈ (newCalls w w1).filterMap Call.missing?,
    ok = false ∧ newErr w w1 = str "Could not bind attribute " ++ name ++ str "\n" ∧
    name = str "coord2d"

/-- A piece of the event loop: it appends calls, none of which creates or deletes a
program, and leaves the `program` variable alone. -/
def LoopFrame (f : World → World) : Prop :=
  ∀ w, (f w).calls = w.calls ++ newCalls w (f w) ∧
    (∀ c ∈ newCalls w (f w), c.deleted? = none ∧ c.program? = none) ∧
    (f w).g.program = w.g.program

/-! ## Exit status, event loop, read loop and cube data -/

/-- The function `main_loop` of any of the five tutorials. -/
def AnyTut.main_loop : AnyTut → Env → List (Option SDL_Event) → World → Bool × World
  | .tut01 => Tut01.main_loop
  | .later t => t.main_loop

/-- The outcomes `main` tests before it calls `init_resources`: tut01 tests the result
of `glewInit` only; tut02 to tut05 test the window, the context, `glewInit` and
`GLEW_VERSION_2_0`.  No `main` tests the result of `SDL_Init`. -/
def AnyTut.checks : AnyTut → Env → Bool
  | .tut01, env => env.glewOk
  | .later _, env => env.createWindow && env.createContext && env.glewOk && env.glewVersion20

/-- Polls of the event queue and entries of `render`. -/
def Call.isLoopEvent : Call → Bool
  | .SDL_PollEvent _ => true
  | .enter .render => true
  | _ => false

/-- The result of an `SDL_PollEvent` call. -/
def Call.polled? : Call → Option (Option SDL_Event)
  | .SDL_PollEvent p => some p
  | _ => none

/-- The event loop in the words of its description: every poll that finds the queue
empty is followed by one `render`, a polled event that is not a quit event is
followed by the next poll, and nothing follows the first quit event. -/
def loop_schedule : List (Option SDL_Event) → List Call
  | [] => []
  | none :: polls => .SDL_PollEvent none :: .enter .render :: loop_schedule polls
  | some ev :: polls =>
    if ev.type = SDL_QUIT then [.SDL_PollEvent (some ev)]
    else .SDL_PollEvent (some ev) :: loop_schedule polls

/-- A piece of the event loop that appends calls, of which exactly `evs` are polls or
entries of `render`. -/
def LoopEvents (evs : List Call) (f : World → World) : Prop :=
  ∀ w, (f w).calls = w.calls ++ newCalls w (f w) ∧
    (newCalls w (f w)).filter Call.isLoopEvent = evs

/-- The bytes that the first `n` reads of `file_read` deliver, in order: read `k` is
asked for what is still missing of `res_size`. -/
def delivered (rw : SDL_RWops) (res_size : Int) : Nat → List Char
  | 0 => []
  | n + 1 =>
    delivered rw res_size n ++
      rw.read n (res_size - ((delivered rw res_size n).length : Int)).toNat

/-- The element count of a `glDrawElements` call. -/
def Call.drawn? : Call → Option Int
  | .glDrawElements count => some count
  | _ => none

/-- The source strings handed over by a `glShaderSource` call. -/
def Call.submitted? : Call → Option (List (List Char))
  | .glShaderSource _ _ string => some string
  | _ => none

/-- Uniform uploads and selections of the current program. -/
def Call.isUniformOrUse : Call → Bool
  | .glUniform1f _ => true
  | .glUniformMatrix4fv _ _ => true
  | .glUseProgram _ => true
  | _ => false

namespace Tut05

/-- The table `cube_vertices` of `init_resources`: 24 values, three for each corner
(the source writes -1.0 and 1.0). -/
def cube_vertices : List Int :=
  [-1, -1, 1,
   1, -1, 1,
   1, 1, 1,
   -1, 1, 1,
   -1, -1, -1,
   1, -1, -1,
   1, 1, -1,
   -1, 1, -1]

/-- The table `cube_elements` of `init_resources`. -/
def cube_elements : List Nat :=
  [0, 1, 2,
   2, 3, 0,
   1, 5, 6,
   6, 2, 1,
   7, 6, 5,
   5, 4, 7,
   4, 0, 3,
   3, 7, 4,
   4, 5, 1,
   1, 0, 4,
   3, 2, 6,
   6, 7, 3]

/-- Coordinate `axis` (0, 1, 2 for x, y, z) of corner `i`, read the way `render`
declares the vertex attribute: three values for each corner, tightly packed. -/
def coord (i axis : Nat) : Int :=
  cube_vertices.getD (3 * i + axis) 0

/-- The consecutive triples of an index list, as `GL_TRIANGLES` groups them. -/
def triangles : List Nat → List (Nat × Nat × Nat)
  | a :: b :: c :: rest => (a, b, c) :: triangles rest
  | _ => []

/-- The six faces of the cube: an axis and the value (+1 or -1) of that coordinate. -/
def faces : List (Nat × Int) :=
  [(0, 1), (0, -1), (1, 1), (1, -1), (2, 1), (2, -1)]

/-- Whether corner `i` lies on a face. -/
def onFace (face : Nat × Int) (i : Nat) : Bool :=
  coord i face.1 == face.2

/-- Whether the three corners of a triangle lie on a face. -/
def triangleOnFace (face : Nat × Int) (t : Nat × Nat × Nat) : Bool :=
  onFace face t.1 && onFace face t.2.1 && onFace face t.2.2

/-- Whether a triangle names three different corners. -/
def distinctCorners (t : Nat × Nat × Nat) : Bool :=
  t.1 != t.2.1 && t.2.1 != t.2.2 && t.1 != t.2.2

/-- Whether corner `i` is a corner of a triangle. -/
def hasCorner (i : Nat) (t : Nat × Nat × Nat) : Bool :=
  t.1 == i || t.2.1 == i || t.2.2 == i

/-- The corners of a triangle. -/
def corners (t : Nat × Nat × Nat) : List Nat :=
  [t.1, t.2.1, t.2.2]

/-- The two coordinates of corner `i` that vary over a face. -/
def inPlane (face : Nat × Int) (i : Nat) : Int × Int :=
  (coord i ((face.1 + 1) % 3), coord i ((face.1 + 2) % 3))

/-- Twice the signed area of the triangle `p q r` in the plane: positive when `r` lies
to the left of the line from `p` to `q`, negative when it lies to the right, 0 when the
three points are on one line. -/
def cross (p q r : Int × Int) : Int :=
  (q.1 - p.1) * (r.2 - p.2) - (q.2 - p.2) * (r.1 - p.1)

/-- Twice the area of a triangle on a face. -/
def area2 (face : Nat × Int) (t : Nat × Nat × Nat) : Nat :=
  (cross (inPlane face t.1) (inPlane face t.2.1) (inPlane face t.2.2)).natAbs

/-- Whether two triangles on a face are the two halves of that face: they have exactly
two corners in common, their third corners lie on different sides of the line through
the common ones (so the triangles meet in that edge only), and their areas add up to the
area of the face, a square of side 2 (twice the area: 8). -/
def halvesOf (face : Nat × Int) (t u : Nat × Nat × Nat) : Bool :=
  match (corners t).filter (fun i => hasCorner i u),
      (corners t).filter (fun i => !hasCorner i u),
      (corners u).filter (fun i => !hasCorner i t) with
  | [d1, d2], [x], [y] =>
    decide (cross (inPlane face d1) (inPlane face d2) (inPlane face x) *
        cross (inPlane face d1) (inPlane face d2) (inPlane face y) < 0) &&
      area2 face t + area2 face u == 8
  | _, _, _ => false

end Tut05

/-- An environment in which neither the window nor the context can be created, and
`glewInit` fails for want of a context. -/
def noWindowEnv : Env :=
  { acceptingEnv with createWindow := false, createContext := false, glewOk := false }

/-- A stream of three bytes with a NUL in the middle: `a`, NUL, `b`. -/
def nulFile : SDL_RWops where
  size := some 3
  read := fun _ n => (str "a" ++ [NUL] ++ str "b").take n

/-- An environment whose files all hold the three bytes of `nulFile`. -/
def nulEnv : Env :=
  { acceptingEnv with files := fun _ => some nulFile }

/-- An environment whose driver rejects every shader and keeps no info log. -/
def silentRejectEnv : Env :=
  { acceptingEnv with driver := { acceptingDriver with compileStatus := fun _ => false } }

/-- A stream of unknown size (`SDL_RWsize` reports -1). -/
def unsizedFile : SDL_RWops where
  size := none
  read := fun _ n => (str "ab").take n

/-- A stream that reports five bytes and delivers two, then nothing. -/
def shortFile : SDL_RWops where
  size := some 5
  read := fun k n => if k = 0 then (str "ab").take n else []

/-! ## Theorems -/

attribute [simp] emit cerr cerr_buffer glCreateShader glShaderSource glCompileShader glGetShaderiv
  glGetProgramiv glIsShader glIsProgram glGetShaderInfoLog glGetProgramInfoLog glDeleteShader
  glCreateProgram glAttachShader glLinkProgram glGetAttribLocation glGetUniformLocation
  glGenBuffers glBindBuffer glBufferData glGetBufferParameteriv glDeleteProgram glDeleteBuffers
  glUseProgram

/-- The fuel given to the read loop is enough: when `file_read_loop` stops, the loop
condition of the source is false. -/
theorem file_read_loop_exits_aux (rw : SDL_RWops) (res_size : Int) (fuel : Nat) :
    ∀ (k : Nat) (total nb : Int) (buf : List Char),
      (nb = 0 ∨ res_size ≤ total ∨ (res_size - total).toNat < fuel) →
      ¬ ((file_read_loop rw res_size fuel k total nb buf).1 < res_size ∧
         (file_read_loop rw res_size fuel k total nb buf).2.1 ≠ 0) := by
  induction fuel with
  | zero =>
    intro k total nb buf h
    simp only [file_read_loop]
    rintro ⟨h1, h2⟩
    rcases h with h | h | h
    · exact h2 h
    · omega
    · omega
  | succ fuel ih =>
    intro k total nb buf h
    simp only [file_read_loop]
    split_ifs with hc
    · apply ih
      by_cases hz : (rw.read k (res_size - total).toNat).length = 0
      · left
        simp [hz]
      · right
        rcases h with h | h | h
        · exact absurd h hc.2
        · omega
        · omega
    · simpa using hc

theorem file_read_loop_exits (rw : SDL_RWops) :
    ¬ ((file_read_loop rw (SDL_RWsize rw) (file_read_fuel (SDL_RWsize rw)) 0 0 1 []).1 <
        SDL_RWsize rw ∧
       (file_read_loop rw (SDL_RWsize rw) (file_read_fuel (SDL_RWsize rw)) 0 0 1 []).2.1 ≠ 0) := by
  apply file_read_loop_exits_aux
  unfold file_read_fuel
  omega

theorem newCalls_of_append (w w1 : World) (evs : List Call) (h : w1.calls = w.calls ++ evs) :
    newCalls w w1 = evs := by
  simp [newCalls, h]

theorem newErr_of_append (w w1 : World) (out : List Char) (h : w1.err = w.err ++ out) :
    newErr w w1 = out := by
  simp [newErr, h]

theorem isShader_zero (s : List Nat) : isShader 0 s = false := by
  simp [isShader]

theorem isProgram_zero (s : List Nat) : isProgram 0 s = false := by
  simp [isProgram]

theorem isShader_cons_self (h : Nat) (s : List Nat) (hh : h ≠ 0) : isShader h (h :: s) = true := by
  simp [isShader, hh]

theorem issueShader_fresh (d : Driver) (t : ShaderType) (c : List Call) (s p : List Nat)
    (h : issueShader d t c s p ≠ 0) :
    issueShader d t c s p ∉ s ∧ issueShader d t c s p ∉ p := by
  unfold issueShader at *
  split at h
  · rename_i hc
    simp only [if_pos hc]
    exact hc.2
  · exact absurd rfl h

theorem issueProgram_fresh (d : Driver) (c : List Call) (s p : List Nat)
    (h : issueProgram d c s p ≠ 0) :
    issueProgram d c s p ∉ s ∧ issueProgram d c s p ∉ p := by
  unfold issueProgram at *
  split at h
  · rename_i hc
    simp only [if_pos hc]
    exact hc.2
  · exact absurd rfl h

theorem print_log_shader (d : Driver) (object : Nat) (w : World)
    (h : isShader object w.shaders = true) :
    print_log d object w =
      { w with
        calls := w.calls ++ [.glIsShader object true,
          .glGetShaderiv object .GL_INFO_LOG_LENGTH (some (infoLogLength (d.shaderInfoLog object))),
          .glIsShader object true,
          .glGetShaderInfoLog object (infoLogLength (d.shaderInfoLog object))]
        err := w.err ++ ((fetchLog (d.shaderInfoLog object)
                 (infoLogLength (d.shaderInfoLog object))).getD [])
        fault := w.fault || (fetchLog (d.shaderInfoLog object)
                 (infoLogLength (d.shaderInfoLog object))).isNone } := by
  cases hf : fetchLog (d.shaderInfoLog object) (infoLogLength (d.shaderInfoLog object)) <;>
    simp [print_log, print_log_fetch, shaderParam, fetchShaderLog, h, hf]

theorem print_log_program (d : Driver) (object : Nat) (w : World)
    (hs : isShader object w.shaders = false) (h : isProgram object w.programs = true) :
    print_log d object w =
      { w with
        calls := w.calls ++ [.glIsShader object false, .glIsProgram object true,
          .glGetProgramiv object .GL_INFO_LOG_LENGTH
            (some (infoLogLength (d.programInfoLog object))),
          .glIsShader object false, .glIsProgram object true,
          .glGetProgramInfoLog object (infoLogLength (d.programInfoLog object))]
        err := w.err ++ ((fetchLog (d.programInfoLog object)
                 (infoLogLength (d.programInfoLog object))).getD [])
        fault := w.fault || (fetchLog (d.programInfoLog object)
                 (infoLogLength (d.programInfoLog object))).isNone } := by
  cases hf : fetchLog (d.programInfoLog object) (infoLogLength (d.programInfoLog object)) <;>
    simp [print_log, print_log_fetch, programParam, fetchShaderLog, fetchProgramLog, h, hs, hf]

theorem print_log_neither (d : Driver) (object : Nat) (w : World)
    (hs : isShader object w.shaders = false) (h : isProgram object w.programs = false) :
    print_log d object w =
      { w with
        calls := w.calls ++ [.glIsShader object false, .glIsProgram object false]
        err := w.err ++ str "printlog: Not a shader nor a program.\n" } := by
  simp [print_log, print_log_fetch, programParam, h, hs]

/-- The world `create_shader` leaves when `file_read` fails. -/
theorem create_shader_of_read_none (env : Env) (filename : List Char) (type : ShaderType)
    (w : World) (h : file_read env.files filename = none) :
    create_shader env filename type w =
      (0, { w with
        calls := w.calls ++ [.SDL_RWFromFile filename (env.files filename).isSome, .SDL_GetError]
        err := w.err ++ (str "Error opening " ++ filename ++ str ": " ++
          env.sdlError (w.calls ++ [.SDL_RWFromFile filename (env.files filename).isSome]) ++
          str "\n") }) := by
  simp [create_shader, h]

theorem file_read_isSome (files : List Char → Option SDL_RWops) (filename source : List Char)
    (h : file_read files filename = some source) : (files filename).isSome = true := by
  unfold file_read at h
  split at h
  · simp at h
  · rename_i heq
    simp [heq]

/-- The world `create_shader` leaves when the shader compiles. -/
theorem create_shader_of_accept (env : Env) (filename : List Char) (type : ShaderType)
    (w : World) (source : List Char) (h : file_read env.files filename = some source)
    (res : Nat)
    (hres : issueShader env.driver type (w.calls ++ [.SDL_RWFromFile filename true])
      w.shaders w.programs = res)
    (h0 : res ≠ 0) (hc : env.driver.compileStatus res = true) :
    create_shader env filename type w =
      (res, { w with
        calls := w.calls ++ [.SDL_RWFromFile filename true, .glCreateShader type res,
          .glShaderSource res 1 [c_str source], .glCompileShader res,
          .glGetShaderiv res .GL_COMPILE_STATUS (some GL_TRUE)]
        shaders := res :: w.shaders }) := by
  have hs := file_read_isSome _ _ _ h
  simp [create_shader, h, hs, hres, h0, shaderParam, isShader_cons_self, hc, addName]

/-- The world `create_shader` leaves when a shader object was created and the driver
reports that it did not compile. -/
theorem create_shader_of_reject (env : Env) (filename : List Char) (type : ShaderType)
    (w : World) (source : List Char) (h : file_read env.files filename = some source)
    (res : Nat)
    (hres : issueShader env.driver type (w.calls ++ [.SDL_RWFromFile filename true])
      w.shaders w.programs = res)
    (h0 : res ≠ 0) (hc : env.driver.compileStatus res = false) :
    create_shader env filename type w =
      (0, { w with
        calls := w.calls ++ [.SDL_RWFromFile filename true, .glCreateShader type res,
          .glShaderSource res 1 [c_str source], .glCompileShader res,
          .glGetShaderiv res .GL_COMPILE_STATUS (some GL_FALSE),
          .glIsShader res true,
          .glGetShaderiv res .GL_INFO_LOG_LENGTH
            (some (infoLogLength (env.driver.shaderInfoLog res))),
          .glIsShader res true,
          .glGetShaderInfoLog res (infoLogLength (env.driver.shaderInfoLog res)),
          .glDeleteShader res]
        err := w.err ++ (filename ++ str ":" ++ ((fetchLog (env.driver.shaderInfoLog res)
                 (infoLogLength (env.driver.shaderInfoLog res))).getD []))
        fault := w.fault || (fetchLog (env.driver.shaderInfoLog res)
                 (infoLogLength (env.driver.shaderInfoLog res))).isNone }) := by
  have hs := file_read_isSome _ _ _ h
  simp [create_shader, h, hs, hres, h0, shaderParam, isShader_cons_self, hc, print_log_shader,
    addName, removeName]

/-- The world `create_shader` leaves when the driver fails to create a shader object. -/
theorem create_shader_of_no_object (env : Env) (filename : List Char) (type : ShaderType)
    (w : World) (source : List Char) (h : file_read env.files filename = some source)
    (hres : issueShader env.driver type (w.calls ++ [.SDL_RWFromFile filename true])
      w.shaders w.programs = 0) :
    create_shader env filename type w =
      (0, { w with
        calls := w.calls ++ [.SDL_RWFromFile filename true, .glCreateShader type 0,
          .glShaderSource 0 1 [c_str source], .glCompileShader 0,
          .glGetShaderiv 0 .GL_COMPILE_STATUS none,
          .glIsShader 0 false, .glIsProgram 0 false, .glDeleteShader 0]
        err := w.err ++ (filename ++ str ":" ++ str "printlog: Not a shader nor a program.\n") }) := by
  have hs := file_read_isSome _ _ _ h
  simp [create_shader, h, hs, hres, shaderParam, isShader_zero, isProgram_zero, print_log_neither,
    addName, removeName]

theorem create_shader_cases (env : Env) (filename : List Char) (type : ShaderType)
    (w : World) :
    file_read env.files filename = none ∨
    ∃ source, file_read env.files filename = some source ∧
      (issueShader env.driver type (w.calls ++ [.SDL_RWFromFile filename true])
          w.shaders w.programs = 0 ∨
       (issueShader env.driver type (w.calls ++ [.SDL_RWFromFile filename true])
          w.shaders w.programs ≠ 0 ∧
        env.driver.compileStatus (issueShader env.driver type
          (w.calls ++ [.SDL_RWFromFile filename true]) w.shaders w.programs) = true) ∨
       (issueShader env.driver type (w.calls ++ [.SDL_RWFromFile filename true])
          w.shaders w.programs ≠ 0 ∧
        env.driver.compileStatus (issueShader env.driver type
          (w.calls ++ [.SDL_RWFromFile filename true]) w.shaders w.programs) = false)) := by
  cases hf : file_read env.files filename with
  | none => exact Or.inl rfl
  | some source =>
    refine Or.inr ⟨source, rfl, ?_⟩
    by_cases h0 : issueShader env.driver type (w.calls ++ [.SDL_RWFromFile filename true])
          w.shaders w.programs = 0
    · exact Or.inl h0
    · cases hc : env.driver.compileStatus (issueShader env.driver type
          (w.calls ++ [.SDL_RWFromFile filename true]) w.shaders w.programs)
      · exact Or.inr (Or.inr ⟨h0, rfl⟩)
      · exact Or.inr (Or.inl ⟨h0, rfl⟩)

theorem create_shader_step (env : Env) (filename : List Char) (type : ShaderType)
    (w : World) :
    ShaderStep env filename type w (create_shader env filename type w).1
      (create_shader env filename type w).2 := by
  rcases create_shader_cases env filename type w with hn | ⟨source, hs, h0 | ⟨h0, hc⟩ | ⟨h0, hc⟩⟩
  · rw [create_shader_of_read_none env filename type w hn]
    constructor <;> simp [newCalls, newErr, Call.isLoader]
  · rw [create_shader_of_no_object env filename type w source hs h0]
    constructor <;> simp [newCalls, newErr, Call.isLoader]
    exact ⟨[], _, by simp; rfl⟩
  · rw [create_shader_of_accept env filename type w source hs _ rfl h0 hc]
    have hfr := issueShader_fresh _ _ _ _ _ h0
    constructor <;> simp [newCalls, newErr, Call.isLoader, h0, hs, hfr.1, hfr.2]
  · rw [create_shader_of_reject env filename type w source hs _ rfl h0 hc]
    constructor <;> simp [newCalls, newErr, Call.isLoader, h0]
    exact ⟨[], _, by simp; rfl⟩

theorem init_buffers_step (t : Tut) (env : Env) (w : World) :
    BufferStep w (t.init_buffers env w) := by
  cases t <;>
    simp only [Tut.init_buffers, Tut02.init_buffers, Tut03.init_buffers, Tut04.init_buffers,
      Tut05.init_buffers] <;>
    constructor <;> simp [newCalls, Call.isBufferSetup] <;> intro b hb <;> aesop

theorem bind_inputs_step (t : Tut) (env : Env) (w : World) :
    BindStep t w (t.bind_inputs env w).1 (t.bind_inputs env w).2 := by
  cases t <;>
    simp only [Tut.bind_inputs, Tut02.bind_inputs, Tut03.bind_inputs, Tut04.bind_inputs,
      Tut05.bind_inputs] <;>
    simp <;>
    split_ifs <;>
    constructor <;>
    simp [newCalls, newErr, Call.isLocationQuery, Call.isFailure, Tut.storedLocations,
      Call.location?, Call.missing?, Tut.inputs, *] <;>
    decide

theorem link_shaders_eq (env : Env) (vs fs : Nat) (w : World) :
    link_shaders env vs fs w =
      ((programParam env.driver (issueProgram env.driver w.calls w.shaders w.programs)
          .GL_LINK_STATUS
          (if issueProgram env.driver w.calls w.shaders w.programs = 0 then w.programs
           else issueProgram env.driver w.calls w.shaders w.programs :: w.programs)).getD GL_FALSE,
        { w with
          calls := w.calls ++ [.glCreateProgram (issueProgram env.driver w.calls w.shaders w.programs),
            .glAttachShader (issueProgram env.driver w.calls w.shaders w.programs) vs,
            .glAttachShader (issueProgram env.driver w.calls w.shaders w.programs) fs,
            .glLinkProgram (issueProgram env.driver w.calls w.shaders w.programs),
            .glGetProgramiv (issueProgram env.driver w.calls w.shaders w.programs) .GL_LINK_STATUS
              (programParam env.driver (issueProgram env.driver w.calls w.shaders w.programs)
                .GL_LINK_STATUS
                (if issueProgram env.driver w.calls w.shaders w.programs = 0 then w.programs
                 else issueProgram env.driver w.calls w.shaders w.programs :: w.programs))]
          programs := if issueProgram env.driver w.calls w.shaders w.programs = 0 then w.programs
            else issueProgram env.driver w.calls w.shaders w.programs :: w.programs
          g := { w.g with program := issueProgram env.driver w.calls w.shaders w.programs } }) := by
  simp [link_shaders, addName]

theorem programParam_zero (d : Driver) (pname : PName) (ps : List Nat) :
    programParam d 0 pname ps = none := by
  simp [programParam, isProgram]

theorem programParam_link (d : Driver) (p : Nat) (ps : List Nat) (hp : p ≠ 0) :
    programParam d p .GL_LINK_STATUS (p :: ps) =
      some (if d.linkStatus p then GL_TRUE else GL_FALSE) := by
  simp [programParam, isProgram, hp]

theorem isShader_of_not_mem (h : Nat) (s : List Nat) (hh : h ∉ s) : isShader h s = false := by
  simp [isShader, hh]

theorem isProgram_cons_self (h : Nat) (s : List Nat) (hh : h ≠ 0) :
    isProgram h (h :: s) = true := by
  simp [isProgram, hh]

theorem filterMap_eq_nil_of {α β : Type} (f : α → Option β) (l : List α)
    (h : ∀ c ∈ l, f c = none) : l.filterMap f = [] := by
  induction l with
  | nil => rfl
  | cons a l ih =>
    have ha := h a (List.mem_cons_self a l)
    rw [List.filterMap_cons, ha]
    exact ih (fun c hc => h c (List.mem_cons_of_mem a hc))

theorem location_of_isLocationQuery_false (c : Call) (h : c.isLocationQuery = false) :
    c.location? = none ∧ c.missing? = none := by
  cases c <;> simp_all [Call.isLocationQuery, Call.location?, Call.missing?]

theorem initStep_of_bind (t : Tut) (w w3 w1 : World) (ok : Bool) (p vs fs : Nat) (hp : p ≠ 0)
    (SB : BindStep t w3 ok w1)
    (hcalls : w3.calls = w.calls ++ [.glCreateProgram p, .glAttachShader p vs,
      .glAttachShader p fs, .glLinkProgram p, .glGetProgramiv p .GL_LINK_STATUS (some GL_TRUE)])
    (herr : w3.err = w.err) (hfault : w3.fault = w.fault) (hshaders : w3.shaders = w.shaders)
    (hbuffers : w3.buffers = w.buffers) (hprograms : w3.programs = p :: w.programs)
    (hprog : w3.g.program = p) : InitStep t w ok w1 := by
  have hc : newCalls w w1 = [.glCreateProgram p, .glAttachShader p vs, .glAttachShader p fs,
      .glLinkProgram p, .glGetProgramiv p .GL_LINK_STATUS (some GL_TRUE)] ++ newCalls w3 w1 :=
    newCalls_of_append _ _ _ (by rw [SB.calls, hcalls]; simp)
  have he : newErr w w1 = newErr w3 w1 := newErr_of_append _ _ _ (by rw [SB.err, herr])
  have hq := SB.queries
  have hloc : ∀ c ∈ newCalls w3 w1, c.program? = none := by
    intro c hc1
    have := hq c hc1
    cases c <;> simp_all [Call.isLocationQuery, Call.program?]
  have hcalls1 : w1.calls = w.calls ++ newCalls w w1 := by
    rw [hc, SB.calls, hcalls]; simp
  constructor
  · exact hcalls1
  · rw [he, SB.err, herr]
  · intro c hc1
    rw [hc] at hc1
    rcases List.mem_append.1 hc1 with h | h
    · revert h
      simp
      rintro (rfl | rfl | rfl | rfl | rfl) <;> rfl
    · simp [Call.isInit, hq c h]
  · rintro ⟨hb, hpr, hs⟩
    rw [Held, hcalls1, hc, SB.shaders, SB.programs, SB.buffers, hshaders, hprograms, hbuffers]
    refine ⟨?_, ?_, ?_⟩
    · intro b hmem
      rcases List.mem_append.1 hmem with h | h
      · exact hb b h
      · rcases List.mem_append.1 h with h | h
        · simp at h
        · have := hq _ h
          simp [Call.isLocationQuery] at this
    · intro q hq0 hmem
      rcases List.mem_append.1 hmem with h | h
      · exact List.mem_cons_of_mem _ (hpr q hq0 h)
      · rcases List.mem_append.1 h with h | h
        · simp at h
          simp [h]
        · have := hq _ h
          simp [Call.isLocationQuery] at this
    · intro s hmem
      rcases List.mem_append.1 hmem with h | h
      · exact hs s h
      · rcases List.mem_append.1 h with h | h
        · simp at h
        · have := hq _ h
          simp [Call.isLocationQuery] at this
  · intro hok c hc1
    rw [hc] at hc1
    rcases List.mem_append.1 hc1 with h | h
    · revert h
      simp
      rintro (rfl | rfl | rfl | rfl | rfl) <;> rfl
    · exact SB.ok_found hok c h
  · intro hok
    exact ⟨by rw [SB.ok_err hok, herr], by rw [SB.fault, hfault]⟩
  · intro hok
    rw [SB.ok_stored hok, hc]
    simp [Call.location?]
  · intro hok
    rw [SB.program, hprog, hc, List.filterMap_append, filterMap_eq_nil_of _ _ hloc]
    exact ⟨hp, by simp [Call.program?]⟩
  · intro name hmem
    rw [hc] at hmem
    simp [Call.missing?] at hmem
    rw [he]
    exact SB.missing name (by simpa using hmem)
  · intro q hmem
    rw [hc] at hmem
    rcases List.mem_append.1 hmem with h | h
    · simp at h
    · have := hq _ h
      simp [Call.isLocationQuery] at this

theorem held_of_append (w w1 : World) (evs : List Call) (hc : w1.calls = w.calls ++ evs)
    (hb : ∀ b, b ∈ w.buffers → b ∈ w1.buffers) (hp : ∀ p, p ∈ w.programs → p ∈ w1.programs)
    (hs : ∀ s, s ∈ w.shaders → s ∈ w1.shaders)
    (eb : ∀ b, Call.glGenBuffers 1 (some b) ∈ evs → b ∈ w1.buffers)
    (ep : ∀ p, p ≠ 0 → Call.glCreateProgram p ∈ evs → p ∈ w1.programs)
    (es : ∀ s, Call.glGetShaderiv s .GL_COMPILE_STATUS (some GL_TRUE) ∈ evs → s ∈ w1.shaders)
    (h : Held w) : Held w1 := by
  obtain ⟨h1, h2, h3⟩ := h
  rw [Held, hc]
  refine ⟨?_, ?_, ?_⟩
  · intro b hmem
    rcases List.mem_append.1 hmem with h | h
    · exact hb b (h1 b h)
    · exact eb b h
  · intro p hp0 hmem
    rcases List.mem_append.1 hmem with h | h
    · exact hp p (h2 p hp0 h)
    · exact ep p hp0 h
  · intro s hmem
    rcases List.mem_append.1 hmem with h | h
    · exact hs s (h3 s h)
    · exact es s h

theorem link_and_bind_step (t : Tut) (env : Env) (vs fs : Nat) (w : World) :
    InitStep t w (t.link_and_bind env vs fs w).1 (t.link_and_bind env vs fs w).2 := by
  unfold Tut.link_and_bind
  rw [link_shaders_eq]
  by_cases hp : issueProgram env.driver w.calls w.shaders w.programs = 0
  · simp only [hp, if_true, programParam_zero, Option.getD_none]
    rw [print_log_neither _ _ _ (isShader_zero _) (isProgram_zero _)]
    constructor <;> simp [newCalls, newErr, Call.isInit, Call.isLoader, Call.isLinkCall,
      Call.isBufferSetup, Call.isLocationQuery, Call.location?, Call.missing?, Call.program?]
    refine held_of_append w _ _ rfl ?_ ?_ ?_ ?_ ?_ ?_ <;> simp <;> intros <;> simp_all
  · have hfr := issueProgram_fresh _ _ _ _ hp
    generalize issueProgram env.driver w.calls w.shaders w.programs = p at hp hfr ⊢
    simp only [hp, if_false, programParam_link _ _ _ hp]
    cases hl : env.driver.linkStatus p
    · simp only [Bool.false_eq_true, if_false, Option.getD_some, if_true]
      rw [print_log_program]
      · constructor <;> simp [newCalls, newErr, Call.isInit, Call.isLoader, Call.isLinkCall,
          Call.isBufferSetup, Call.isLocationQuery, Call.location?, Call.missing?, Call.program?]
        refine held_of_append w _ _ rfl ?_ ?_ ?_ ?_ ?_ ?_ <;> simp <;> intros <;> simp_all
      · simp [isShader_of_not_mem, hfr.1]
      · simp [isProgram_cons_self, hp]
    · simp only [if_true, Option.getD_some]
      simp only [show (GL_TRUE : Int) ≠ GL_FALSE by decide, if_false]
      exact initStep_of_bind t w _ _ _ p vs fs hp (bind_inputs_step t env _)
        rfl rfl rfl rfl rfl rfl rfl

theorem quietStep_of_bufferStep (w w1 : World) (S : BufferStep w w1) : QuietStep w w1 := by
  have hcl : ∀ c ∈ newCalls w w1, c.isBufferSetup = true := S.setup
  constructor
  · exact S.calls
  · exact S.err
  · exact S.fault
  · refine held_of_append w w1 _ S.calls S.mono ?_ ?_ S.live ?_ ?_
    · intro p hp; rw [S.programs]; exact hp
    · intro s hs; rw [S.shaders]; exact hs
    · intro p _ hmem
      have := hcl _ hmem
      simp [Call.isBufferSetup] at this
    · intro s hmem
      have := hcl _ hmem
      simp [Call.isBufferSetup] at this
  · intro c hc
    simp [Call.isInit, hcl c hc]
  · intro c hc
    have := hcl c hc
    cases c <;> simp_all [Call.isBufferSetup, Call.isFailure]
  · intro c hc
    have := hcl c hc
    cases c <;> simp_all [Call.isBufferSetup, Call.isLocationQuery, Call.program?]
  · intro p r hmem
    have := hcl _ hmem
    simp [Call.isBufferSetup] at this

theorem quietStep_of_shaderStep (env : Env) (filename : List Char) (type : ShaderType)
    (w : World) (h : Nat) (w1 : World) (S : ShaderStep env filename type w h w1) (h0 : h ≠ 0) :
    QuietStep w w1 := by
  obtain ⟨source, _, htr⟩ := S.ok_trace h0
  constructor
  · exact S.calls
  · exact S.ok_err h0
  · exact S.ok_fault h0
  · refine held_of_append w w1 _ S.calls ?_ ?_ ?_ ?_ ?_ ?_
    · intro b hb; rw [S.buffers]; exact hb
    · intro p hp; rw [S.programs]; exact hp
    · intro s hs; rw [S.shaders]; simp [h0, hs]
    · intro b hmem
      rw [htr] at hmem
      simp at hmem
    · intro p _ hmem
      rw [htr] at hmem
      simp at hmem
    · intro s hmem
      rw [htr] at hmem
      simp at hmem
      rw [S.shaders]
      simp [h0, hmem]
  · intro c hc
    simp [Call.isInit, S.loader c hc]
  · rw [htr]
    simp [Call.isFailure]
  · rw [htr]
    simp [Call.isLocationQuery, Call.program?]
  · rw [htr]
    simp

theorem initStep_of_shaderStep_fail (t : Tut) (env : Env) (filename : List Char)
    (type : ShaderType) (w : World) (w1 : World) (S : ShaderStep env filename type w 0 w1) :
    InitStep t w false w1 := by
  have hcl := S.loader
  constructor
  · exact S.calls
  · exact S.err
  · intro c hc
    simp [Call.isInit, hcl c hc]
  · refine held_of_append w w1 _ S.calls ?_ ?_ ?_ ?_ ?_ ?_
    · intro b hb; rw [S.buffers]; exact hb
    · intro p hp; rw [S.programs]; exact hp
    · intro s hs; rw [S.shaders]; simpa using hs
    · intro b hmem
      have := hcl _ hmem
      simp [Call.isLoader] at this
    · intro p _ hmem
      have := hcl _ hmem
      simp [Call.isLoader] at this
    · intro s hmem
      exact absurd hmem (S.fail_status rfl s)
  · intro h
    simp at h
  · intro h
    simp at h
  · intro h
    simp at h
  · intro h
    simp at h
  · intro name hmem
    rw [filterMap_eq_nil_of] at hmem
    · simp at hmem
    · intro c hc
      have := hcl c hc
      cases c <;> simp_all [Call.isLoader, Call.missing?]
  · intro p hmem
    have := hcl _ hmem
    simp [Call.isLoader] at this

theorem initStep_of_quietStep (t : Tut) (w w1 w2 : World) (ok : Bool) (P : QuietStep w w1)
    (S : InitStep t w1 ok w2) : InitStep t w ok w2 := by
  have hc2 : w2.calls = w.calls ++ (newCalls w w1 ++ newCalls w1 w2) := by
    rw [S.calls, P.calls]; simp
  have hc : newCalls w w2 = newCalls w w1 ++ newCalls w1 w2 := newCalls_of_append _ _ _ hc2
  have he : newErr w w2 = newErr w1 w2 := newErr_of_append _ _ _ (by rw [S.err, P.err])
  have hl : (newCalls w w1).filterMap Call.location? = [] :=
    filterMap_eq_nil_of _ _ (fun c hc => (location_of_isLocationQuery_false c (P.quiet c hc).1).1)
  have hm : (newCalls w w1).filterMap Call.missing? = [] :=
    filterMap_eq_nil_of _ _ (fun c hc => (location_of_isLocationQuery_false c (P.quiet c hc).1).2)
  have hp : (newCalls w w1).filterMap Call.program? = [] :=
    filterMap_eq_nil_of _ _ (fun c hc => (P.quiet c hc).2)
  constructor
  · rw [hc]; exact hc2
  · rw [he, S.err, P.err]
  · intro c hmem
    rw [hc] at hmem
    rcases List.mem_append.1 hmem with h | h
    · exact P.init c h
    · exact S.init c h
  · exact fun h => S.held (P.held h)
  · intro hok c hmem
    rw [hc] at hmem
    rcases List.mem_append.1 hmem with h | h
    · exact P.found c h
    · exact S.ok_found hok c h
  · intro hok
    exact ⟨by rw [(S.ok_err hok).1, P.err], by rw [(S.ok_err hok).2, P.fault]⟩
  · intro hok
    rw [S.ok_stored hok, hc, List.filterMap_append, hl, List.nil_append]
  · intro hok
    rw [hc, List.filterMap_append, hp, List.nil_append]
    exact S.ok_program hok
  · intro name hmem
    rw [hc, List.filterMap_append, hm, List.nil_append] at hmem
    rw [he]
    exact S.missing name hmem
  · intro p hmem
    rw [hc] at hmem
    rcases List.mem_append.1 hmem with h | h
    · exact absurd h (P.no_link p _)
    · have := S.link_failed p h
      refine ⟨this.1, ?_⟩
      intro c hmem
      rw [hc] at hmem
      rcases List.mem_append.1 hmem with h | h
      · exact (P.quiet c h).1
      · exact this.2 c h

theorem tut_init_resources_eq (t : Tut) (env : Env) (w : World) :
    t.init_resources env w =
      if (create_shader env t.vertexShader .GL_VERTEX_SHADER (t.init_buffers env w)).1 = 0 then
        (false, (create_shader env t.vertexShader .GL_VERTEX_SHADER (t.init_buffers env w)).2)
      else if (create_shader env t.fragmentShader .GL_FRAGMENT_SHADER
          (create_shader env t.vertexShader .GL_VERTEX_SHADER (t.init_buffers env w)).2).1 = 0 then
        (false, (create_shader env t.fragmentShader .GL_FRAGMENT_SHADER
          (create_shader env t.vertexShader .GL_VERTEX_SHADER (t.init_buffers env w)).2).2)
      else
        t.link_and_bind env
          (create_shader env t.vertexShader .GL_VERTEX_SHADER (t.init_buffers env w)).1
          (create_shader env t.fragmentShader .GL_FRAGMENT_SHADER
            (create_shader env t.vertexShader .GL_VERTEX_SHADER (t.init_buffers env w)).2).1
          (create_shader env t.fragmentShader .GL_FRAGMENT_SHADER
            (create_shader env t.vertexShader .GL_VERTEX_SHADER (t.init_buffers env w)).2).2 := by
  cases t <;> rfl

/-- What `init_resources` does to the world, on every path. -/
theorem init_resources_step (t : Tut) (env : Env) (w : World) :
    InitStep t w (t.init_resources env w).1 (t.init_resources env w).2 := by
  rw [tut_init_resources_eq]
  have SB := quietStep_of_bufferStep _ _ (init_buffers_step t env w)
  refine initStep_of_quietStep t w _ _ _ SB ?_
  generalize t.init_buffers env w = wb
  have S1 := create_shader_step env t.vertexShader .GL_VERTEX_SHADER wb
  generalize create_shader env t.vertexShader .GL_VERTEX_SHADER wb = r1 at S1 ⊢
  obtain ⟨vs, w1⟩ := r1
  by_cases hvs : vs = 0
  · subst hvs
    simpa using initStep_of_shaderStep_fail t env _ _ wb w1 S1
  · simp only [hvs, if_false]
    refine initStep_of_quietStep t wb w1 _ _ (quietStep_of_shaderStep _ _ _ _ _ _ S1 hvs) ?_
    have S2 := create_shader_step env t.fragmentShader .GL_FRAGMENT_SHADER w1
    generalize create_shader env t.fragmentShader .GL_FRAGMENT_SHADER w1 = r2 at S2 ⊢
    obtain ⟨fs, w2⟩ := r2
    by_cases hfs : fs = 0
    · subst hfs
      simpa using initStep_of_shaderStep_fail t env _ _ w1 w2 S2
    · simp only [hfs, if_false]
      exact initStep_of_quietStep t w1 w2 _ _ (quietStep_of_shaderStep _ _ _ _ _ _ S2 hfs)
        (link_and_bind_step t env vs fs w2)

theorem tut_main_eq (t : Tut) (env : Env) (polls : List (Option SDL_Event)) :
    t.main env polls =
      if (startup env {}).1 = false then (some EXIT_FAILURE, (startup env {}).2)
      else if (t.init_resources env (startup env {}).2).1 = false then
        (some EXIT_FAILURE, (t.init_resources env (startup env {}).2).2)
      else if (t.main_loop env polls
          (t.before_loop (t.init_resources env (startup env {}).2).2)).1 = false then
        (none, (t.main_loop env polls
          (t.before_loop (t.init_resources env (startup env {}).2).2)).2)
      else
        (some EXIT_SUCCESS, t.free_resources (t.main_loop env polls
          (t.before_loop (t.init_resources env (startup env {}).2).2)).2) := by
  cases t <;> rfl

theorem startup_step (env : Env) : StartupStep (startup env {}).2 := by
  unfold startup
  simp only [emit, cerr]
  split_ifs <;> constructor <;> simp [Call.isStartup]

theorem held_of_startupStep (w1 : World) (S : StartupStep w1) : Held w1 := by
  refine ⟨?_, ?_, ?_⟩
  · intro b hmem
    have := S.startup _ hmem
    simp [Call.isStartup] at this
  · intro b _ hmem
    have := S.startup _ hmem
    simp [Call.isStartup] at this
  · intro b hmem
    have := S.startup _ hmem
    simp [Call.isStartup] at this

theorem isEnter_of_isInit (c : Call) (h : c.isInit = true) :
    c.isEnter = false ∧ c.isFree = false ∧ c.deleted? = none := by
  cases c <;> simp_all [Call.isInit, Call.isEnter, Call.isFree, Call.deleted?, Call.isBufferSetup,
    Call.isLoader, Call.isLinkCall, Call.isLocationQuery]

theorem isEnter_of_isStartup (c : Call) (h : c.isStartup = true) :
    c.isEnter = false ∧ c.isFree = false ∧ c.deleted? = none ∧ c.program? = none := by
  cases c <;> simp_all [Call.isStartup, Call.isEnter, Call.isFree, Call.deleted?, Call.program?]

theorem init_resources_true_files (t : Tut) (env : Env) (w : World)
    (h : (t.init_resources env w).1 = true) :
    file_read env.files t.vertexShader ≠ none ∧ file_read env.files t.fragmentShader ≠ none := by
  rw [tut_init_resources_eq] at h
  have S1 := create_shader_step env t.vertexShader .GL_VERTEX_SHADER (t.init_buffers env w)
  have S2 := create_shader_step env t.fragmentShader .GL_FRAGMENT_SHADER
    (create_shader env t.vertexShader .GL_VERTEX_SHADER (t.init_buffers env w)).2
  split_ifs at h with h1 h2
  obtain ⟨s1, hs1, _⟩ := S1.ok_trace h1
  obtain ⟨s2, hs2, _⟩ := S2.ok_trace h2
  simp [hs1, hs2]

/-- The calls of a run of `main` that ends in `EXIT_FAILURE`. -/
theorem main_failure_calls (t : Tut) (env : Env) (polls : List (Option SDL_Event))
    (h : (t.main env polls).1 = some EXIT_FAILURE) :
    (∀ c ∈ (t.main env polls).2.calls, c.isEnter = false ∧ c.isFree = false) ∧
    Held (t.main env polls).2 := by
  have SS := startup_step env
  have SI := init_resources_step t env (startup env {}).2
  rw [tut_main_eq] at h ⊢
  split_ifs at h ⊢ with h1 h2 h3
  · refine ⟨fun c hc => ?_, held_of_startupStep _ SS⟩
    have := isEnter_of_isStartup c (SS.startup c hc)
    exact ⟨this.1, this.2.1⟩
  · refine ⟨fun c hc => ?_, SI.held (held_of_startupStep _ SS)⟩
    simp only at hc
    rw [SI.calls] at hc
    rcases List.mem_append.1 hc with hc | hc
    · have := isEnter_of_isStartup c (SS.startup c hc)
      exact ⟨this.1, this.2.1⟩
    · have := isEnter_of_isInit c (SI.init c hc)
      exact ⟨this.1, this.2.1⟩
  · simp at h

theorem main_of_init_false (t : Tut) (env : Env) (polls : List (Option SDL_Event))
    (h : (t.init_resources env (startup env {}).2).1 = false) :
    (t.main env polls).1 = some EXIT_FAILURE := by
  rw [tut_main_eq]
  split_ifs <;> rfl

theorem tut01_init_resources_step (env : Env) (w : World) :
    Init01Step w (Tut01.init_resources env w).1 (Tut01.init_resources env w).2 := by
  simp only [Tut01.init_resources]
  simp
  split_ifs <;> constructor <;>
    simp [newCalls, newErr, Call.isInit, Call.isLoader, Call.isLinkCall, Call.isBufferSetup,
      Call.isLocationQuery, Call.location?, Call.missing?, Call.program?, *]
  intro hp
  rename_i hl _
  rw [hp] at hl
  simp [programParam_zero] at hl

theorem loopFrame_of_append (f : World → World)
    (h : ∀ w, ∃ evs, (f w).calls = w.calls ++ evs ∧
      (∀ c ∈ evs, c.deleted? = none ∧ c.program? = none) ∧ (f w).g.program = w.g.program) :
    LoopFrame f := by
  intro w
  obtain ⟨evs, h1, h2, h3⟩ := h w
  have := newCalls_of_append w (f w) evs h1
  rw [this]
  exact ⟨h1, h2, h3⟩

theorem poll_loop_step (onEvent : SDL_Event → World → World) (frame : World → World)
    (hE : ∀ ev, LoopFrame (onEvent ev)) (hF : LoopFrame frame)
    (polls : List (Option SDL_Event)) (w : World) :
    (poll_loop onEvent frame polls w).2.calls =
      w.calls ++ newCalls w (poll_loop onEvent frame polls w).2 ∧
    (∀ c ∈ newCalls w (poll_loop onEvent frame polls w).2,
      c.deleted? = none ∧ c.program? = none) ∧
    (poll_loop onEvent frame polls w).2.g.program = w.g.program := by
  induction polls generalizing w with
  | nil => simp [poll_loop, newCalls]
  | cons p polls ih =>
    cases p with
    | none =>
      simp only [poll_loop]
      obtain ⟨f1, f2, f3⟩ := hF (emit (.SDL_PollEvent none) w)
      obtain ⟨i1, i2, i3⟩ := ih (frame (emit (.SDL_PollEvent none) w))
      have hc : (poll_loop onEvent frame polls (frame (emit (.SDL_PollEvent none) w))).2.calls =
          w.calls ++ ([.SDL_PollEvent none] ++
            newCalls (emit (.SDL_PollEvent none) w) (frame (emit (.SDL_PollEvent none) w)) ++
            newCalls (frame (emit (.SDL_PollEvent none) w))
              (poll_loop onEvent frame polls (frame (emit (.SDL_PollEvent none) w))).2) := by
        rw [i1, f1]
        simp [emit]
      rw [newCalls_of_append _ _ _ hc]
      refine ⟨hc, ?_, ?_⟩
      · intro c hmem
        rcases List.mem_append.1 hmem with h | h
        · rcases List.mem_append.1 h with h | h
          · simp at h
            subst h
            simp [Call.deleted?, Call.program?]
          · exact f2 c h
        · exact i2 c h
      · rw [i3, f3]
        rfl
    | some ev =>
      simp only [poll_loop]
      split_ifs with hq
      · simp [emit, newCalls, Call.deleted?, Call.program?]
      · obtain ⟨f1, f2, f3⟩ := hE ev (emit (.SDL_PollEvent (some ev)) w)
        obtain ⟨i1, i2, i3⟩ := ih (onEvent ev (emit (.SDL_PollEvent (some ev)) w))
        have hc : (poll_loop onEvent frame polls
            (onEvent ev (emit (.SDL_PollEvent (some ev)) w))).2.calls =
            w.calls ++ ([.SDL_PollEvent (some ev)] ++
              newCalls (emit (.SDL_PollEvent (some ev)) w)
                (onEvent ev (emit (.SDL_PollEvent (some ev)) w)) ++
              newCalls (onEvent ev (emit (.SDL_PollEvent (some ev)) w))
                (poll_loop onEvent frame polls
                  (onEvent ev (emit (.SDL_PollEvent (some ev)) w))).2) := by
          rw [i1, f1]
          simp [emit]
        rw [newCalls_of_append _ _ _ hc]
        refine ⟨hc, ?_, ?_⟩
        · intro c hmem
          rcases List.mem_append.1 hmem with h | h
          · rcases List.mem_append.1 h with h | h
            · simp at h
              subst h
              simp [Call.deleted?, Call.program?]
            · exact f2 c h
          · exact i2 c h
        · rw [i3, f3]
          rfl

theorem loopFrame_id : LoopFrame (fun w => w) := by
  intro w
  simp [newCalls]

theorem tut01_render_frame : LoopFrame Tut01.render := by
  intro w
  simp [Tut01.render, newCalls, Call.deleted?, Call.program?]

theorem tut_frame (t : Tut) :
    ∃ onEvent frame, (∀ ev, LoopFrame (onEvent ev)) ∧ LoopFrame frame ∧
      ∀ env polls w, t.main_loop env polls w =
        poll_loop onEvent frame polls (emit (.enter .main_loop) w) := by
  cases t
  · refine ⟨fun _ w => w, Tut02.render, fun _ => loopFrame_id, ?_, fun _ _ _ => rfl⟩
    intro w
    simp [Tut02.render, newCalls, Call.deleted?, Call.program?]
  · refine ⟨fun _ w => w, fun w => Tut03.render (Tut03.uniform_logic w),
      fun _ => loopFrame_id, ?_, fun _ _ _ => rfl⟩
    intro w
    simp [Tut03.render, Tut03.uniform_logic, newCalls, Call.deleted?, Call.program?]
  · refine ⟨fun _ w => w, fun w => Tut04.render (Tut04.input_logic w),
      fun _ => loopFrame_id, ?_, fun _ _ _ => rfl⟩
    intro w
    simp [Tut04.render, Tut04.input_logic, newCalls, Call.deleted?, Call.program?]
  · refine ⟨Tut05.on_event, fun w => Tut05.render (Tut05.input_logic w), ?_, ?_,
      fun _ _ _ => rfl⟩
    · intro ev w
      unfold Tut05.on_event
      split_ifs <;> simp [Tut05.on_resize, newCalls, Call.deleted?, Call.program?]
    · intro w
      simp only [Tut05.render, Tut05.input_logic]
      simp
      split <;> simp [newCalls, Call.deleted?, Call.program?]

theorem free_resources_calls (t : Tut) (w : World) :
    ∃ post, (t.free_resources w).calls = w.calls ++ [.glDeleteProgram w.g.program] ++ post ∧
      post.filterMap Call.deleted? = [] ∧ (∀ c ∈ post, c.isEnter = false) ∧
      (t.free_resources w).g.program = w.g.program := by
  cases t
  · exact ⟨[.glDeleteBuffers 1 w.g.vbo_triangle], by simp [Tut.free_resources, Tut02.free_resources],
      by simp [Call.deleted?], by simp [Call.isEnter], rfl⟩
  · exact ⟨[.glDeleteBuffers 1 w.g.vbo_triangle], by simp [Tut.free_resources, Tut03.free_resources],
      by simp [Call.deleted?], by simp [Call.isEnter], rfl⟩
  · exact ⟨[.glDeleteBuffers 1 w.g.vbo_triangle], by simp [Tut.free_resources, Tut04.free_resources],
      by simp [Call.deleted?], by simp [Call.isEnter], rfl⟩
  · exact ⟨[.glDeleteBuffers 1 w.g.vbo_cube_vertices, .glDeleteBuffers 1 w.g.vbo_cube_colors,
        .glDeleteBuffers 1 w.g.ibo_cube_elements],
      by simp [Tut.free_resources, Tut05.free_resources],
      by simp [Call.deleted?], by simp [Call.isEnter], rfl⟩

theorem before_loop_calls (t : Tut) (w : World) :
    ∃ evs, (t.before_loop w).calls = w.calls ++ evs ∧
      (∀ c ∈ evs, c.deleted? = none ∧ c.program? = none) ∧
      (t.before_loop w).g.program = w.g.program := by
  cases t
  · exact ⟨[], by simp [Tut.before_loop], by simp, rfl⟩
  · exact ⟨[], by simp [Tut.before_loop], by simp, rfl⟩
  · exact ⟨[], by simp [Tut.before_loop], by simp, rfl⟩
  · exact ⟨[.glState "glEnable(GL_DEPTH_TEST)"], by simp [Tut.before_loop],
      by simp [Call.deleted?, Call.program?], rfl⟩

theorem main_loop_calls (t : Tut) (env : Env) (polls : List (Option SDL_Event)) (w : World) :
    ∃ evs, (t.main_loop env polls w).2.calls = w.calls ++ evs ∧
      (∀ c ∈ evs, c.deleted? = none ∧ c.program? = none) ∧
      (t.main_loop env polls w).2.g.program = w.g.program := by
  obtain ⟨onEvent, frame, hE, hF, heq⟩ := tut_frame t
  rw [heq]
  obtain ⟨h1, h2, h3⟩ := poll_loop_step onEvent frame hE hF polls (emit (.enter .main_loop) w)
  refine ⟨[.enter .main_loop] ++ newCalls (emit (.enter .main_loop) w)
    (poll_loop onEvent frame polls (emit (.enter .main_loop) w)).2, ?_, ?_, ?_⟩
  · rw [h1]
    simp [emit]
  · intro c hmem
    rcases List.mem_append.1 hmem with h | h
    · simp at h
      subst h
      simp [Call.deleted?, Call.program?]
    · exact h2 c h
  · rw [h3]
    rfl

/-- The calls of a run of `main` before `free_resources`: one program is created, none
is deleted. -/
theorem main_loop_world (t : Tut) (env : Env) (polls : List (Option SDL_Event))
    (hi : (t.init_resources env (startup env {}).2).1 = true) :
    (t.main_loop env polls (t.before_loop (t.init_resources env (startup env {}).2).2)).2.g.program
      ≠ 0 ∧
    (t.main_loop env polls (t.before_loop
      (t.init_resources env (startup env {}).2).2)).2.calls.filterMap Call.program? =
      [(t.main_loop env polls (t.before_loop
        (t.init_resources env (startup env {}).2).2)).2.g.program] ∧
    (t.main_loop env polls (t.before_loop
      (t.init_resources env (startup env {}).2).2)).2.calls.filterMap Call.deleted? = [] := by
  have SS := startup_step env
  have SI := init_resources_step t env (startup env {}).2
  obtain ⟨e1, b1, b2, b3⟩ := before_loop_calls t (t.init_resources env (startup env {}).2).2
  obtain ⟨e2, l1, l2, l3⟩ := main_loop_calls t env polls
    (t.before_loop (t.init_resources env (startup env {}).2).2)
  obtain ⟨p0, p1⟩ := SI.ok_program hi
  have hs1 : (startup env {}).2.calls.filterMap Call.program? = [] :=
    filterMap_eq_nil_of _ _ (fun c hc => (isEnter_of_isStartup c (SS.startup c hc)).2.2.2)
  have hs2 : (startup env {}).2.calls.filterMap Call.deleted? = [] :=
    filterMap_eq_nil_of _ _ (fun c hc => (isEnter_of_isStartup c (SS.startup c hc)).2.2.1)
  have hi2 : (newCalls (startup env {}).2
      (t.init_resources env (startup env {}).2).2).filterMap Call.deleted? = [] :=
    filterMap_eq_nil_of _ _ (fun c hc => (isEnter_of_isInit c (SI.init c hc)).2.2)
  have he1p : e1.filterMap Call.program? = [] := filterMap_eq_nil_of _ _ (fun c hc => (b2 c hc).2)
  have he1d : e1.filterMap Call.deleted? = [] := filterMap_eq_nil_of _ _ (fun c hc => (b2 c hc).1)
  have he2p : e2.filterMap Call.program? = [] := filterMap_eq_nil_of _ _ (fun c hc => (l2 c hc).2)
  have he2d : e2.filterMap Call.deleted? = [] := filterMap_eq_nil_of _ _ (fun c hc => (l2 c hc).1)
  rw [l3, b3, l1, b1, SI.calls]
  refine ⟨p0, ?_, ?_⟩
  · simp [List.filterMap_append, hs1, p1, he1p, he2p]
  · simp [List.filterMap_append, hs2, hi2, he1d, he2d]

/-- The calls of a run of `main` that does not end in `EXIT_SUCCESS`. -/
theorem main_no_delete (t : Tut) (env : Env) (polls : List (Option SDL_Event))
    (h : (t.main env polls).1 ≠ some EXIT_SUCCESS) :
    (t.main env polls).2.calls.filterMap Call.deleted? = [] := by
  have SS := startup_step env
  have SI := init_resources_step t env (startup env {}).2
  have hs2 : (startup env {}).2.calls.filterMap Call.deleted? = [] :=
    filterMap_eq_nil_of _ _ (fun c hc => (isEnter_of_isStartup c (SS.startup c hc)).2.2.1)
  have hi2 : (newCalls (startup env {}).2
      (t.init_resources env (startup env {}).2).2).filterMap Call.deleted? = [] :=
    filterMap_eq_nil_of _ _ (fun c hc => (isEnter_of_isInit c (SI.init c hc)).2.2)
  rw [tut_main_eq] at h ⊢
  split_ifs at h ⊢ with h1 h2 h3
  · exact hs2
  · simp only
    rw [SI.calls, List.filterMap_append, hs2, hi2]
    rfl
  · have hi : (t.init_resources env (startup env {}).2).1 = true := by simpa using h2
    exact (main_loop_world t env polls hi).2.2
  · exact absurd rfl h

theorem tut01_main_eq (env : Env) (polls : List (Option SDL_Event)) :
    Tut01.main env polls =
      if env.glewOk = false then
        (some EXIT_FAILURE, cerr (str "Error: glewInit: \n") (Tut01.started env))
      else if (Tut01.init_resources env (Tut01.started env)).1 = false then
        (some EXIT_FAILURE, (Tut01.init_resources env (Tut01.started env)).2)
      else if (Tut01.main_loop env polls
          (Tut01.init_resources env (Tut01.started env)).2).1 = false then
        (none, (Tut01.main_loop env polls (Tut01.init_resources env (Tut01.started env)).2).2)
      else
        (some EXIT_SUCCESS, Tut01.free_resources (Tut01.main_loop env polls
          (Tut01.init_resources env (Tut01.started env)).2).2) := by
  rfl

theorem tut01_started_calls (env : Env) :
    (Tut01.started env).calls.filterMap Call.program? = [] ∧
    (Tut01.started env).calls.filterMap Call.deleted? = [] := by
  simp [Tut01.started, Call.program?, Call.deleted?]

theorem tut01_main_loop_calls (env : Env) (polls : List (Option SDL_Event)) (w : World) :
    ∃ evs, (Tut01.main_loop env polls w).2.calls = w.calls ++ evs ∧
      (∀ c ∈ evs, c.deleted? = none ∧ c.program? = none) ∧
      (Tut01.main_loop env polls w).2.g.program = w.g.program := by
  unfold Tut01.main_loop
  obtain ⟨h1, h2, h3⟩ := poll_loop_step (fun _ w => w) Tut01.render (fun _ => loopFrame_id)
    tut01_render_frame polls (emit (.enter .main_loop) w)
  refine ⟨[.enter .main_loop] ++ newCalls (emit (.enter .main_loop) w)
    (poll_loop (fun _ w => w) Tut01.render polls (emit (.enter .main_loop) w)).2, ?_, ?_, ?_⟩
  · rw [h1]
    simp [emit]
  · intro c hmem
    rcases List.mem_append.1 hmem with h | h
    · simp at h
      subst h
      simp [Call.deleted?, Call.program?]
    · exact h2 c h
  · rw [h3]
    rfl

theorem tut01_main_loop_world (env : Env) (polls : List (Option SDL_Event))
    (hi : (Tut01.init_resources env (Tut01.started env)).1 = true) :
    (Tut01.main_loop env polls (Tut01.init_resources env (Tut01.started env)).2).2.g.program ≠ 0 ∧
    (Tut01.main_loop env polls
      (Tut01.init_resources env (Tut01.started env)).2).2.calls.filterMap Call.program? =
      [(Tut01.main_loop env polls
        (Tut01.init_resources env (Tut01.started env)).2).2.g.program] ∧
    (Tut01.main_loop env polls
      (Tut01.init_resources env (Tut01.started env)).2).2.calls.filterMap Call.deleted? = [] := by
  have SI := tut01_init_resources_step env (Tut01.started env)
  obtain ⟨e2, l1, l2, l3⟩ := tut01_main_loop_calls env polls
    (Tut01.init_resources env (Tut01.started env)).2
  obtain ⟨p0, p1⟩ := SI.ok_program hi
  obtain ⟨hs1, hs2⟩ := tut01_started_calls env
  have hi2 : (newCalls (Tut01.started env)
      (Tut01.init_resources env (Tut01.started env)).2).filterMap Call.deleted? = [] :=
    filterMap_eq_nil_of _ _ (fun c hc => (isEnter_of_isInit c (SI.init c hc)).2.2)
  have he2p : e2.filterMap Call.program? = [] := filterMap_eq_nil_of _ _ (fun c hc => (l2 c hc).2)
  have he2d : e2.filterMap Call.deleted? = [] := filterMap_eq_nil_of _ _ (fun c hc => (l2 c hc).1)
  rw [l3, l1, SI.calls]
  refine ⟨p0, ?_, ?_⟩
  · simp [List.filterMap_append, hs1, p1, he2p]
  · simp [List.filterMap_append, hs2, hi2, he2d]

theorem tut01_main_no_delete (env : Env) (polls : List (Option SDL_Event))
    (h : (Tut01.main env polls).1 ≠ some EXIT_SUCCESS) :
    (Tut01.main env polls).2.calls.filterMap Call.deleted? = [] := by
  have SI := tut01_init_resources_step env (Tut01.started env)
  obtain ⟨hs1, hs2⟩ := tut01_started_calls env
  have hi2 : (newCalls (Tut01.started env)
      (Tut01.init_resources env (Tut01.started env)).2).filterMap Call.deleted? = [] :=
    filterMap_eq_nil_of _ _ (fun c hc => (isEnter_of_isInit c (SI.init c hc)).2.2)
  rw [tut01_main_eq] at h ⊢
  split_ifs at h ⊢ with h1 h2 h3
  · simpa [cerr] using hs2
  · simp only
    rw [SI.calls, List.filterMap_append, hs2, hi2]
    rfl
  · have hi : (Tut01.init_resources env (Tut01.started env)).1 = true := by simpa using h2
    exact (tut01_main_loop_world env polls hi).2.2
  · exact absurd rfl h

theorem file_read_eq_none_iff (files : List Char → Option SDL_RWops) (filename : List Char) :
    file_read files filename = none ↔
      (files filename = none ∨ ∃ rw, files filename = some rw ∧
        (file_read_loop rw (SDL_RWsize rw) (file_read_fuel (SDL_RWsize rw)) 0 0 1 []).1 ≠
          SDL_RWsize rw) := by
  unfold file_read
  split
  · rename_i heq
    simp [heq]
  · rename_i rw heq
    simp [heq]

/-- Claim C1. For every file name and shader type: when `file_read` fails (the file cannot
be opened, or the number of bytes read differs from the reported size), `create_shader`
returns the sentinel 0, the text it appends to the error stream contains the file name,
and none of the calls it makes goes into the graphics driver; the live shaders, programs
and buffers of the driver are what they were before the call. -/
theorem create_shader_read_failure (env : Env) (filename : List Char) (type : ShaderType)
    (w : World)
    (h : env.files filename = none ∨ ∃ rw, env.files filename = some rw ∧
        (file_read_loop rw (SDL_RWsize rw) (file_read_fuel (SDL_RWsize rw)) 0 0 1 []).1 ≠
          SDL_RWsize rw) :
    (create_shader env filename type w).1 = 0 ∧
    (create_shader env filename type w).2.err =
      w.err ++ newErr w (create_shader env filename type w).2 ∧
    filename <:+: newErr w (create_shader env filename type w).2 ∧
    (create_shader env filename type w).2.calls =
      w.calls ++ newCalls w (create_shader env filename type w).2 ∧
    (∀ c ∈ newCalls w (create_shader env filename type w).2, c.isGL = false) ∧
    (create_shader env filename type w).2.shaders = w.shaders ∧
    (create_shader env filename type w).2.programs = w.programs ∧
    (create_shader env filename type w).2.buffers = w.buffers := by
  have hr := (file_read_eq_none_iff env.files filename).2 h
  have S := create_shader_step env filename type w
  rw [create_shader_of_read_none env filename type w hr] at S ⊢
  refine ⟨rfl, S.err, S.fail_err rfl, S.calls, ?_, rfl, rfl, rfl⟩
  rw [newCalls_of_append _ _ _ rfl]
  simp [Call.isGL]

/-- Claim C2. Whenever the compile-status query that `create_shader` makes for its shader
is not answered with true, `create_shader` returns the sentinel 0, the text it appends to
the error stream contains the file name, the shader it created is handed to
`glDeleteShader`, and the live shaders (as well as programs and buffers) after the call are
exactly those before the call. The source was readable, since the query was made at all. -/
theorem create_shader_compile_failure (env : Env) (filename : List Char) (type : ShaderType)
    (w : World) (shader : Nat) (reported : Option Int)
    (hq : Call.glGetShaderiv shader .GL_COMPILE_STATUS reported ∈
      newCalls w (create_shader env filename type w).2)
    (hrej : reported ≠ some GL_TRUE) :
    (create_shader env filename type w).1 = 0 ∧
    (create_shader env filename type w).2.err =
      w.err ++ newErr w (create_shader env filename type w).2 ∧
    filename <:+: newErr w (create_shader env filename type w).2 ∧
    Call.glCreateShader type shader ∈ newCalls w (create_shader env filename type w).2 ∧
    Call.glDeleteShader shader ∈ newCalls w (create_shader env filename type w).2 ∧
    (create_shader env filename type w).2.shaders = w.shaders ∧
    (create_shader env filename type w).2.programs = w.programs ∧
    (create_shader env filename type w).2.buffers = w.buffers := by
  have S := create_shader_step env filename type w
  refine ⟨?_, S.err, ?_⟩
  all_goals
    rcases create_shader_cases env filename type w with
      hn | ⟨source, hs, h0 | ⟨h0, hc⟩ | ⟨h0, hc⟩⟩
  · rw [create_shader_of_read_none env filename type w hn]
  · rw [create_shader_of_no_object env filename type w source hs h0]
  · rw [create_shader_of_accept env filename type w source hs _ rfl h0 hc,
      newCalls_of_append _ _ _ rfl] at hq
    simp at hq
    exact absurd hq.2 hrej
  · rw [create_shader_of_reject env filename type w source hs _ rfl h0 hc]
  · rw [create_shader_of_read_none env filename type w hn, newCalls_of_append _ _ _ rfl] at hq
    simp at hq
  · rw [create_shader_of_no_object env filename type w source hs h0] at hq ⊢
    rw [newCalls_of_append _ _ _ rfl] at hq ⊢
    rw [newErr_of_append _ _ _ rfl]
    simp at hq
    obtain ⟨rfl, rfl⟩ := hq
    exact ⟨⟨[], _, by simp; rfl⟩, by simp, by simp, rfl, rfl, rfl⟩
  · rw [create_shader_of_accept env filename type w source hs _ rfl h0 hc,
      newCalls_of_append _ _ _ rfl] at hq
    simp at hq
    exact absurd hq.2 hrej
  · rw [create_shader_of_reject env filename type w source hs _ rfl h0 hc] at hq ⊢
    rw [newCalls_of_append _ _ _ rfl] at hq ⊢
    rw [newErr_of_append _ _ _ rfl]
    simp at hq
    obtain ⟨rfl, rfl⟩ := hq
    exact ⟨⟨[], _, by simp; rfl⟩, by simp, by simp, rfl, rfl, rfl⟩

theorem c_str_append_nul (text : List Char) : c_str (text ++ [NUL]) = c_str text := by
  induction text with
  | nil => decide
  | cons c text ih =>
    unfold c_str at ih ⊢
    simp only [List.cons_append, List.takeWhile_cons]
    split_ifs
    · rw [ih]
    · rfl

theorem c_str_of_no_nul (text : List Char) (h : NUL ∉ text) : c_str text = text := by
  induction text with
  | nil => rfl
  | cons c text ih =>
    unfold c_str at ih ⊢
    have hc : c ≠ NUL := fun e => h (e ▸ List.mem_cons_self _ _)
    have ht : NUL ∉ text := fun m => h (List.mem_cons_of_mem _ m)
    simp only [List.takeWhile_cons, bne_iff_ne, ne_eq, hc, not_false_eq_true, if_true]
    rw [ih ht]

theorem file_read_terminated (files : List Char → Option SDL_RWops) (filename source : List Char)
    (h : file_read files filename = some source) : ∃ text, source = text ++ [NUL] := by
  unfold file_read at h
  split at h
  · exact absurd h (by simp)
  · simp only at h
    split_ifs at h
    exact ⟨_, (Option.some.inj h).symm⟩

/-- Claim C3, amended. When the file is readable and the driver answers the compile-status
query with true, `create_shader` returns the handle that `glCreateShader` issued, this
handle is not the sentinel 0, the calls made are exactly: open the file, create the
shader, submit one source string, compile, query the status; the handle was not live
before and is the one shader added to the live ones, and the error stream is unchanged.
The source string submitted is the file text up to its first NUL byte: the whole file
text when the file holds no NUL byte. -/
theorem create_shader_success (env : Env) (filename : List Char) (type : ShaderType)
    (w : World) (source : List Char) (shader : Nat)
    (hsrc : file_read env.files filename = some source)
    (hok : Call.glGetShaderiv shader .GL_COMPILE_STATUS (some GL_TRUE) ∈
      newCalls w (create_shader env filename type w).2) :
    (create_shader env filename type w).1 = shader ∧
    shader ≠ 0 ∧
    (create_shader env filename type w).2.calls =
      w.calls ++ newCalls w (create_shader env filename type w).2 ∧
    newCalls w (create_shader env filename type w).2 =
      [.SDL_RWFromFile filename true, .glCreateShader type shader,
        .glShaderSource shader 1 [c_str source], .glCompileShader shader,
        .glGetShaderiv shader .GL_COMPILE_STATUS (some GL_TRUE)] ∧
    shader ∉ w.shaders ∧
    (create_shader env filename type w).2.shaders = shader :: w.shaders ∧
    (create_shader env filename type w).2.err = w.err ∧
    ∃ text, source = text ++ [NUL] ∧ c_str source = c_str text ∧
      (NUL ∉ text → c_str source = text) := by
  obtain ⟨text, htext⟩ := file_read_terminated env.files filename source hsrc
  have hstr : c_str source = c_str text := by rw [htext, c_str_append_nul]
  have S := create_shader_step env filename type w
  have h0 : (create_shader env filename type w).1 ≠ 0 := by
    intro h0
    have := S.fail_status h0 shader
    exact this hok
  obtain ⟨source1, hs1, htr⟩ := S.ok_trace h0
  obtain rfl : source1 = source := by
    rw [hs1] at hsrc
    exact Option.some.inj hsrc
  rw [htr] at hok
  simp at hok
  have hsh := S.shaders
  simp only [h0, if_false] at hsh
  rw [← hok] at htr hsh h0 ⊢
  rw [← hok] at S
  exact ⟨rfl, h0, S.calls, htr, (S.fresh h0).1, hsh, S.ok_err h0,
    text, htext, hstr, fun hn => hstr.trans (c_str_of_no_nul text hn)⟩

/-- Claim C3 fails as stated. The file of `nulEnv` holds `a`, NUL, `b`: it is read in full
and the driver accepts the source, yet the one source string submitted is `a`, the text
before the NUL, and not the full file text. -/
theorem create_shader_truncates_at_nul :
    file_read nulEnv.files (str "a.glsl") = some (str "a" ++ [NUL] ++ str "b" ++ [NUL]) ∧
    Call.glGetShaderiv 2 .GL_COMPILE_STATUS (some GL_TRUE) ∈
      newCalls {} (create_shader nulEnv (str "a.glsl") .GL_VERTEX_SHADER {}).2 ∧
    (create_shader nulEnv (str "a.glsl") .GL_VERTEX_SHADER {}).1 = 2 ∧
    (newCalls {} (create_shader nulEnv (str "a.glsl") .GL_VERTEX_SHADER {}).2).filterMap
        Call.submitted? = [[str "a"]] ∧
    str "a" ≠ str "a" ++ [NUL] ++ str "b" := by
  decide

/-- Claim C4. In tut02 to tut05, for every environment (files, windowing, driver): if a
shader file cannot be read or some query of `init_resources` fails (a compile status or the
link status not answered with true, a location answered with -1), then `init_resources`
returns false, `main` returns `EXIT_FAILURE`, and the trace of `main` holds no entry of
`main_loop` or `render`. -/
theorem init_failure_stops_main (t : Tut) (env : Env) (polls : List (Option SDL_Event))
    (h : file_read env.files t.vertexShader = none ∨
      file_read env.files t.fragmentShader = none ∨
      ∃ c ∈ newCalls (startup env {}).2 (t.init_resources env (startup env {}).2).2,
        c.isFailure = true) :
    (t.init_resources env (startup env {}).2).1 = false ∧
    (t.main env polls).1 = some EXIT_FAILURE ∧
    ∀ c ∈ (t.main env polls).2.calls, c.isEnter = false := by
  have SI := init_resources_step t env (startup env {}).2
  have hf : (t.init_resources env (startup env {}).2).1 = false := by
    cases hok : (t.init_resources env (startup env {}).2).1
    · rfl
    · exfalso
      have hfiles := init_resources_true_files t env _ hok
      rcases h with h | h | ⟨c, hc, hcf⟩
      · exact hfiles.1 h
      · exact hfiles.2 h
      · rw [SI.ok_found hok c hc] at hcf
        exact Bool.false_ne_true hcf
  have hm := main_of_init_false t env polls hf
  exact ⟨hf, hm, fun c hc => ((main_failure_calls t env polls hm).1 c hc).1⟩

/-- The link-failure path of `init_resources` when the driver has an info log: the log
is what follows `glLinkProgram: ` on the error stream, and no read leaves the buffer. -/
theorem link_failure_log_written (t : Tut) (env : Env) (vs fs : Nat) (w : World) (p : Nat)
    (hp : issueProgram env.driver w.calls w.shaders w.programs = p) (hp0 : p ≠ 0)
    (hl : env.driver.linkStatus p = false) (hlog : env.driver.programInfoLog p ≠ []) :
    (t.link_and_bind env vs fs w).1 = false ∧
    (t.link_and_bind env vs fs w).2.err =
      w.err ++ str "glLinkProgram: " ++ env.driver.programInfoLog p ∧
    (t.link_and_bind env vs fs w).2.fault = w.fault := by
  have hfr := issueProgram_fresh _ _ _ _ (by rw [hp]; exact hp0)
  rw [hp] at hfr
  have hfetch : fetchLog (env.driver.programInfoLog p)
      (infoLogLength (env.driver.programInfoLog p)) = some (env.driver.programInfoLog p) := by
    unfold fetchLog infoLogLength
    simp only [hlog, if_false]
    rw [if_neg (by omega)]
    congr 1
    apply List.take_of_length_le
    omega
  unfold Tut.link_and_bind
  rw [link_shaders_eq, hp]
  simp only [hp0, if_false, programParam_link _ _ _ hp0, hl, Bool.false_eq_true, Option.getD_some,
    if_true]
  rw [print_log_program]
  · simp [hfetch]
  · simp [isShader_of_not_mem, hfr.1]
  · simp [isProgram_cons_self, hp0]

/-- The link-failure path of `init_resources` in general: it returns false and asks for
no location. -/
theorem init_resources_link_failure (t : Tut) (env : Env) (w : World) (p : Nat)
    (h : Call.glGetProgramiv p .GL_LINK_STATUS (some GL_FALSE) ∈
      newCalls w (t.init_resources env w).2) :
    (t.init_resources env w).1 = false ∧
    ∀ c ∈ newCalls w (t.init_resources env w).2, c.isLocationQuery = false :=
  (init_resources_step t env w).link_failed p h

/-- Claim C5, evaluated where the code departs from it. The driver of `linkFailEnv` refuses
to link and keeps no info log, so `GL_INFO_LOG_LENGTH` is 0. In each of tut02 to tut05
`init_resources` returns false, after `print_log` has fetched the log into a buffer of 0
bytes and streamed that buffer: the read runs past its end (`fault`), so what goes to the
error stream is not the info log of the driver. -/
theorem link_failure_with_empty_log_faults (t : Tut) :
    (t.init_resources linkFailEnv {}).1 = false ∧
    Call.glGetProgramiv (t.init_resources linkFailEnv {}).2.g.program .GL_LINK_STATUS
      (some GL_FALSE) ∈ (t.init_resources linkFailEnv {}).2.calls ∧
    Call.glGetProgramiv (t.init_resources linkFailEnv {}).2.g.program .GL_INFO_LOG_LENGTH
      (some 0) ∈ (t.init_resources linkFailEnv {}).2.calls ∧
    Call.glGetProgramInfoLog (t.init_resources linkFailEnv {}).2.g.program 0 ∈
      (t.init_resources linkFailEnv {}).2.calls ∧
    (t.init_resources linkFailEnv {}).2.fault = true := by
  cases t <;> decide

theorem isLinkCall_of_isLoader (c : Call) (h : c.isLoader = true) : c.isLinkCall = false := by
  cases c with
  | glGetProgramiv p pn r => cases pn <;> simp_all [Call.isLoader, Call.isLinkCall]
  | _ => simp_all [Call.isLoader, Call.isLinkCall]

theorem isLinkCall_of_isBufferSetup (c : Call) (h : c.isBufferSetup = true) :
    c.isLinkCall = false := by
  cases c <;> simp_all [Call.isBufferSetup, Call.isLinkCall]

theorem vertexShader_ne_fragmentShader (t : Tut) : t.vertexShader ≠ t.fragmentShader := by
  cases t <;> decide

/-- Claim C6. In `init_resources` of tut02 to tut05 a failed step cuts off the later ones.
If `create_shader` returns 0 for either shader, `init_resources` returns false and makes no
`glCreateProgram`, `glAttachShader`, `glLinkProgram` or program query. If it returns 0 for
the vertex shader, `init_resources` ends in the world that call left: the fragment file is
never opened and no fragment shader is created. If it returns 0 only for the fragment
shader, `init_resources` ends in the world that second call left. -/
theorem init_resources_short_circuit (t : Tut) (env : Env) (w : World)
    (h : (create_shader env t.vertexShader .GL_VERTEX_SHADER (t.init_buffers env w)).1 = 0 ∨
      (create_shader env t.fragmentShader .GL_FRAGMENT_SHADER
        (create_shader env t.vertexShader .GL_VERTEX_SHADER (t.init_buffers env w)).2).1 = 0) :
    (t.init_resources env w).1 = false ∧
    (∀ c ∈ newCalls w (t.init_resources env w).2, c.isLinkCall = false) ∧
    ((create_shader env t.vertexShader .GL_VERTEX_SHADER (t.init_buffers env w)).1 = 0 →
      t.init_resources env w =
        (false, (create_shader env t.vertexShader .GL_VERTEX_SHADER (t.init_buffers env w)).2) ∧
      ∀ c ∈ newCalls w (t.init_resources env w).2,
        (∀ o, c ≠ .SDL_RWFromFile t.fragmentShader o) ∧
        (∀ s, c ≠ .glCreateShader .GL_FRAGMENT_SHADER s)) ∧
    ((create_shader env t.vertexShader .GL_VERTEX_SHADER (t.init_buffers env w)).1 ≠ 0 →
      t.init_resources env w =
        (false, (create_shader env t.fragmentShader .GL_FRAGMENT_SHADER
          (create_shader env t.vertexShader .GL_VERTEX_SHADER (t.init_buffers env w)).2).2)) := by
  have SB := init_buffers_step t env w
  have S1 := create_shader_step env t.vertexShader .GL_VERTEX_SHADER (t.init_buffers env w)
  have S2 := create_shader_step env t.fragmentShader .GL_FRAGMENT_SHADER
    (create_shader env t.vertexShader .GL_VERTEX_SHADER (t.init_buffers env w)).2
  have hne := vertexShader_ne_fragmentShader t
  rw [tut_init_resources_eq]
  by_cases h1 : (create_shader env t.vertexShader .GL_VERTEX_SHADER (t.init_buffers env w)).1 = 0
  · rw [if_pos h1]
    have hc : newCalls w (create_shader env t.vertexShader .GL_VERTEX_SHADER
        (t.init_buffers env w)).2 = newCalls w (t.init_buffers env w) ++
        newCalls (t.init_buffers env w) (create_shader env t.vertexShader .GL_VERTEX_SHADER
          (t.init_buffers env w)).2 :=
      newCalls_of_append _ _ _ (by rw [S1.calls, SB.calls]; simp)
    refine ⟨rfl, ?_, fun _ => ⟨rfl, ?_⟩, fun hn => absurd h1 hn⟩
    · intro c hmem
      rw [hc] at hmem
      rcases List.mem_append.1 hmem with hm | hm
      · exact isLinkCall_of_isBufferSetup c (SB.setup c hm)
      · exact isLinkCall_of_isLoader c (S1.loader c hm)
    · intro c hmem
      rw [hc] at hmem
      rcases List.mem_append.1 hmem with hm | hm
      · have := SB.setup c hm
        cases c <;> simp_all [Call.isBufferSetup]
      · refine ⟨?_, ?_⟩
        · rintro o rfl
          exact hne (S1.files _ _ hm).symm
        · rintro s rfl
          have := S1.types _ _ hm
          simp at this
  · have h2 := h.resolve_left h1
    rw [if_neg h1, if_pos h2]
    have hc : newCalls w (create_shader env t.fragmentShader .GL_FRAGMENT_SHADER
        (create_shader env t.vertexShader .GL_VERTEX_SHADER (t.init_buffers env w)).2).2 =
        newCalls w (t.init_buffers env w) ++
        (newCalls (t.init_buffers env w) (create_shader env t.vertexShader .GL_VERTEX_SHADER
          (t.init_buffers env w)).2 ++
         newCalls (create_shader env t.vertexShader .GL_VERTEX_SHADER (t.init_buffers env w)).2
          (create_shader env t.fragmentShader .GL_FRAGMENT_SHADER
            (create_shader env t.vertexShader .GL_VERTEX_SHADER (t.init_buffers env w)).2).2) :=
      newCalls_of_append _ _ _ (by rw [S2.calls, S1.calls, SB.calls]; simp)
    refine ⟨rfl, ?_, fun h0 => absurd h0 h1, fun _ => rfl⟩
    intro c hmem
    rw [hc] at hmem
    rcases List.mem_append.1 hmem with hm | hm
    · exact isLinkCall_of_isBufferSetup c (SB.setup c hm)
    · rcases List.mem_append.1 hm with hm | hm
      · exact isLinkCall_of_isLoader c (S1.loader c hm)
      · exact isLinkCall_of_isLoader c (S2.loader c hm)

theorem missing_mem_of_event (l : List Call) (p : Nat) (name : List Char)
    (h : Call.glGetAttribLocation p name (-1) ∈ l ∨ Call.glGetUniformLocation p name (-1) ∈ l) :
    name ∈ l.filterMap Call.missing? := by
  rw [List.mem_filterMap]
  rcases h with h | h
  · exact ⟨_, h, by simp [Call.missing?]⟩
  · exact ⟨_, h, by simp [Call.missing?]⟩

theorem ne_sentinel_of_not_failure (c : Call) (v : Int) (h : c.location? = some v)
    (hf : c.isFailure = false) : v ≠ -1 := by
  cases c <;> simp_all [Call.location?, Call.isFailure]

/-- After a successful `init_resources` no stored location is the sentinel -1. -/
theorem stored_ne_sentinel (T : AnyTut) (env : Env) (w : World)
    (hok : (T.init_resources env w).1 = true) :
    ∀ loc ∈ T.storedLocations (T.init_resources env w).2.g, loc ≠ -1 := by
  intro loc hloc
  cases T with
  | tut01 =>
    have S := tut01_init_resources_step env w
    simp only [AnyTut.init_resources, AnyTut.storedLocations] at hok hloc
    simp at hloc
    subst hloc
    exact S.ok_found hok
  | later t =>
    have S := init_resources_step t env w
    simp only [AnyTut.init_resources, AnyTut.storedLocations] at hok hloc
    rw [S.ok_stored hok, List.mem_filterMap] at hloc
    obtain ⟨c, hc, hcl⟩ := hloc
    exact ne_sentinel_of_not_failure c loc hcl (S.ok_found hok c hc)

/-- Claim C7. In `init_resources` of tut01 to tut05: whenever the driver answers an attribute
or uniform location query for a name with -1, `init_resources` returns false, the text it
appends to the error stream is one of the `Could not bind` labels followed by that name
and a newline, and that name is the only input of the tutorial occurring in this text.
Whenever `init_resources` returns true, none of the stored locations is -1. -/
theorem missing_input_is_fatal (T : AnyTut) (env : Env) (w : World) :
    (∀ p name,
      (Call.glGetAttribLocation p name (-1) ∈ newCalls w (T.init_resources env w).2 ∨
        Call.glGetUniformLocation p name (-1) ∈ newCalls w (T.init_resources env w).2) →
      (T.init_resources env w).1 = false ∧
      (∃ label ∈ bindLabels, newErr w (T.init_resources env w).2 = label ++ name ++ str "\n") ∧
      name ∈ T.inputs ∧
      ∀ n ∈ T.inputs, n <:+: newErr w (T.init_resources env w).2 → n = name) ∧
    ((T.init_resources env w).1 = true →
      ∀ loc ∈ T.storedLocations (T.init_resources env w).2.g, loc ≠ -1) := by
  cases T with
  | tut01 =>
    have S := tut01_init_resources_step env w
    simp only [AnyTut.init_resources, AnyTut.inputs, AnyTut.storedLocations]
    refine ⟨fun p name h => ?_, fun hok loc hloc => ?_⟩
    · obtain ⟨h1, h2, h3⟩ := S.missing name (missing_mem_of_event _ p name h)
      subst h3
      refine ⟨h1, ⟨str "Could not bind attribute ", by decide, h2⟩, by simp, ?_⟩
      intro n hn _
      simpa using hn
    · simp at hloc
      subst hloc
      exact S.ok_found hok
  | later t =>
    have S := init_resources_step t env w
    simp only [AnyTut.init_resources, AnyTut.inputs, AnyTut.storedLocations]
    refine ⟨fun p name h => ?_, fun hok loc hloc => ?_⟩
    · exact S.missing name (missing_mem_of_event _ p name h)
    · rw [S.ok_stored hok, List.mem_filterMap] at hloc
      obtain ⟨c, hc, hcl⟩ := hloc
      exact ne_sentinel_of_not_failure c loc hcl (S.ok_found hok c hc)

/-- Claim C8, amended. Whenever `init_resources` of tut01 to tut05 returns true, the stored
locations are exactly the answers of the driver to the location queries, in order, and none
of them is the sentinel -1; they are all non-negative when the driver answers no location
query with a value below -1. -/
theorem stored_locations_found (T : AnyTut) (env : Env) (w : World)
    (h : (T.init_resources env w).1 = true) :
    T.storedLocations (T.init_resources env w).2.g =
      (newCalls w (T.init_resources env w).2).filterMap Call.location? ∧
    (∀ loc ∈ T.storedLocations (T.init_resources env w).2.g, loc ≠ -1) ∧
    ((∀ c ∈ newCalls w (T.init_resources env w).2, ∀ v, c.location? = some v → -1 ≤ v) →
      ∀ loc ∈ T.storedLocations (T.init_resources env w).2.g, 0 ≤ loc) := by
  have hne := stored_ne_sentinel T env w h
  have hst : T.storedLocations (T.init_resources env w).2.g =
      (newCalls w (T.init_resources env w).2).filterMap Call.location? := by
    cases T with
    | tut01 => exact ((tut01_init_resources_step env w).ok_stored h)
    | later t => exact ((init_resources_step t env w).ok_stored h)
  refine ⟨hst, hne, fun hd loc hloc => ?_⟩
  have h1 := hne loc hloc
  rw [hst, List.mem_filterMap] at hloc
  obtain ⟨c, hc, hcl⟩ := hloc
  have h2 := hd c hc loc hcl
  omega

/-- Claim C8 fails as stated. The driver of `strayEnv` answers every location query with -2:
`init_resources` of tut02 returns true and the stored location is negative. -/
theorem stored_location_below_sentinel :
    (AnyTut.init_resources (.later .tut02) strayEnv {}).1 = true ∧
    ¬ ∀ loc ∈ AnyTut.storedLocations (.later .tut02)
        (AnyTut.init_resources (.later .tut02) strayEnv {}).2.g, 0 ≤ loc := by
  decide

/-- Claim C9, amended. In tut02 to tut05, when `init_resources` returns false, `main` returns
`EXIT_FAILURE` having made no `glDeleteProgram` and no `glDeleteBuffers` call, and in the
final world every buffer the driver issued, every program it created and every shader
whose compilation it accepted is still live (`Held`): nothing allocated earlier is
released. The one release on these paths is inside `create_shader`, of a shader the driver
rejected. -/
theorem failure_releases_nothing (t : Tut) (env : Env) (polls : List (Option SDL_Event))
    (h : (t.init_resources env (startup env {}).2).1 = false) :
    (t.main env polls).1 = some EXIT_FAILURE ∧
    (∀ c ∈ (t.main env polls).2.calls, c.isFree = false) ∧
    Held (t.main env polls).2 := by
  have hm := main_of_init_false t env polls h
  have hc := main_failure_calls t env polls hm
  exact ⟨hm, fun c hmem => (hc.1 c hmem).2, hc.2⟩

/-- Claim C9 fails as stated. With no shader file to read, `init_resources` of tut02 returns
false and `main` returns `EXIT_FAILURE`; buffer 7, issued by `glGenBuffers` before the
failure, is still live at the end, and no `glDeleteBuffers` or `glDeleteProgram` call was
made. -/
theorem failure_leaves_buffer_live :
    (Tut.init_resources .tut02 noFilesEnv (startup noFilesEnv {}).2).1 = false ∧
    (Tut.main .tut02 noFilesEnv []).1 = some EXIT_FAILURE ∧
    Call.glGenBuffers 1 (some 7) ∈ (Tut.main .tut02 noFilesEnv []).2.calls ∧
    7 ∈ (Tut.main .tut02 noFilesEnv []).2.buffers ∧
    ∀ c ∈ (Tut.main .tut02 noFilesEnv []).2.calls, c.isFree = false := by
  decide

/-- Claim C10, amended. In every run of `main` of tut01 to tut05 that returns `EXIT_SUCCESS`,
exactly one program was created, its handle is not 0, it is handed to `glDeleteProgram`
exactly once, and neither `main_loop` nor `render` is entered after that call. In every
other run `main` makes no `glDeleteProgram` call at all. -/
theorem program_deleted_once_on_success (T : AnyTut) (env : Env)
    (polls : List (Option SDL_Event)) :
    ((T.main env polls).1 = some EXIT_SUCCESS →
      (T.main env polls).2.g.program ≠ 0 ∧
      ∃ pre post, (T.main env polls).2.calls =
          pre ++ [.glDeleteProgram (T.main env polls).2.g.program] ++ post ∧
        pre.filterMap Call.program? = [(T.main env polls).2.g.program] ∧
        pre.filterMap Call.deleted? = [] ∧ post.filterMap Call.deleted? = [] ∧
        ∀ c ∈ post, c.isEnter = false) ∧
    ((T.main env polls).1 ≠ some EXIT_SUCCESS →
      (T.main env polls).2.calls.filterMap Call.deleted? = []) := by
  cases T with
  | tut01 =>
    refine ⟨fun h => ?_, tut01_main_no_delete env polls⟩
    simp only [AnyTut.main] at h ⊢
    rw [tut01_main_eq] at h ⊢
    split_ifs at h ⊢ with h1 h2 h3 <;> try (simp at h; done)
    have hi : (Tut01.init_resources env (Tut01.started env)).1 = true := by simpa using h2
    obtain ⟨p0, p1, p2⟩ := tut01_main_loop_world env polls hi
    exact ⟨p0, _, [], by simp [Tut01.free_resources], p1, p2, rfl, by simp⟩
  | later t =>
    refine ⟨fun h => ?_, main_no_delete t env polls⟩
    simp only [AnyTut.main] at h ⊢
    rw [tut_main_eq] at h ⊢
    split_ifs at h ⊢ with h1 h2 h3 <;> try (simp at h; done)
    have hi : (t.init_resources env (startup env {}).2).1 = true := by simpa using h2
    obtain ⟨p0, p1, p2⟩ := main_loop_world t env polls hi
    obtain ⟨post, f1, f2, f3, f4⟩ := free_resources_calls t
      (t.main_loop env polls (t.before_loop (t.init_resources env (startup env {}).2).2)).2
    simp only
    rw [f4]
    exact ⟨p0, _, post, f1, p1, p2, f2, f3⟩

/-- Claim C10 fails as stated. With the driver of `linkFailEnv`, `main` of tut02 creates
program 20, the link fails, and `main` returns `EXIT_FAILURE` with program 20 still live
and no `glDeleteProgram` call in the trace. -/
theorem program_not_deleted_on_failure :
    (AnyTut.main (.later .tut02) linkFailEnv []).1 = some EXIT_FAILURE ∧
    (AnyTut.main (.later .tut02) linkFailEnv []).2.calls.filterMap Call.program? = [20] ∧
    20 ∈ (AnyTut.main (.later .tut02) linkFailEnv []).2.programs ∧
    (AnyTut.main (.later .tut02) linkFailEnv []).2.calls.filterMap Call.deleted? = [] := by
  decide

/-- The hypothesis of C1 holds when no file exists: `create_shader` returns 0. -/
theorem create_shader_read_failure_witness :
    (noFilesEnv.files (str "a.glsl") = none ∨ ∃ rw, noFilesEnv.files (str "a.glsl") = some rw ∧
        (file_read_loop rw (SDL_RWsize rw) (file_read_fuel (SDL_RWsize rw)) 0 0 1 []).1 ≠
          SDL_RWsize rw) ∧
    (create_shader noFilesEnv (str "a.glsl") .GL_VERTEX_SHADER {}).1 = 0 :=
  ⟨Or.inl rfl,
    (create_shader_read_failure noFilesEnv (str "a.glsl") .GL_VERTEX_SHADER {} (Or.inl rfl)).1⟩

/-- The hypotheses of C2 hold with a driver that rejects every source: shader 2 is created and deleted again. -/
theorem create_shader_compile_failure_witness :
    Call.glGetShaderiv 2 .GL_COMPILE_STATUS (some GL_FALSE) ∈
      newCalls {} (create_shader rejectingEnv (str "a.glsl") .GL_VERTEX_SHADER {}).2 ∧
    (some GL_FALSE : Option Int) ≠ some GL_TRUE ∧
    (create_shader rejectingEnv (str "a.glsl") .GL_VERTEX_SHADER {}).2.shaders = [] :=
  ⟨by decide, by decide,
    (create_shader_compile_failure rejectingEnv (str "a.glsl") .GL_VERTEX_SHADER {} 2
      (some GL_FALSE) (by decide) (by decide)).2.2.2.2.2.1⟩

/-- The hypotheses of amended C3 hold with a driver that accepts the two-byte file: handle
2 is returned and the whole text `ab` is submitted. -/
theorem create_shader_success_witness :
    file_read acceptingEnv.files (str "a.glsl") = some (str "ab" ++ [NUL]) ∧
    Call.glGetShaderiv 2 .GL_COMPILE_STATUS (some GL_TRUE) ∈
      newCalls {} (create_shader acceptingEnv (str "a.glsl") .GL_VERTEX_SHADER {}).2 ∧
    (create_shader acceptingEnv (str "a.glsl") .GL_VERTEX_SHADER {}).1 = 2 ∧
    newCalls {} (create_shader acceptingEnv (str "a.glsl") .GL_VERTEX_SHADER {}).2 =
      [.SDL_RWFromFile (str "a.glsl") true, .glCreateShader .GL_VERTEX_SHADER 2,
        .glShaderSource 2 1 [c_str (str "ab" ++ [NUL])], .glCompileShader 2,
        .glGetShaderiv 2 .GL_COMPILE_STATUS (some GL_TRUE)] ∧
    c_str (str "ab" ++ [NUL]) = str "ab" :=
  ⟨by decide, by decide,
    (create_shader_success acceptingEnv (str "a.glsl") .GL_VERTEX_SHADER {}
      (str "ab" ++ [NUL]) 2 (by decide) (by decide)).1,
    (create_shader_success acceptingEnv (str "a.glsl") .GL_VERTEX_SHADER {}
      (str "ab" ++ [NUL]) 2 (by decide) (by decide)).2.2.2.1,
    by decide⟩

/-- The hypothesis of C4 holds when no file exists: `main` of tut02 returns `EXIT_FAILURE`. -/
theorem init_failure_stops_main_witness :
    (file_read noFilesEnv.files Tut.tut02.vertexShader = none ∨
      file_read noFilesEnv.files Tut.tut02.fragmentShader = none ∨
      ∃ c ∈ newCalls (startup noFilesEnv {}).2
        (Tut.tut02.init_resources noFilesEnv (startup noFilesEnv {}).2).2, c.isFailure = true) ∧
    (Tut.tut02.main noFilesEnv [none]).1 = some EXIT_FAILURE :=
  ⟨Or.inl (by decide),
    (init_failure_stops_main .tut02 noFilesEnv [none] (Or.inl (by decide))).2.1⟩

/-- The hypothesis of C6 holds when no file exists: the vertex shader of tut02 fails to load. -/
theorem init_resources_short_circuit_witness :
    ((create_shader noFilesEnv Tut.tut02.vertexShader .GL_VERTEX_SHADER
        (Tut.tut02.init_buffers noFilesEnv {})).1 = 0 ∨
      (create_shader noFilesEnv Tut.tut02.fragmentShader .GL_FRAGMENT_SHADER
        (create_shader noFilesEnv Tut.tut02.vertexShader .GL_VERTEX_SHADER
          (Tut.tut02.init_buffers noFilesEnv {})).2).1 = 0) ∧
    (Tut.tut02.init_resources noFilesEnv {}).1 = false :=
  ⟨Or.inl (by decide), (init_resources_short_circuit .tut02 noFilesEnv {} (Or.inl (by decide))).1⟩

/-- The premise of C7 holds with a driver that knows no input: `coord2d` is not found in program 14. -/
theorem missing_input_is_fatal_witness :
    (Call.glGetAttribLocation 14 (str "coord2d") (-1) ∈
        newCalls {} (AnyTut.init_resources (.later .tut02) missingEnv {}).2 ∨
      Call.glGetUniformLocation 14 (str "coord2d") (-1) ∈
        newCalls {} (AnyTut.init_resources (.later .tut02) missingEnv {}).2) ∧
    (AnyTut.init_resources (.later .tut02) missingEnv {}).1 = false :=
  ⟨Or.inl (by decide),
    ((missing_input_is_fatal (.later .tut02) missingEnv {}).1 14 (str "coord2d")
      (Or.inl (by decide))).1⟩

/-- The hypothesis of amended C8 holds for tut04 with the accepting driver. -/
theorem stored_locations_found_witness :
    (AnyTut.init_resources (.later .tut04) acceptingEnv {}).1 = true ∧
    ∀ loc ∈ AnyTut.storedLocations (.later .tut04)
      (AnyTut.init_resources (.later .tut04) acceptingEnv {}).2.g, loc ≠ -1 :=
  ⟨by decide, (stored_locations_found (.later .tut04) acceptingEnv {} (by decide)).2.1⟩

/-- The hypothesis of amended C9 holds for tut02 when no file exists. -/
theorem failure_releases_nothing_witness :
    (Tut.tut02.init_resources noFilesEnv (startup noFilesEnv {}).2).1 = false ∧
    Held (Tut.tut02.main noFilesEnv []).2 :=
  ⟨by decide, (failure_releases_nothing .tut02 noFilesEnv [] (by decide)).2.2⟩

/-- The premise of amended C10 holds for tut05: one frame, then the quit event. -/
theorem program_deleted_once_on_success_witness :
    (AnyTut.main (.later .tut05) acceptingEnv [none, some quitEvent]).1 = some EXIT_SUCCESS ∧
    (AnyTut.main (.later .tut05) acceptingEnv [none, some quitEvent]).2.g.program ≠ 0 :=
  ⟨by decide,
    ((program_deleted_once_on_success (.later .tut05) acceptingEnv [none, some quitEvent]).1
      (by decide)).1⟩

theorem delivered_length_mono (rw : SDL_RWops) (res_size : Int) (m n : Nat) (h : m ≤ n) :
    (delivered rw res_size m).length ≤ (delivered rw res_size n).length := by
  induction n with
  | zero =>
    have : m = 0 := by omega
    subst this
    exact Nat.le_refl _
  | succ n ih =>
    rcases Nat.lt_or_ge m (n + 1) with hlt | hge
    · have := ih (by omega)
      simp only [delivered, List.length_append]
      omega
    · have : m = n + 1 := by omega
      subst this
      exact Nat.le_refl _

/-- The read loop in terms of `delivered`: it stops after some number `m` of reads with
the bytes of these reads stored; every read but the last one delivered something. -/
theorem file_read_loop_delivered (rw : SDL_RWops) (res_size : Int) (fuel : Nat) :
    ∀ (k : Nat) (total nb : Int) (buf : List Char),
      buf = delivered rw res_size k → total = (buf.length : Int) →
      ∃ m, k ≤ m ∧
        (file_read_loop rw res_size fuel k total nb buf).1 =
          ((delivered rw res_size m).length : Int) ∧
        (file_read_loop rw res_size fuel k total nb buf).2.2 = delivered rw res_size m ∧
        (k < m → total < res_size ∧ nb ≠ 0) ∧
        (∀ i, k ≤ i → i + 1 < m →
          rw.read i (res_size - ((delivered rw res_size i).length : Int)).toNat ≠ []) := by
  induction fuel with
  | zero =>
    intro k total nb buf hb ht
    refine ⟨k, Nat.le_refl _, ?_, ?_, fun h => absurd h (Nat.lt_irrefl _), fun i h1 h2 => ?_⟩
    · simp only [file_read_loop]
      rw [ht, hb]
    · simp only [file_read_loop]
      exact hb
    · omega
  | succ fuel ih =>
    intro k total nb buf hb ht
    simp only [file_read_loop]
    split_ifs with hc
    · have hchunk : rw.read k (res_size - total).toNat =
          rw.read k (res_size - ((delivered rw res_size k).length : Int)).toNat := by
        rw [ht, hb]
      obtain ⟨m, hm, h1, h2, h3, h4⟩ := ih (k + 1)
        (total + ((rw.read k (res_size - total).toNat).length : Int))
        ((rw.read k (res_size - total).toNat).length : Int)
        (buf ++ rw.read k (res_size - total).toNat)
        (by rw [hchunk, hb]; rfl)
        (by rw [ht]; simp)
      refine ⟨m, by omega, h1, h2, fun _ => hc, fun i hi1 hi2 => ?_⟩
      rcases Nat.eq_or_lt_of_le hi1 with heq | hlt
      · subst heq
        have := (h3 (by omega)).2
        rw [← hchunk]
        intro hnil
        apply this
        rw [hnil]
        rfl
      · exact h4 i (by omega) hi2
    · refine ⟨k, Nat.le_refl _, ?_, ?_, fun h => absurd h (Nat.lt_irrefl _), fun i h1 h2 => ?_⟩
      · rw [ht, hb]
      · exact hb
      · omega

/-- Once the loop condition is false, more iterations change nothing. -/
theorem file_read_loop_stable (rw : SDL_RWops) (res_size : Int) (fuel d : Nat) :
    ∀ (k : Nat) (total nb : Int) (buf : List Char),
      ¬ ((file_read_loop rw res_size fuel k total nb buf).1 < res_size ∧
         (file_read_loop rw res_size fuel k total nb buf).2.1 ≠ 0) →
      file_read_loop rw res_size (fuel + d) k total nb buf =
        file_read_loop rw res_size fuel k total nb buf := by
  induction fuel with
  | zero =>
    intro k total nb buf h
    simp only [file_read_loop] at h
    cases d with
    | zero => rfl
    | succ d =>
      simp only [Nat.zero_add, file_read_loop]
      rw [if_neg h]
  | succ fuel ih =>
    intro k total nb buf h
    have e : fuel + 1 + d = (fuel + d) + 1 := by omega
    rw [e]
    simp only [file_read_loop] at h ⊢
    split_ifs at h ⊢ with hc
    · exact ih _ _ _ _ h
    · rfl

/-- One more iteration: when the loop condition holds after `fuel` iterations, these
were `fuel` reads, and iteration `fuel + 1` stores what read number `k + fuel`
delivers. -/
theorem file_read_loop_succ (rw : SDL_RWops) (res_size : Int) (fuel : Nat) :
    ∀ (k : Nat) (total nb : Int) (buf : List Char),
      ((file_read_loop rw res_size fuel k total nb buf).1 < res_size ∧
         (file_read_loop rw res_size fuel k total nb buf).2.1 ≠ 0) →
      file_read_loop rw res_size (fuel + 1) k total nb buf =
        ((file_read_loop rw res_size fuel k total nb buf).1 +
            ((rw.read (k + fuel)
              (res_size - (file_read_loop rw res_size fuel k total nb buf).1).toNat).length : Int),
          ((rw.read (k + fuel)
              (res_size - (file_read_loop rw res_size fuel k total nb buf).1).toNat).length : Int),
          (file_read_loop rw res_size fuel k total nb buf).2.2 ++
            rw.read (k + fuel)
              (res_size - (file_read_loop rw res_size fuel k total nb buf).1).toNat) := by
  induction fuel with
  | zero =>
    intro k total nb buf h
    simp only [file_read_loop] at h
    simp only [file_read_loop, Nat.zero_add, Nat.add_zero]
    rw [if_pos h]
  | succ fuel ih =>
    intro k total nb buf h
    by_cases hc : total < res_size ∧ nb ≠ 0
    · have e1 : ∀ f, file_read_loop rw res_size (f + 1) k total nb buf =
          file_read_loop rw res_size f (k + 1)
            (total + ((rw.read k (res_size - total).toNat).length : Int))
            ((rw.read k (res_size - total).toNat).length : Int)
            (buf ++ rw.read k (res_size - total).toNat) := by
        intro f
        simp only [file_read_loop]
        rw [if_pos hc]
      rw [e1 fuel] at h
      rw [e1 (fuel + 1), e1 fuel, ih _ _ _ _ h]
      have e2 : k + 1 + fuel = k + (fuel + 1) := by omega
      rw [e2]
    · exfalso
      have e1 : file_read_loop rw res_size (fuel + 1) k total nb buf = (total, nb, buf) := by
        simp only [file_read_loop]
        rw [if_neg hc]
      rw [e1] at h
      exact hc h

/-- The bytes stored are counted by `nb_read_total`, which never goes below 0; with
reads that deliver no more than they are asked for it never goes above `res_size`. -/
theorem file_read_loop_bounds (rw : SDL_RWops) (res_size : Int)
    (hb : ∀ k n, (rw.read k n).length ≤ n) (fuel : Nat) :
    ∀ (k : Nat) (total nb : Int) (buf : List Char),
      total = (buf.length : Int) → (0 ≤ res_size → total ≤ res_size) →
      (file_read_loop rw res_size fuel k total nb buf).1 =
        ((file_read_loop rw res_size fuel k total nb buf).2.2.length : Int) ∧
      (0 ≤ res_size → (file_read_loop rw res_size fuel k total nb buf).1 ≤ res_size) ∧
      (res_size < 0 → file_read_loop rw res_size fuel k total nb buf = (total, nb, buf)) := by
  induction fuel with
  | zero =>
    intro k total nb buf ht hle
    simp only [file_read_loop]
    exact ⟨ht, hle, fun _ => trivial⟩
  | succ fuel ih =>
    intro k total nb buf ht hle
    simp only [file_read_loop]
    split_ifs with hc
    · have hlen := hb k (res_size - total).toNat
      obtain ⟨h1, h2, h3⟩ := ih (k + 1)
        (total + ((rw.read k (res_size - total).toNat).length : Int))
        ((rw.read k (res_size - total).toNat).length : Int)
        (buf ++ rw.read k (res_size - total).toNat)
        (by rw [ht]; simp)
        (by intro h0; omega)
      refine ⟨h1, h2, fun hneg => ?_⟩
      exfalso
      have : (0 : Int) ≤ total := by rw [ht]; exact Int.ofNat_nonneg _
      omega
    · exact ⟨ht, hle, fun _ => rfl⟩

theorem file_read_fuel_enough (rw : SDL_RWops) (res_size : Int) :
    ¬ ((file_read_loop rw res_size (file_read_fuel res_size) 0 0 1 []).1 < res_size ∧
       (file_read_loop rw res_size (file_read_fuel res_size) 0 0 1 []).2.1 ≠ 0) := by
  apply file_read_loop_exits_aux
  unfold file_read_fuel
  omega

/-- Claim C14. `file_read` returns a buffer exactly when the file opened and
`nb_read_total` equals the size reported at the end of the read loop. The buffer then has
`size + 1` bytes, its first `size` bytes are the bytes stored by the loop, which are the
bytes the reads delivered in order (`delivered`), and the byte at index `size` is NUL. It
returns the null pointer when the size is reported as unknown (-1), and when some read
delivers nothing while fewer than `size` bytes have been delivered. -/
theorem file_read_buffer (files : List Char → Option SDL_RWops) (filename : List Char) :
    ((file_read files filename).isSome = true ↔
      ∃ rw, files filename = some rw ∧
        (file_read_loop rw (SDL_RWsize rw) (file_read_fuel (SDL_RWsize rw)) 0 0 1 []).1 =
          SDL_RWsize rw) ∧
    (∀ rw buf, files filename = some rw → file_read files filename = some buf →
      (buf.length : Int) = SDL_RWsize rw + 1 ∧
      buf.take (SDL_RWsize rw).toNat =
        (file_read_loop rw (SDL_RWsize rw) (file_read_fuel (SDL_RWsize rw)) 0 0 1 []).2.2 ∧
      (∃ n, buf.take (SDL_RWsize rw).toNat = delivered rw (SDL_RWsize rw) n) ∧
      buf[(SDL_RWsize rw).toNat]? = some NUL) ∧
    (∀ rw, files filename = some rw → rw.size = none → file_read files filename = none) ∧
    (∀ rw n, files filename = some rw →
      ((delivered rw (SDL_RWsize rw) n).length : Int) < SDL_RWsize rw →
      rw.read n (SDL_RWsize rw - ((delivered rw (SDL_RWsize rw) n).length : Int)).toNat = [] →
      file_read files filename = none) := by
  refine ⟨?_, ?_, ?_, ?_⟩
  · unfold file_read
    cases hf : files filename with
    | none => simp
    | some rw =>
      simp only [Option.some.injEq, exists_eq_left']
      split_ifs with h
      · simp [h]
      · simpa using h
  · intro rw buf hf hbuf
    unfold file_read at hbuf
    rw [hf] at hbuf
    simp only at hbuf
    split_ifs at hbuf with h
    have htot : (file_read_loop rw (SDL_RWsize rw) (file_read_fuel (SDL_RWsize rw)) 0 0 1 []).1 =
        SDL_RWsize rw := by
      by_contra hne
      exact h hne
    obtain ⟨m, -, h1, h2, -, -⟩ := file_read_loop_delivered rw (SDL_RWsize rw)
      (file_read_fuel (SDL_RWsize rw)) 0 0 1 [] rfl rfl
    have hbuf' := Option.some.inj hbuf
    subst hbuf'
    have hlen : (SDL_RWsize rw).toNat =
        (file_read_loop rw (SDL_RWsize rw) (file_read_fuel (SDL_RWsize rw)) 0 0 1 []).2.2.length := by
      have e := congrArg List.length h2
      omega
    refine ⟨?_, ?_, ⟨m, ?_⟩, ?_⟩
    · rw [List.length_append]
      simp only [List.length_singleton, Nat.cast_add, Nat.cast_one]
      omega
    · rw [hlen, List.take_left']
      rfl
    · rw [hlen, List.take_left' rfl]
      exact h2
    · rw [hlen]
      simp
  · intro rw hf hsize
    unfold file_read
    rw [hf]
    have hs : SDL_RWsize rw = -1 := by
      unfold SDL_RWsize
      rw [hsize]
    simp [hs, file_read_fuel, file_read_loop]
  · intro rw n hf hlt hnil
    unfold file_read
    rw [hf]
    simp only
    obtain ⟨m, -, h1, -, -, h4⟩ := file_read_loop_delivered rw (SDL_RWsize rw)
      (file_read_fuel (SDL_RWsize rw)) 0 0 1 [] rfl rfl
    have hm : m ≤ n + 1 := by
      by_contra hgt
      exact h4 n (Nat.zero_le _) (by omega) hnil
    have hle : (delivered rw (SDL_RWsize rw) m).length ≤ (delivered rw (SDL_RWsize rw) n).length := by
      rcases Nat.lt_or_ge m (n + 1) with hlt1 | hge
      · exact delivered_length_mono rw _ m n (by omega)
      · have : m = n + 1 := by omega
        subst this
        simp only [delivered, hnil, List.append_nil]
        exact Nat.le_refl _
    rw [if_pos]
    rw [h1]
    omega

/-- Claim C15. With reads that deliver no more than they are asked for, for every
`res_size`: the read loop stops within `res_size + 1` iterations, and further iterations
would change nothing; an iteration that runs starts with `nb_read_total < res_size`,
raises `nb_read_total` or sets `nb_read` to 0, and leaves at most `res_size` bytes
stored; after any number of iterations `nb_read_total` is the number of bytes stored and
is at least 0, it is at most `res_size` when `res_size` is not negative, and nothing is
read at all when `res_size` is negative; when the terminator is written its index
`res_size` is the last of the `res_size + 1` bytes of the buffer. -/
theorem file_read_loop_terminates_in_bounds (rw : SDL_RWops) (res_size : Int)
    (hb : ∀ k n, (rw.read k n).length ≤ n) :
    (∀ fuel, file_read_fuel res_size ≤ fuel →
      file_read_loop rw res_size fuel 0 0 1 [] =
        file_read_loop rw res_size (file_read_fuel res_size) 0 0 1 []) ∧
    ¬ ((file_read_loop rw res_size (file_read_fuel res_size) 0 0 1 []).1 < res_size ∧
       (file_read_loop rw res_size (file_read_fuel res_size) 0 0 1 []).2.1 ≠ 0) ∧
    (∀ j, ((file_read_loop rw res_size j 0 0 1 []).1 < res_size ∧
        (file_read_loop rw res_size j 0 0 1 []).2.1 ≠ 0) →
      file_read_loop rw res_size (j + 1) 0 0 1 [] =
        ((file_read_loop rw res_size j 0 0 1 []).1 +
            ((rw.read j (res_size - (file_read_loop rw res_size j 0 0 1 []).1).toNat).length : Int),
          ((rw.read j (res_size - (file_read_loop rw res_size j 0 0 1 []).1).toNat).length : Int),
          (file_read_loop rw res_size j 0 0 1 []).2.2 ++
            rw.read j (res_size - (file_read_loop rw res_size j 0 0 1 []).1).toNat) ∧
      ((file_read_loop rw res_size j 0 0 1 []).1 < (file_read_loop rw res_size (j + 1) 0 0 1 []).1 ∨
        (file_read_loop rw res_size (j + 1) 0 0 1 []).2.1 = 0) ∧
      (file_read_loop rw res_size (j + 1) 0 0 1 []).2.2.length ≤ res_size.toNat) ∧
    (∀ j, 0 ≤ (file_read_loop rw res_size j 0 0 1 []).1 ∧
      (file_read_loop rw res_size j 0 0 1 []).1 =
        ((file_read_loop rw res_size j 0 0 1 []).2.2.length : Int) ∧
      (0 ≤ res_size → (file_read_loop rw res_size j 0 0 1 []).1 ≤ res_size) ∧
      (res_size < 0 → file_read_loop rw res_size j 0 0 1 [] = (0, 1, []))) ∧
    ((file_read_loop rw res_size (file_read_fuel res_size) 0 0 1 []).1 = res_size →
      0 ≤ res_size ∧
      (((file_read_loop rw res_size (file_read_fuel res_size) 0 0 1 []).2.2 ++ [NUL]).length : Int)
        = res_size + 1 ∧
      ((file_read_loop rw res_size (file_read_fuel res_size) 0 0 1 []).2.2 ++ [NUL])[res_size.toNat]?
        = some NUL) := by
  have hinv : ∀ j, (file_read_loop rw res_size j 0 0 1 []).1 =
        ((file_read_loop rw res_size j 0 0 1 []).2.2.length : Int) ∧
      (0 ≤ res_size → (file_read_loop rw res_size j 0 0 1 []).1 ≤ res_size) ∧
      (res_size < 0 → file_read_loop rw res_size j 0 0 1 [] = (0, 1, [])) :=
    fun j => file_read_loop_bounds rw res_size hb j 0 0 1 [] rfl (fun h => h)
  refine ⟨?_, file_read_fuel_enough rw res_size, ?_, ?_, ?_⟩
  · intro fuel hf
    obtain ⟨d, rfl⟩ := Nat.exists_eq_add_of_le hf
    exact file_read_loop_stable rw res_size _ d 0 0 1 [] (file_read_fuel_enough rw res_size)
  · intro j hc
    have hs := file_read_loop_succ rw res_size j 0 0 1 [] hc
    rw [Nat.zero_add] at hs
    obtain ⟨i1, i2, i3⟩ := hinv (j + 1)
    obtain ⟨j1, -, -⟩ := hinv j
    refine ⟨hs, ?_, ?_⟩
    · rw [hs]
      simp only
      by_cases hz : (rw.read j (res_size - (file_read_loop rw res_size j 0 0 1 []).1).toNat).length = 0
      · right
        simp [hz]
      · left
        omega
    · have := i2 (by omega)
      omega
  · intro j
    obtain ⟨i1, i2, i3⟩ := hinv j
    refine ⟨?_, i1, i2, i3⟩
    rw [i1]
    exact Int.ofNat_nonneg _
  · intro htot
    obtain ⟨i1, -, -⟩ := hinv (file_read_fuel res_size)
    have h0 : 0 ≤ res_size := by
      rw [← htot, i1]
      exact Int.ofNat_nonneg _
    have hlen : res_size.toNat =
        (file_read_loop rw res_size (file_read_fuel res_size) 0 0 1 []).2.2.length := by
      omega
    refine ⟨h0, ?_, ?_⟩
    · rw [List.length_append]
      simp
      omega
    · rw [hlen]
      simp

/-- The premises of C14 hold for a two-byte stream (a buffer is returned), a stream of
unknown size and a stream that ends early (null is returned). -/
theorem file_read_buffer_witness :
    (file_read acceptingEnv.files (str "a.glsl")).isSome = true ∧
    file_read (fun _ => some unsizedFile) (str "a.glsl") = none ∧
    file_read (fun _ => some shortFile) (str "a.glsl") = none :=
  ⟨(file_read_buffer acceptingEnv.files (str "a.glsl")).1.2 ⟨smallFile, rfl, by decide⟩,
    (file_read_buffer (fun _ => some unsizedFile) (str "a.glsl")).2.2.1 unsizedFile rfl rfl,
    (file_read_buffer (fun _ => some shortFile) (str "a.glsl")).2.2.2 shortFile 1 rfl
      (by decide) (by decide)⟩

/-- The hypothesis of C15 holds for the two-byte stream: seven iterations give what the
loop gives. -/
theorem file_read_loop_terminates_in_bounds_witness :
    (∀ k n, (smallFile.read k n).length ≤ n) ∧
    file_read_loop smallFile 2 7 0 0 1 [] = (2, 2, str "ab") :=
  ⟨fun _ n => by simp [smallFile],
    ((file_read_loop_terminates_in_bounds smallFile 2 (fun _ n => by simp [smallFile])).1 7
      (by decide)).trans (by decide)⟩

theorem fetchLog_infoLogLength (log : List Char) (h : log ≠ []) :
    fetchLog log (infoLogLength log) = some log := by
  unfold fetchLog infoLogLength
  simp only [h, if_false]
  rw [if_neg (by omega)]
  congr 1
  apply List.take_of_length_le
  omega

theorem fetchLog_empty : fetchLog [] (infoLogLength []) = none := by
  decide

/-- What `print_log` does, object kind by object kind: the capacity handed to the fetch
is the length the driver reported for the same object; a log that is not empty is
written in full, an empty one makes the program stream a buffer of 0 bytes. -/
theorem print_log_report (d : Driver) (object : Nat) (w : World) :
    (isShader object w.shaders = true →
      newCalls w (print_log d object w) =
        [.glIsShader object true,
          .glGetShaderiv object .GL_INFO_LOG_LENGTH (some (infoLogLength (d.shaderInfoLog object))),
          .glIsShader object true,
          .glGetShaderInfoLog object (infoLogLength (d.shaderInfoLog object))] ∧
      (d.shaderInfoLog object ≠ [] →
        (print_log d object w).err = w.err ++ d.shaderInfoLog object ∧
        (print_log d object w).fault = w.fault) ∧
      (d.shaderInfoLog object = [] → (print_log d object w).fault = true)) ∧
    (isShader object w.shaders = false → isProgram object w.programs = true →
      newCalls w (print_log d object w) =
        [.glIsShader object false, .glIsProgram object true,
          .glGetProgramiv object .GL_INFO_LOG_LENGTH
            (some (infoLogLength (d.programInfoLog object))),
          .glIsShader object false, .glIsProgram object true,
          .glGetProgramInfoLog object (infoLogLength (d.programInfoLog object))] ∧
      (d.programInfoLog object ≠ [] →
        (print_log d object w).err = w.err ++ d.programInfoLog object ∧
        (print_log d object w).fault = w.fault) ∧
      (d.programInfoLog object = [] → (print_log d object w).fault = true)) ∧
    (isShader object w.shaders = false → isProgram object w.programs = false →
      newCalls w (print_log d object w) = [.glIsShader object false, .glIsProgram object false] ∧
      (print_log d object w).err = w.err ++ str "printlog: Not a shader nor a program.\n" ∧
      (print_log d object w).fault = w.fault) := by
  refine ⟨fun hs => ?_, fun hs hp => ?_, fun hs hp => ?_⟩
  · rw [print_log_shader d object w hs]
    refine ⟨newCalls_of_append _ _ _ rfl, fun hl => ?_, fun hl => ?_⟩
    · simp [fetchLog_infoLogLength _ hl]
    · simp [hl, fetchLog_empty]
  · rw [print_log_program d object w hs hp]
    refine ⟨newCalls_of_append _ _ _ rfl, fun hl => ?_, fun hl => ?_⟩
    · simp [fetchLog_infoLogLength _ hl]
    · simp [hl, fetchLog_empty]
  · rw [print_log_neither d object w hs hp]
    exact ⟨newCalls_of_append _ _ _ rfl, rfl, rfl⟩

/-- Claim C16, evaluated where the code departs from it. For a live shader and for a live
program without an info log the driver reports length 0: `print_log` fetches with capacity
0 into a buffer of 0 bytes and streams that buffer, reading past its end (`fault`), so
nothing of what reaches the error stream is a fetched log. The same happens inside
`create_shader` when the driver rejects a source without a log. -/
theorem print_log_empty_log_faults :
    (print_log acceptingDriver 7 { shaders := [7] }).calls =
      [.glIsShader 7 true, .glGetShaderiv 7 .GL_INFO_LOG_LENGTH (some 0), .glIsShader 7 true,
        .glGetShaderInfoLog 7 0] ∧
    (print_log acceptingDriver 7 { shaders := [7] }).err = [] ∧
    (print_log acceptingDriver 7 { shaders := [7] }).fault = true ∧
    (print_log acceptingDriver 9 { programs := [9] }).calls =
      [.glIsShader 9 false, .glIsProgram 9 true,
        .glGetProgramiv 9 .GL_INFO_LOG_LENGTH (some 0),
        .glIsShader 9 false, .glIsProgram 9 true, .glGetProgramInfoLog 9 0] ∧
    (print_log acceptingDriver 9 { programs := [9] }).err = [] ∧
    (print_log acceptingDriver 9 { programs := [9] }).fault = true ∧
    (create_shader silentRejectEnv (str "a.glsl") .GL_VERTEX_SHADER {}).1 = 0 ∧
    (create_shader silentRejectEnv (str "a.glsl") .GL_VERTEX_SHADER {}).2.err = str "a.glsl:" ∧
    (create_shader silentRejectEnv (str "a.glsl") .GL_VERTEX_SHADER {}).2.fault = true := by
  decide

/-- Claim C17, evaluated where the code departs from it. After a successful
`init_resources` of tut04 the linked program is 20 and no program is current;
`input_logic` then uploads the matrix before it calls `glUseProgram(program)`: in a run of
one frame the first uniform upload of tut04, and the only one of tut05, comes before every
`glUseProgram` call. -/
theorem first_frame_upload_without_program :
    (Tut04.init_resources acceptingEnv (startup acceptingEnv {}).2).1 = true ∧
    (Tut04.init_resources acceptingEnv (startup acceptingEnv {}).2).2.g.program = 20 ∧
    20 ∈ (Tut04.init_resources acceptingEnv (startup acceptingEnv {}).2).2.programs ∧
    (Tut04.init_resources acceptingEnv (startup acceptingEnv {}).2).2.current_program = 0 ∧
    newCalls (Tut04.init_resources acceptingEnv (startup acceptingEnv {}).2).2
        (Tut04.input_logic (Tut04.init_resources acceptingEnv (startup acceptingEnv {}).2).2) =
      [.sdl "SDL_GetTicks", .sdl "SDL_GetTicks", .glUniformMatrix4fv 0 1, .sdl "SDL_GetTicks",
        .glUseProgram 20, .glUniform1f 0] ∧
    (Tut04.main acceptingEnv [none, some quitEvent]).1 = some EXIT_SUCCESS ∧
    (Tut04.main acceptingEnv [none, some quitEvent]).2.calls.filter Call.isUniformOrUse =
      [.glUniformMatrix4fv 0 1, .glUseProgram 20, .glUniform1f 0, .glUseProgram 20] ∧
    (Tut05.init_resources acceptingEnv (startup acceptingEnv {}).2).1 = true ∧
    (Tut05.init_resources acceptingEnv (startup acceptingEnv {}).2).2.g.program ≠ 0 ∧
    (Tut05.init_resources acceptingEnv (startup acceptingEnv {}).2).2.current_program = 0 ∧
    (Tut05.main acceptingEnv [none, some quitEvent]).1 = some EXIT_SUCCESS ∧
    (Tut05.main acceptingEnv [none, some quitEvent]).2.calls.filter Call.isUniformOrUse =
      [.glUniformMatrix4fv 0 1,
        .glUseProgram (Tut05.init_resources acceptingEnv (startup acceptingEnv {}).2).2.g.program,
        .glUseProgram (Tut05.init_resources acceptingEnv (startup acceptingEnv {}).2).2.g.program]
    := by
  decide

/-- The globals of the program are no input of `create_shader` and it leaves them as
they are. -/
theorem create_shader_globals (env : Env) (filename : List Char) (type : ShaderType)
    (w : World) (g : Globals) :
    create_shader env filename type { w with g := g } =
      ((create_shader env filename type w).1,
        { (create_shader env filename type w).2 with g := g }) := by
  rcases create_shader_cases env filename type w with
    hn | ⟨source, hs, h0 | ⟨h0, hc⟩ | ⟨h0, hc⟩⟩
  · rw [create_shader_of_read_none env filename type { w with g := g } hn,
      create_shader_of_read_none env filename type w hn]
  · rw [create_shader_of_no_object env filename type { w with g := g } source hs h0,
      create_shader_of_no_object env filename type w source hs h0]
  · rw [create_shader_of_accept env filename type { w with g := g } source hs _ rfl h0 hc,
      create_shader_of_accept env filename type w source hs _ rfl h0 hc]
  · rw [create_shader_of_reject env filename type { w with g := g } source hs _ rfl h0 hc,
      create_shader_of_reject env filename type w source hs _ rfl h0 hc]

/-- A call of `create_shader` whose status query is answered with true. -/
theorem create_shader_accepted (env : Env) (filename : List Char) (type : ShaderType)
    (w : World) (shader : Nat)
    (hok : Call.glGetShaderiv shader .GL_COMPILE_STATUS (some GL_TRUE) ∈
      newCalls w (create_shader env filename type w).2) :
    (create_shader env filename type w).1 = shader ∧ shader ≠ 0 ∧
    (∃ source, file_read env.files filename = some source ∧
      newCalls w (create_shader env filename type w).2 =
        [.SDL_RWFromFile filename true, .glCreateShader type shader,
          .glShaderSource shader 1 [c_str source], .glCompileShader shader,
          .glGetShaderiv shader .GL_COMPILE_STATUS (some GL_TRUE)]) ∧
    shader ∉ w.shaders ∧ shader ∉ w.programs ∧
    (create_shader env filename type w).2.shaders = shader :: w.shaders ∧
    (create_shader env filename type w).2.programs = w.programs ∧
    (create_shader env filename type w).2.err = w.err ∧
    (create_shader env filename type w).2.g = w.g := by
  have S := create_shader_step env filename type w
  have h0 : (create_shader env filename type w).1 ≠ 0 := by
    intro h0
    exact S.fail_status h0 shader hok
  obtain ⟨source, hs, htr⟩ := S.ok_trace h0
  rw [htr] at hok
  simp at hok
  have hsh := S.shaders
  simp only [h0, if_false] at hsh
  rw [← hok] at htr hsh h0 ⊢
  rw [← hok] at S
  exact ⟨rfl, h0, ⟨source, hs, htr⟩, (S.fresh h0).1, (S.fresh h0).2, hsh, S.programs,
    S.ok_err h0, S.g⟩

/-- Claim C13. When `create_shader` is called twice in a row with the same file name and
type and the status query is answered with true both times, the two results are the
handles of two `glCreateShader` calls, one in the trace of each call; both are non-zero
and they differ; both shaders are live afterwards, and deleting either one leaves the
other live. The globals of the program are left as they were, and the result of
`create_shader` does not depend on them. -/
theorem create_shader_twice (env : Env) (filename : List Char) (type : ShaderType)
    (w : World) (h1 h2 : Nat)
    (hok1 : Call.glGetShaderiv h1 .GL_COMPILE_STATUS (some GL_TRUE) ∈
      newCalls w (create_shader env filename type w).2)
    (hok2 : Call.glGetShaderiv h2 .GL_COMPILE_STATUS (some GL_TRUE) ∈
      newCalls (create_shader env filename type w).2
        (create_shader env filename type (create_shader env filename type w).2).2) :
    (create_shader env filename type w).1 = h1 ∧
    (create_shader env filename type (create_shader env filename type w).2).1 = h2 ∧
    Call.glCreateShader type h1 ∈ newCalls w (create_shader env filename type w).2 ∧
    Call.glCreateShader type h2 ∈ newCalls (create_shader env filename type w).2
      (create_shader env filename type (create_shader env filename type w).2).2 ∧
    (create_shader env filename type (create_shader env filename type w).2).2.calls =
      w.calls ++ newCalls w (create_shader env filename type w).2 ++
        newCalls (create_shader env filename type w).2
          (create_shader env filename type (create_shader env filename type w).2).2 ∧
    h1 ≠ 0 ∧ h2 ≠ 0 ∧ h1 ≠ h2 ∧
    (create_shader env filename type (create_shader env filename type w).2).2.shaders =
      h2 :: h1 :: w.shaders ∧
    isShader h1 (create_shader env filename type
      (create_shader env filename type w).2).2.shaders = true ∧
    isShader h2 (create_shader env filename type
      (create_shader env filename type w).2).2.shaders = true ∧
    (glDeleteShader h1 (create_shader env filename type
      (create_shader env filename type w).2).2).shaders = h2 :: w.shaders ∧
    (glDeleteShader h2 (create_shader env filename type
      (create_shader env filename type w).2).2).shaders = h1 :: w.shaders ∧
    (create_shader env filename type (create_shader env filename type w).2).2.g = w.g ∧
    (∀ g, create_shader env filename type { w with g := g } =
      ((create_shader env filename type w).1,
        { (create_shader env filename type w).2 with g := g })) := by
  obtain ⟨a1, a2, ⟨src1, -, a3⟩, a4, a5, a6, a7, a8, a9⟩ :=
    create_shader_accepted env filename type w h1 hok1
  obtain ⟨b1, b2, ⟨src2, -, b3⟩, b4, b5, b6, b7, b8, b9⟩ :=
    create_shader_accepted env filename type _ h2 hok2
  have S1 := create_shader_step env filename type w
  have S2 := create_shader_step env filename type (create_shader env filename type w).2
  rw [a6] at b4 b6
  have hne : h1 ≠ h2 := by
    intro h
    apply b4
    rw [h]
    exact List.mem_cons_self _ _
  refine ⟨a1, b1, ?_, ?_, ?_, a2, b2, hne, b6, ?_, ?_, ?_, ?_, ?_,
    create_shader_globals env filename type w⟩
  · rw [a3]
    simp
  · rw [b3]
    simp
  · rw [S2.calls, S1.calls]
  · rw [b6]
    simp [isShader, a2]
  · rw [b6]
    simp [isShader, b2]
  · simp only [glDeleteShader, emit, removeName, b6, a2, if_false]
    rw [List.erase_cons_tail (by simpa using hne.symm), List.erase_cons_head]
  · simp only [glDeleteShader, emit, removeName, b6, b2, if_false]
    rw [List.erase_cons_head]
  · rw [b9, a9]

/-- The hypotheses of C13 hold with the accepting driver: handles 2 and 7. -/
theorem create_shader_twice_witness :
    Call.glGetShaderiv 2 .GL_COMPILE_STATUS (some GL_TRUE) ∈
      newCalls {} (create_shader acceptingEnv (str "a.glsl") .GL_VERTEX_SHADER {}).2 ∧
    Call.glGetShaderiv 7 .GL_COMPILE_STATUS (some GL_TRUE) ∈
      newCalls (create_shader acceptingEnv (str "a.glsl") .GL_VERTEX_SHADER {}).2
        (create_shader acceptingEnv (str "a.glsl") .GL_VERTEX_SHADER
          (create_shader acceptingEnv (str "a.glsl") .GL_VERTEX_SHADER {}).2).2 ∧
    (2 : Nat) ≠ 7 :=
  ⟨by decide, by decide,
    (create_shader_twice acceptingEnv (str "a.glsl") .GL_VERTEX_SHADER {} 2 7
      (by decide) (by decide)).2.2.2.2.2.2.2.1⟩

/-- The event loop returns exactly when a quit event is among the polled events. -/
theorem poll_loop_returns (onEvent : SDL_Event → World → World) (frame : World → World)
    (polls : List (Option SDL_Event)) (w : World) :
    (poll_loop onEvent frame polls w).1 = true ↔ ∃ ev, some ev ∈ polls ∧ ev.type = SDL_QUIT := by
  induction polls generalizing w with
  | nil => simp [poll_loop]
  | cons p polls ih =>
    cases p with
    | none =>
      simp only [poll_loop]
      rw [ih]
      simp
    | some ev =>
      simp only [poll_loop]
      split_ifs with hq
      · simp only [true_iff]
        exact ⟨ev, List.mem_cons_self _ _, hq⟩
      · rw [ih]
        constructor
        · rintro ⟨e, he, hqe⟩
          exact ⟨e, List.mem_cons_of_mem _ he, hqe⟩
        · rintro ⟨e, he, hqe⟩
          rcases List.mem_cons.1 he with h | h
          · have : e = ev := Option.some.inj h
            subst this
            exact absurd hqe hq
          · exact ⟨e, h, hqe⟩

theorem poll_loop_schedule (onEvent : SDL_Event → World → World) (frame : World → World)
    (hE : ∀ ev, LoopEvents [] (onEvent ev)) (hF : LoopEvents [.enter .render] frame)
    (polls : List (Option SDL_Event)) (w : World) :
    (poll_loop onEvent frame polls w).2.calls =
      w.calls ++ newCalls w (poll_loop onEvent frame polls w).2 ∧
    (newCalls w (poll_loop onEvent frame polls w).2).filter Call.isLoopEvent =
      loop_schedule polls := by
  induction polls generalizing w with
  | nil => simp [poll_loop, newCalls, loop_schedule]
  | cons p polls ih =>
    cases p with
    | none =>
      simp only [poll_loop, loop_schedule]
      obtain ⟨f1, f2⟩ := hF (emit (.SDL_PollEvent none) w)
      obtain ⟨i1, i2⟩ := ih (frame (emit (.SDL_PollEvent none) w))
      have hc : (poll_loop onEvent frame polls (frame (emit (.SDL_PollEvent none) w))).2.calls =
          w.calls ++ ([.SDL_PollEvent none] ++
            newCalls (emit (.SDL_PollEvent none) w) (frame (emit (.SDL_PollEvent none) w)) ++
            newCalls (frame (emit (.SDL_PollEvent none) w))
              (poll_loop onEvent frame polls (frame (emit (.SDL_PollEvent none) w))).2) := by
        rw [i1, f1]
        simp [emit]
      rw [newCalls_of_append _ _ _ hc]
      refine ⟨hc, ?_⟩
      rw [List.filter_append, List.filter_append, f2, i2]
      simp [Call.isLoopEvent]
    | some ev =>
      simp only [poll_loop, loop_schedule]
      split_ifs with hq
      · simp [emit, newCalls, Call.isLoopEvent]
      · obtain ⟨f1, f2⟩ := hE ev (emit (.SDL_PollEvent (some ev)) w)
        obtain ⟨i1, i2⟩ := ih (onEvent ev (emit (.SDL_PollEvent (some ev)) w))
        have hc : (poll_loop onEvent frame polls
            (onEvent ev (emit (.SDL_PollEvent (some ev)) w))).2.calls =
            w.calls ++ ([.SDL_PollEvent (some ev)] ++
              newCalls (emit (.SDL_PollEvent (some ev)) w)
                (onEvent ev (emit (.SDL_PollEvent (some ev)) w)) ++
              newCalls (onEvent ev (emit (.SDL_PollEvent (some ev)) w))
                (poll_loop onEvent frame polls
                  (onEvent ev (emit (.SDL_PollEvent (some ev)) w))).2) := by
          rw [i1, f1]
          simp [emit]
        rw [newCalls_of_append _ _ _ hc]
        refine ⟨hc, ?_⟩
        rw [List.filter_append, List.filter_append, f2, i2]
        simp [Call.isLoopEvent]

theorem loopEvents_id : LoopEvents [] (fun w => w) := by
  intro w
  simp [newCalls]

/-- Each `main_loop` is the event loop around the frame of its tutorial; handling an
event makes no poll and enters no `render`, a frame enters `render` once. -/
theorem any_frame (T : AnyTut) :
    ∃ onEvent frame, (∀ ev, LoopEvents [] (onEvent ev)) ∧ LoopEvents [.enter .render] frame ∧
      ∀ env polls w, T.main_loop env polls w =
        poll_loop onEvent frame polls (emit (.enter .main_loop) w) := by
  cases T with
  | tut01 =>
    refine ⟨fun _ w => w, Tut01.render, fun _ => loopEvents_id, ?_, fun _ _ _ => rfl⟩
    intro w
    simp [Tut01.render, newCalls, Call.isLoopEvent]
  | later t =>
    cases t
    · refine ⟨fun _ w => w, Tut02.render, fun _ => loopEvents_id, ?_, fun _ _ _ => rfl⟩
      intro w
      simp [Tut02.render, newCalls, Call.isLoopEvent]
    · refine ⟨fun _ w => w, fun w => Tut03.render (Tut03.uniform_logic w),
        fun _ => loopEvents_id, ?_, fun _ _ _ => rfl⟩
      intro w
      simp [Tut03.render, Tut03.uniform_logic, newCalls, Call.isLoopEvent]
    · refine ⟨fun _ w => w, fun w => Tut04.render (Tut04.input_logic w),
        fun _ => loopEvents_id, ?_, fun _ _ _ => rfl⟩
      intro w
      simp [Tut04.render, Tut04.input_logic, newCalls, Call.isLoopEvent]
    · refine ⟨Tut05.on_event, fun w => Tut05.render (Tut05.input_logic w), ?_, ?_,
        fun _ _ _ => rfl⟩
      · intro ev w
        unfold Tut05.on_event
        split_ifs <;> simp [Tut05.on_resize, newCalls, Call.isLoopEvent]
      · intro w
        simp only [Tut05.render, Tut05.input_logic]
        simp
        split <;> simp [newCalls, Call.isLoopEvent]

theorem main_loop_returns (T : AnyTut) (env : Env) (polls : List (Option SDL_Event))
    (w : World) :
    (T.main_loop env polls w).1 = true ↔ ∃ ev, some ev ∈ polls ∧ ev.type = SDL_QUIT := by
  obtain ⟨onEvent, frame, -, -, heq⟩ := any_frame T
  rw [heq]
  exact poll_loop_returns onEvent frame polls _

theorem loop_schedule_until_quit (pre post : List (Option SDL_Event)) (ev : SDL_Event)
    (hq : ev.type = SDL_QUIT) (hpre : ∀ e, some e ∈ pre → e.type ≠ SDL_QUIT) :
    loop_schedule (pre ++ some ev :: post) = loop_schedule pre ++ [.SDL_PollEvent (some ev)] := by
  induction pre with
  | nil => simp [loop_schedule, hq]
  | cons p pre ih =>
    have ih' := ih (fun e he => hpre e (List.mem_cons_of_mem _ he))
    cases p with
    | none =>
      show loop_schedule (none :: (pre ++ some ev :: post)) = _
      simp only [loop_schedule, ih', List.cons_append]
    | some e =>
      have hne := hpre e (List.mem_cons_self _ _)
      show loop_schedule (some e :: (pre ++ some ev :: post)) = _
      simp only [loop_schedule, ih', List.cons_append, hne, if_false]

theorem loop_schedule_renders (pre : List (Option SDL_Event))
    (hpre : ∀ e, some e ∈ pre → e.type ≠ SDL_QUIT) :
    (loop_schedule pre).count (.enter .render) = pre.count none ∧
    (loop_schedule pre).filterMap Call.polled? = pre := by
  induction pre with
  | nil => simp [loop_schedule]
  | cons p pre ih =>
    have ih' := ih (fun e he => hpre e (List.mem_cons_of_mem _ he))
    cases p with
    | none =>
      simp only [loop_schedule]
      refine ⟨?_, ?_⟩
      · rw [List.count_cons, List.count_cons, ih'.1, List.count_cons]
        simp
      · simp [ih'.2, Call.polled?]
    | some e =>
      have hne := hpre e (List.mem_cons_self _ _)
      simp only [loop_schedule, hne, if_false]
      refine ⟨?_, ?_⟩
      · rw [List.count_cons, ih'.1, List.count_cons]
        simp
      · simp [ih'.2, Call.polled?]

/-- Claim C12. For each of the five `main_loop` functions and every sequence of poll
results: `main_loop` returns exactly when a quit event is among the polled events, and the
polls and `render` entries of its trace are those of `loop_schedule`: each poll that finds
the queue empty is followed by one `render`, and nothing follows the first quit event.
When the first quit event comes after the polls `pre`, the polls made are `pre` and the
quit event, so nothing queued behind it is polled, and `render` is entered once for each
empty poll of `pre` and never after the quit event. -/
theorem main_loop_follows_schedule (T : AnyTut) (env : Env) (polls : List (Option SDL_Event))
    (w : World) :
    ((T.main_loop env polls w).1 = true ↔ ∃ ev, some ev ∈ polls ∧ ev.type = SDL_QUIT) ∧
    (T.main_loop env polls w).2.calls = w.calls ++ newCalls w (T.main_loop env polls w).2 ∧
    (newCalls w (T.main_loop env polls w).2).filter Call.isLoopEvent = loop_schedule polls ∧
    (∀ pre ev post, polls = pre ++ some ev :: post → ev.type = SDL_QUIT →
      (∀ e, some e ∈ pre → e.type ≠ SDL_QUIT) →
      (T.main_loop env polls w).1 = true ∧
      (newCalls w (T.main_loop env polls w).2).filter Call.isLoopEvent =
        loop_schedule pre ++ [.SDL_PollEvent (some ev)] ∧
      (loop_schedule pre).count (.enter .render) = pre.count none ∧
      (loop_schedule pre).filterMap Call.polled? = pre) := by
  obtain ⟨onEvent, frame, hE, hF, heq⟩ := any_frame T
  have hs := poll_loop_schedule onEvent frame hE hF polls (emit (.enter .main_loop) w)
  have hc : (T.main_loop env polls w).2.calls = w.calls ++ ([.enter .main_loop] ++
      newCalls (emit (.enter .main_loop) w) (T.main_loop env polls w).2) := by
    rw [heq, hs.1]
    simp [emit]
  have hf : (newCalls w (T.main_loop env polls w).2).filter Call.isLoopEvent =
      loop_schedule polls := by
    rw [newCalls_of_append _ _ _ hc, List.filter_append, heq, hs.2]
    simp [Call.isLoopEvent]
  refine ⟨main_loop_returns T env polls w, ?_, hf, ?_⟩
  · rw [newCalls_of_append _ _ _ hc]
    exact hc
  · intro pre ev post hp hq hpre
    have s1 := loop_schedule_until_quit pre post ev hq hpre
    obtain ⟨s2, s3⟩ := loop_schedule_renders pre hpre
    refine ⟨(main_loop_returns T env polls w).2 ⟨ev, by rw [hp]; simp, hq⟩, ?_, s2, s3⟩
    rw [hf, hp, s1]

/-- The premises of C12 hold for tut05 with two empty polls, a quit event and one more
pending poll. -/
theorem main_loop_follows_schedule_witness :
    [none, none, some quitEvent, none] = [none, none] ++ some quitEvent :: [none] ∧
    quitEvent.type = SDL_QUIT ∧
    (∀ e : SDL_Event, some e ∈ ([none, none] : List (Option SDL_Event)) → e.type ≠ SDL_QUIT) ∧
    (newCalls {} (AnyTut.main_loop (.later .tut05) acceptingEnv
        [none, none, some quitEvent, none] {}).2).filter Call.isLoopEvent =
      loop_schedule [none, none] ++ [.SDL_PollEvent (some quitEvent)] :=
  ⟨rfl, rfl, by simp,
    ((main_loop_follows_schedule (.later .tut05) acceptingEnv [none, none, some quitEvent, none]
      {}).2.2.2 [none, none] quitEvent [none] rfl rfl (by simp)).2.1⟩

theorem startup_ok (env : Env) :
    (startup env {}).1 = true ↔
      (env.createWindow && env.createContext && env.glewOk && env.glewVersion20) = true := by
  cases h1 : env.createWindow <;> cases h2 : env.createContext <;> cases h3 : env.glewOk <;>
    cases h4 : env.glewVersion20 <;> simp [startup, h1, h2, h3, h4]

/-- What decides the exit status of each of the five mains, for every environment: it
is `EXIT_FAILURE` whenever an outcome that `main` tests fails (`AnyTut.checks`: in tut02
to tut05 the window, the context, `glewInit` and the version test; in tut01 `glewInit`
alone) or `init_resources` returns false; it is `EXIT_SUCCESS` exactly when all of these
succeeded and a quit event is among the polled events; and `main` is still in its loop at
the end of the polled events exactly when all of these succeeded and no quit event was
polled. -/
theorem exit_status_follows_checks (T : AnyTut) (env : Env) (polls : List (Option SDL_Event)) :
    ((T.checks env = false ∨ (T.init_resources env (T.started env)).1 = false) →
      (T.main env polls).1 = some EXIT_FAILURE) ∧
    ((T.main env polls).1 = some EXIT_SUCCESS ↔
      T.checks env = true ∧ (T.init_resources env (T.started env)).1 = true ∧
        ∃ ev, some ev ∈ polls ∧ ev.type = SDL_QUIT) ∧
    ((T.main env polls).1 = none ↔
      T.checks env = true ∧ (T.init_resources env (T.started env)).1 = true ∧
        ¬ ∃ ev, some ev ∈ polls ∧ ev.type = SDL_QUIT) := by
  cases T with
  | tut01 =>
    have hl := main_loop_returns .tut01 env polls (Tut01.init_resources env (Tut01.started env)).2
    simp only [AnyTut.main_loop] at hl
    simp only [AnyTut.checks, AnyTut.init_resources, AnyTut.started, AnyTut.main]
    rw [tut01_main_eq]
    rw [← hl]
    cases h1 : env.glewOk <;> cases h2 : (Tut01.init_resources env (Tut01.started env)).1 <;>
      cases h3 : (Tut01.main_loop env polls (Tut01.init_resources env (Tut01.started env)).2).1 <;>
      simp
  | later t =>
    have hl := main_loop_returns (.later t) env polls
      (t.before_loop (t.init_resources env (startup env {}).2).2)
    simp only [AnyTut.main_loop] at hl
    have hs := startup_ok env
    simp only [AnyTut.checks, AnyTut.init_resources, AnyTut.started, AnyTut.main]
    rw [tut_main_eq]
    rw [← hl]
    cases h0 : (env.createWindow && env.createContext && env.glewOk && env.glewVersion20) <;>
      rw [h0] at hs <;>
      cases h1 : (startup env {}).1 <;> rw [h1] at hs <;> simp at hs <;>
      cases h2 : (t.init_resources env (startup env {}).2).1 <;>
      cases h3 : (t.main_loop env polls
        (t.before_loop (t.init_resources env (startup env {}).2).2)).1 <;>
      simp

/-- Without a window `main` of tut03 returns `EXIT_FAILURE`. -/
theorem exit_status_follows_checks_witness :
    (AnyTut.checks (.later .tut03) noWindowEnv = false ∨
      (AnyTut.init_resources (.later .tut03) noWindowEnv
        (AnyTut.started (.later .tut03) noWindowEnv)).1 = false) ∧
    (AnyTut.main (.later .tut03) noWindowEnv [some quitEvent]).1 = some EXIT_FAILURE :=
  ⟨Or.inl (by decide),
    (exit_status_follows_checks (.later .tut03) noWindowEnv [some quitEvent]).1
      (Or.inl (by decide))⟩

/-- Claim C18. The table `cube_elements` has 36 entries, each an index below 8 into the
eight corners of `cube_vertices` (coordinates +1 or -1, no two corners alike); its 12
consecutive triples each name three different corners lying on one face of the cube; each
of the six faces holds exactly two of the triangles, and these two are the two halves of
the face: they touch all four corners of the face, have exactly two corners in common,
lie on different sides of the line through these, and their areas add up to the area of
the face. The table is uploaded as 72 bytes and `render` draws 36 elements. -/
theorem cube_elements_tessellate :
    Tut05.cube_elements.length = 36 ∧
    Tut05.cube_vertices.length = 3 * 8 ∧
    (∀ v ∈ Tut05.cube_vertices, v = 1 ∨ v = -1) ∧
    (∀ i < 8, ∀ j < 8, i ≠ j → ∃ axis < 3, Tut05.coord i axis ≠ Tut05.coord j axis) ∧
    (∀ i ∈ Tut05.cube_elements, i < 8) ∧
    (Tut05.triangles Tut05.cube_elements).length = 12 ∧
    (∀ t ∈ Tut05.triangles Tut05.cube_elements,
      Tut05.distinctCorners t = true ∧ ∃ face ∈ Tut05.faces, Tut05.triangleOnFace face t = true) ∧
    (∀ face ∈ Tut05.faces,
      ((Tut05.triangles Tut05.cube_elements).filter (Tut05.triangleOnFace face)).length = 2 ∧
      (∀ i < 8, Tut05.onFace face i = true →
        ∃ t ∈ (Tut05.triangles Tut05.cube_elements).filter (Tut05.triangleOnFace face),
          Tut05.hasCorner i t = true) ∧
      ∃ t ∈ Tut05.triangles Tut05.cube_elements, ∃ u ∈ Tut05.triangles Tut05.cube_elements,
        (Tut05.triangles Tut05.cube_elements).filter (Tut05.triangleOnFace face) = [t, u] ∧
        Tut05.halvesOf face t u = true) ∧
    Call.glBufferData .GL_ELEMENT_ARRAY_BUFFER (2 * Tut05.cube_elements.length) ∈
      (Tut05.main acceptingEnv [none, some quitEvent]).2.calls ∧
    (Tut05.main acceptingEnv [none, some quitEvent]).2.calls.filterMap Call.drawn? =
      [(Tut05.cube_elements.length : Int)] := by
  decide

end LearningOpenGL
